import Mathlib

/-!
# Synaptics TouchPad absolute-mode packet handling

A shallow embedding of the packet framing, field decoding and multi-contact
slot tracking code of `drivers/input/mouse/synaptics.c`, followed by theorems
about it.

Conventions of the embedding:

* a byte of the serial stream is a `Fin 256`; a packet buffer is a list of
  bytes and `byteAt buf i` is the C expression `buf[i]` promoted to `int`;
* C `int` fields are `Int`; one-bit bitfields and `bool` fields are `Bool`;
* functions that mutate `*priv`, `*hw` or `*mt_state` return the new value;
* calls into the input core (`input_report_key`, `input_sync`, ...) append an
  `input_event` to the list of emitted events;
* the capability macros of the header `synaptics.h` are represented by the
  fields of `synaptics_device_info`, each field holding the value of the
  macro named in its comment.
-/

namespace Synaptics

/-! ## Constants -/

def XMIN : Int := 0
def XMAX : Int := 6143
def YMIN : Int := 0
def YMAX : Int := 6143
def XMIN_NOMINAL : Int := 1472
def XMAX_NOMINAL : Int := 5472
def YMIN_NOMINAL : Int := 1408
def YMAX_NOMINAL : Int := 4448

/-- Size in bits of absolute position values reported by the hardware. -/
def ABS_POS_BITS : Nat := 13

def X_MAX_POSITIVE : Int := 8176
def Y_MAX_POSITIVE : Int := 8176

/-! ## Data model -/

/-- One byte received from the serial port. -/
abbrev Byte := Fin 256

/-- The C expression `buf[i]` for an `unsigned char buf[]`, as a natural number. -/
def byteAt (buf : List Byte) (i : Nat) : Nat := (buf.getD i 0).val

/-- The C conversion `(signed char)(b)` of a byte value. -/
def signed_char (b : Nat) : Int := if b % 256 < 128 then (b % 256 : Nat) else ((b % 256 : Nat) : Int) - 256

/-- Values of `priv->pkt_type` (enum `synaptics_pkt_type`). -/
def SYN_NEWABS : Nat := 0
def SYN_NEWABS_STRICT : Nat := 1
def SYN_NEWABS_RELAXED : Nat := 2
def SYN_OLDABS : Nat := 3

/-- Return values of a protocol handler (`psmouse_ret_t`). -/
inductive psmouse_ret_t where
  | PSMOUSE_BAD_DATA
  | PSMOUSE_GOOD_DATA
  | PSMOUSE_FULL_PACKET
deriving DecidableEq, Repr

structure synaptics_mt_state where
  /-- num fingers being tracked -/
  count : Int
  /-- which slot is reported by sgm pkt -/
  sgm : Int
  /-- which slot is reported by agm pkt -/
  agm : Int
deriving DecidableEq, Repr

structure synaptics_hw_state where
  x : Int
  y : Int
  z : Int
  w : Int
  left : Bool
  right : Bool
  middle : Bool
  up : Bool
  down : Bool
  ext_buttons : Nat
  scroll : Int
  /-- As reported in last AGM-CONTACT packets -/
  mt_state : synaptics_mt_state
deriving DecidableEq, Repr

/-- Capabilities of the device, read once at session start and never written by
the packet code.  Each field is the value of a `synaptics.h` macro applied to
the corresponding query result. -/
structure synaptics_device_info where
  /-- Value of `SYN_MODEL_NEWABS(model_id)` -/
  newabs : Bool
  /-- Value of `SYN_MODEL_PEN(model_id)` -/
  pen : Bool
  /-- Value of `SYN_CAP_EXTENDED(capabilities)` -/
  extended : Bool
  /-- Value of `SYN_CAP_MIDDLE_BUTTON(capabilities)` -/
  middle_button : Bool
  /-- Value of `SYN_CAP_PASS_THROUGH(capabilities)` -/
  pass_through : Bool
  /-- Value of `SYN_CAP_FOUR_BUTTON(capabilities)` -/
  four_button : Bool
  /-- Value of `SYN_CAP_MULTIFINGER(capabilities)` -/
  multifinger : Bool
  /-- Value of `SYN_CAP_PALMDETECT(capabilities)` -/
  palmdetect : Bool
  /-- Value of `SYN_CAP_MULTI_BUTTON_NO(ext_cap)`, a four-bit field -/
  multi_button_no : Fin 16
  /-- Value of `SYN_CAP_CLICKPAD(ext_cap_0c)` -/
  clickpad : Bool
  /-- Value of `SYN_CAP_ADV_GESTURE(ext_cap_0c)` -/
  adv_gesture : Bool
  /-- Value of `SYN_CAP_IMAGE_SENSOR(ext_cap_0c)` -/
  image_sensor : Bool
  /-- Value of `SYN_CAP_EXT_BUTTONS_STICK(ext_cap_10)` -/
  ext_buttons_stick : Bool
  /-- Value of `SYN_ID_FULL(identity)` -/
  id_full : Nat
deriving DecidableEq, Repr

structure synaptics_data where
  info : synaptics_device_info
  /-- packet type - old, new, etc -/
  pkt_type : Nat
  scroll : Int
  /-- whether a pass-through serio port is registered (`pt_port != NULL`) -/
  pt_port : Bool
  /-- Current mt finger state -/
  mt_state : synaptics_mt_state
  /-- mt_state may be incorrect -/
  mt_state_lost : Bool
  /-- Last received Advanced Gesture Mode (AGM) packet -/
  agm : synaptics_hw_state
  /-- new AGM packet received -/
  agm_pending : Bool
deriving DecidableEq, Repr

/-- The result of `memset(hw, 0, sizeof(struct synaptics_hw_state))`. -/
def hw_state_zero : synaptics_hw_state :=
  { x := 0, y := 0, z := 0, w := 0, left := false, right := false, middle := false,
    up := false, down := false, ext_buttons := 0, scroll := 0,
    mt_state := { count := 0, sgm := 0, agm := 0 } }

/-- The private data as `synaptics_init` leaves it: `kzalloc` zeroes every
field, then `info` and `pkt_type` are assigned. -/
def synaptics_data_init (info : synaptics_device_info) : synaptics_data :=
  { info := info,
    pkt_type := if info.newabs then SYN_NEWABS else SYN_OLDABS,
    scroll := 0, pt_port := false,
    mt_state := { count := 0, sgm := 0, agm := 0 },
    mt_state_lost := false, agm := hw_state_zero, agm_pending := false }

/-! ## Events handed to the input core -/

inductive key_code where
  | BTN_LEFT | BTN_RIGHT | BTN_MIDDLE | BTN_FORWARD | BTN_BACK
  | BTN_TOUCH | BTN_TOOL_FINGER | BTN_TOOL_DOUBLETAP | BTN_TOOL_TRIPLETAP
  /-- the code `BTN_0 + k` -/
  | BTN_0_plus (k : Nat)
deriving DecidableEq, Repr

inductive abs_code where
  | ABS_X | ABS_Y | ABS_PRESSURE | ABS_TOOL_WIDTH
  | ABS_MT_POSITION_X | ABS_MT_POSITION_Y | ABS_MT_PRESSURE
deriving DecidableEq, Repr

inductive input_event where
  /-- The call `input_report_key(dev, code, value)`; the input core reduces value to `!!value` -/
  | key (code : key_code) (value : Bool)
  /-- The call `input_report_abs(dev, code, value)` -/
  | abs (code : abs_code) (value : Int)
  /-- The call `input_mt_slot(dev, slot)` -/
  | mt_slot (slot : Int)
  /-- The call `input_mt_report_slot_state(dev, MT_TOOL_FINGER, active)` -/
  | mt_slot_state (active : Bool)
  /-- The call `input_mt_report_pointer_emulation(dev, use_count)` -/
  | mt_pointer_emulation (use_count : Bool)
  /-- The call `input_mt_report_finger_count(dev, count)` -/
  | mt_finger_count (count : Int)
  /-- The call `serio_interrupt(priv->pt_port, data, flags)`, flags being `SERIO_OOB_DATA` or 0 -/
  | serio_interrupt (data : Nat) (oob : Bool)
  /-- The call `input_sync(dev)` -/
  | sync
deriving DecidableEq, Repr

/-- Out-of-band marker sent to the pass-through port before the stick buttons. -/
def PSMOUSE_OOB_EXTRA_BTNS : Nat := 1

/-! ## Functions to interpret the absolute mode packets -/

def synaptics_invert_y (y : Int) : Int := YMAX_NOMINAL + YMIN_NOMINAL - y

def synaptics_has_agm (priv : synaptics_data) : Bool :=
  priv.info.adv_gesture || priv.info.image_sensor

def synaptics_mt_state_set (_state : synaptics_mt_state) (count sgm agm : Int) :
    synaptics_mt_state :=
  { count := count, sgm := sgm, agm := agm }

def synaptics_parse_agm (buf : List Byte) (priv : synaptics_data)
    (hw : synaptics_hw_state) : synaptics_data :=
  let agm := priv.agm
  let agm_packet_type := (byteAt buf 5 &&& 0x30) >>> 4
  let agm1 : synaptics_hw_state :=
    if agm_packet_type = 1 then
      -- Gesture packet: (x, y, z) half resolution
      { agm with
        w := hw.w,
        x := (((((byteAt buf 4 &&& 0x0f) <<< 8) ||| byteAt buf 1) <<< 1 : Nat) : Int),
        y := (((((byteAt buf 4 &&& 0xf0) <<< 4) ||| byteAt buf 2) <<< 1 : Nat) : Int),
        z := ((((byteAt buf 3 &&& 0x30) ||| (byteAt buf 5 &&& 0x0f)) <<< 1 : Nat) : Int) }
    else if agm_packet_type = 2 then
      -- AGM-CONTACT packet: (count, sgm, agm)
      { agm with
        mt_state := synaptics_mt_state_set agm.mt_state
          (byteAt buf 1 : Nat) (byteAt buf 2 : Nat) (byteAt buf 4 : Nat) }
    else agm
  -- Record that at least one AGM has been received since last SGM
  { priv with agm := agm1, agm_pending := true }

/-- The macro `GENMASK(h, 0)`: bits `h` down to 0 set. -/
def GENMASK0 (h : Nat) : Nat := 2 ^ (h + 1) - 1

/-- The field `ext_buttons` is the eight-bit member of `struct
synaptics_hw_state`; a store into it keeps the low eight bits. -/
def synaptics_parse_ext_buttons (buf : List Byte) (priv : synaptics_data)
    (hw : synaptics_hw_state) : synaptics_hw_state :=
  let ext_bits := (priv.info.multi_button_no.val + 1) >>> 1
  let ext_mask := GENMASK0 (ext_bits - 1)
  let e1 := (byteAt buf 4 &&& ext_mask) % 256
  let e2 := (e1 ||| ((byteAt buf 5 &&& ext_mask) <<< ext_bits)) % 256
  { hw with ext_buttons := e2 }

/-- The tail of `synaptics_parse_hw_state`: convert wrap-around values to
negative, and the value (X|Y)_MAX_POSITIVE to the maximum axis value. -/
def convert_wraparound (hw : synaptics_hw_state) : synaptics_hw_state :=
  let hw1 : synaptics_hw_state :=
    if hw.x > X_MAX_POSITIVE then { hw with x := hw.x - ((1 <<< ABS_POS_BITS : Nat) : Int) }
    else if hw.x = X_MAX_POSITIVE then { hw with x := XMAX }
    else hw
  if hw1.y > Y_MAX_POSITIVE then { hw1 with y := hw1.y - ((1 <<< ABS_POS_BITS : Nat) : Int) }
  else if hw1.y = Y_MAX_POSITIVE then { hw1 with y := YMAX }
  else hw1

/-- The raw x coordinate assembled from a new-absolute packet. -/
def newabs_raw_x (buf : List Byte) : Nat :=
  ((byteAt buf 3 &&& 0x10) <<< 8) ||| ((byteAt buf 1 &&& 0x0f) <<< 8) ||| byteAt buf 4

/-- The raw y coordinate assembled from a new-absolute packet. -/
def newabs_raw_y (buf : List Byte) : Nat :=
  ((byteAt buf 3 &&& 0x20) <<< 7) ||| ((byteAt buf 1 &&& 0xf0) <<< 4) ||| byteAt buf 5

/-- The raw x coordinate assembled from an old-absolute packet. -/
def oldabs_raw_x (buf : List Byte) : Nat :=
  ((byteAt buf 1 &&& 0x1f) <<< 8) ||| byteAt buf 2

/-- The raw y coordinate assembled from an old-absolute packet. -/
def oldabs_raw_y (buf : List Byte) : Nat :=
  ((byteAt buf 4 &&& 0x1f) <<< 8) ||| byteAt buf 5

/-- Lines 746-770 of `synaptics_parse_hw_state` (new-absolute layout): the
width code and the button bits, with the scroll delta of a middle-button
device. -/
def parse_newabs_w_buttons (buf : List Byte) (priv : synaptics_data) : synaptics_hw_state :=
  let hw := hw_state_zero
  let hw : synaptics_hw_state :=
    { hw with
      w := (((((byteAt buf 0 &&& 0x30) >>> 2) ||| ((byteAt buf 0 &&& 0x04) >>> 1) |||
            ((byteAt buf 3 &&& 0x04) >>> 2)) : Nat) : Int),
      left := decide (byteAt buf 0 &&& 0x01 ≠ 0),
      right := decide (byteAt buf 0 &&& 0x02 ≠ 0) }
  let hw : synaptics_hw_state :=
    if priv.info.clickpad then
      { hw with left := decide ((byteAt buf 0 ^^^ byteAt buf 3) &&& 0x01 ≠ 0) }
    else if priv.info.middle_button then
      let hw1 : synaptics_hw_state :=
        { hw with middle := decide ((byteAt buf 0 ^^^ byteAt buf 3) &&& 0x01 ≠ 0) }
      if hw1.w = 2 then { hw1 with scroll := signed_char (byteAt buf 1) } else hw1
    else hw
  if priv.info.four_button then
    { hw with
      up := decide ((byteAt buf 0 ^^^ byteAt buf 3) &&& 0x01 ≠ 0),
      down := decide ((byteAt buf 0 ^^^ byteAt buf 3) &&& 0x02 ≠ 0) }
  else hw

/-- Lines 777-788 of `synaptics_parse_hw_state` (new-absolute layout, primary
report): position, pressure and extended buttons. -/
def parse_newabs_position (buf : List Byte) (priv : synaptics_data)
    (hw : synaptics_hw_state) : synaptics_hw_state :=
  let hw : synaptics_hw_state :=
    { hw with
      x := (newabs_raw_x buf : Nat),
      y := (newabs_raw_y buf : Nat),
      z := (byteAt buf 2 : Nat) }
  if priv.info.multi_button_no.val > 0 ∧ (byteAt buf 0 ^^^ byteAt buf 3) &&& 0x02 ≠ 0 then
    synaptics_parse_ext_buttons buf priv hw
  else hw

/-- Lines 790-797 of `synaptics_parse_hw_state`: the old-absolute layout. -/
def parse_oldabs (buf : List Byte) : synaptics_hw_state :=
  { hw_state_zero with
    x := (oldabs_raw_x buf : Nat),
    y := (oldabs_raw_y buf : Nat),
    z := ((((byteAt buf 0 &&& 0x30) <<< 2) ||| (byteAt buf 3 &&& 0x3F) : Nat) : Int),
    w := ((((byteAt buf 1 &&& 0x80) >>> 4) ||| ((byteAt buf 0 &&& 0x04) >>> 1) : Nat) : Int),
    left := decide (byteAt buf 0 &&& 0x01 ≠ 0),
    right := decide (byteAt buf 0 &&& 0x02 ≠ 0) }

/-- Returns the C return value (1 for an AGM packet, else 0), the updated
private data and the decoded hardware state. -/
def synaptics_parse_hw_state (buf : List Byte) (priv : synaptics_data) :
    Int × synaptics_data × synaptics_hw_state :=
  if priv.info.newabs then
    let hw := parse_newabs_w_buttons buf priv
    if synaptics_has_agm priv = true ∧ hw.w = 2 then
      (1, synaptics_parse_agm buf priv hw, hw)
    else
      (0, priv, convert_wraparound (parse_newabs_position buf priv hw))
  else
    (0, priv, convert_wraparound (parse_oldabs buf))

/-! ## Reporting -/

def synaptics_report_semi_mt_slot (slot : Int) (active : Bool) (x y : Int) : List input_event :=
  [input_event.mt_slot slot, input_event.mt_slot_state active] ++
  (if active then
    [input_event.abs abs_code.ABS_MT_POSITION_X x,
     input_event.abs abs_code.ABS_MT_POSITION_Y (synaptics_invert_y y)]
   else [])

def synaptics_report_semi_mt_data (a b : synaptics_hw_state) (num_fingers : Int) :
    List input_event :=
  if num_fingers ≥ 2 then
    synaptics_report_semi_mt_slot 0 true (min a.x b.x) (min a.y b.y) ++
    synaptics_report_semi_mt_slot 1 true (max a.x b.x) (max a.y b.y)
  else if num_fingers = 1 then
    synaptics_report_semi_mt_slot 0 true a.x a.y ++
    synaptics_report_semi_mt_slot 1 false 0 0
  else
    synaptics_report_semi_mt_slot 0 false 0 0 ++
    synaptics_report_semi_mt_slot 1 false 0 0

/-- The macro `BIT(i)`. -/
def BIT (i : Nat) : Nat := 1 <<< i

/-- The byte handed to the trackstick: `SYN_EXT_BUTTON_STICK_L(eb) |
SYN_EXT_BUTTON_STICK_R(eb) << 1 | SYN_EXT_BUTTON_STICK_M(eb) << 2`, the three
macros selecting bits 0, 2 and 1 of `eb`. -/
def pt_buttons (eb : Nat) : Nat :=
  ((eb &&& BIT 0) >>> 0) ||| ((((eb &&& BIT 2) >>> 2) <<< 1) ||| (((eb &&& BIT 1) >>> 1) <<< 2))

def synaptics_report_ext_buttons (packet : List Byte) (priv : synaptics_data)
    (hw : synaptics_hw_state) : List input_event :=
  let ext_bits := (priv.info.multi_button_no.val + 1) >>> 1
  if priv.info.multi_button_no.val = 0 then []
  -- Bug in FW 8.1 & 8.2, buttons are reported only when ExtBit is 1
  else if (priv.info.id_full = 0x801 ∨ priv.info.id_full = 0x802) ∧
      (byteAt packet 0 ^^^ byteAt packet 3) &&& 0x02 = 0 then []
  else if priv.info.ext_buttons_stick = false then
    (List.range ext_bits).flatMap fun i =>
      [input_event.key (key_code.BTN_0_plus (2 * i)) (decide (hw.ext_buttons &&& BIT i ≠ 0)),
       input_event.key (key_code.BTN_0_plus (1 + 2 * i))
         (decide (hw.ext_buttons &&& BIT (i + ext_bits) ≠ 0))]
  else if priv.pt_port then
    [input_event.serio_interrupt PSMOUSE_OOB_EXTRA_BTNS true,
     input_event.serio_interrupt (pt_buttons hw.ext_buttons) true]
  else []

def synaptics_report_buttons (packet : List Byte) (priv : synaptics_data)
    (hw : synaptics_hw_state) : List input_event :=
  [input_event.key key_code.BTN_LEFT hw.left, input_event.key key_code.BTN_RIGHT hw.right] ++
  (if priv.info.middle_button then [input_event.key key_code.BTN_MIDDLE hw.middle] else []) ++
  (if priv.info.four_button then
    [input_event.key key_code.BTN_FORWARD hw.up, input_event.key key_code.BTN_BACK hw.down]
   else []) ++
  synaptics_report_ext_buttons packet priv hw

/-- The argument `hw` is `none` for the C null pointer. -/
def synaptics_report_slot (slot : Int) (hw : Option synaptics_hw_state) : List input_event :=
  [input_event.mt_slot slot, input_event.mt_slot_state hw.isSome] ++
  (match hw with
   | none => []
   | some h =>
     [input_event.abs abs_code.ABS_MT_POSITION_X h.x,
      input_event.abs abs_code.ABS_MT_POSITION_Y (synaptics_invert_y h.y),
      input_event.abs abs_code.ABS_MT_PRESSURE h.z])

def synaptics_report_mt_data (packet : List Byte) (priv : synaptics_data)
    (mt_state : synaptics_mt_state) (sgm : synaptics_hw_state) : List input_event :=
  let agm := priv.agm
  let old := priv.mt_state
  (if mt_state.count = 0 then
    synaptics_report_slot 0 none ++ synaptics_report_slot 1 none
  else if mt_state.count = 1 then
    if mt_state.sgm = -1 then
      synaptics_report_slot 0 none ++ synaptics_report_slot 1 none
    else if mt_state.sgm = 0 then
      synaptics_report_slot 0 (some sgm) ++ synaptics_report_slot 1 none
    else
      synaptics_report_slot 0 none ++ synaptics_report_slot 1 (some sgm)
  else
    (if mt_state.sgm ≠ -1 ∧
        (mt_state.sgm = old.sgm ∨ old.sgm = -1 ∨ mt_state.agm = old.sgm) then
      synaptics_report_slot 0 (some sgm)
    else synaptics_report_slot 0 none) ++
    (if mt_state.agm ≠ -1 ∧
        (mt_state.agm = old.agm ∨
          (old.agm = -1 ∧ (old.sgm = -1 ∨ mt_state.agm = old.sgm))) then
      synaptics_report_slot 1 (some agm)
    else synaptics_report_slot 1 none)) ++
  -- Don't use active slot count to generate BTN_TOOL events.
  [input_event.mt_pointer_emulation false,
   -- Send the number of fingers reported by touchpad itself.
   input_event.mt_finger_count mt_state.count] ++
  synaptics_report_buttons packet priv sgm ++
  [input_event.sync]

/-! ## The multi-contact slot tracker -/

/-- Handle case where mt_state->count = 0 -/
def synaptics_image_sensor_0f (priv : synaptics_data) (mt_state : synaptics_mt_state) :
    synaptics_data × synaptics_mt_state :=
  ({ priv with mt_state_lost := false }, synaptics_mt_state_set mt_state 0 (-1) (-1))

/-- Handle case where mt_state->count = 1 -/
def synaptics_image_sensor_1f (priv : synaptics_data) (mt_state : synaptics_mt_state) :
    synaptics_data × synaptics_mt_state :=
  let agm := priv.agm
  let old := priv.mt_state
  if priv.agm_pending = true ∧ agm.z = 0 then
    ({ priv with mt_state_lost := false }, synaptics_mt_state_set mt_state 1 0 (-1))
  else if old.count = 0 then
    (priv, synaptics_mt_state_set mt_state 1 0 (-1))
  else if old.count = 1 then
    if priv.mt_state_lost = true ∨ (priv.agm_pending = true ∧ old.sgm ≤ 0) then
      (priv, synaptics_mt_state_set mt_state 1 1 (-1))
    else if old.sgm = -1 then
      (priv, synaptics_mt_state_set mt_state 1 0 (-1))
    else (priv, mt_state)
  else if old.count = 2 then
    if priv.mt_state_lost = true then
      (priv, synaptics_mt_state_set mt_state 1 (-1) (-1))
    else
      (priv, synaptics_mt_state_set mt_state 1 old.agm (-1))
  else if old.count = 3 then
    ({ priv with mt_state_lost := true }, synaptics_mt_state_set mt_state 1 (-1) (-1))
  else
    -- case 4, case 5: mt_state was updated by AGM-CONTACT packet; no default case
    (priv, mt_state)

/-- Handle case where mt_state->count = 2 -/
def synaptics_image_sensor_2f (priv : synaptics_data) (mt_state : synaptics_mt_state) :
    synaptics_data × synaptics_mt_state :=
  let old := priv.mt_state
  if old.count = 0 then
    (priv, synaptics_mt_state_set mt_state 2 0 1)
  else if old.count = 1 then
    if old.sgm ≥ 1 then
      (priv, synaptics_mt_state_set mt_state 2 0 old.sgm)
    else
      (priv, synaptics_mt_state_set mt_state 2 0 1)
  else if old.count = 2 then
    if priv.mt_state_lost = true then
      (priv, synaptics_mt_state_set mt_state 2 0 1)
    else (priv, mt_state)
  else if old.count = 3 then
    ({ priv with mt_state_lost := true }, synaptics_mt_state_set mt_state 2 (-1) (-1))
  else
    -- case 4, case 5: mt_state was updated by AGM-CONTACT packet; no default case
    (priv, mt_state)

/-- Handle case where mt_state->count = 3 -/
def synaptics_image_sensor_3f (priv : synaptics_data) (mt_state : synaptics_mt_state) :
    synaptics_data × synaptics_mt_state :=
  let old := priv.mt_state
  if old.count = 0 then
    (priv, synaptics_mt_state_set mt_state 3 0 2)
  else if old.count = 1 then
    if old.sgm ≥ 2 then
      (priv, synaptics_mt_state_set mt_state 3 0 old.sgm)
    else
      (priv, synaptics_mt_state_set mt_state 3 0 2)
  else if old.count = 2 then
    if old.agm ≥ 3 then
      (priv, synaptics_mt_state_set mt_state 3 0 old.agm)
    else if priv.mt_state_lost = true then
      (priv, synaptics_mt_state_set mt_state 3 (-1) (-1))
    else
      (priv, synaptics_mt_state_set mt_state 3 0 (-1))
  else if old.count = 3 then
    if old.agm ≤ 2 then
      (priv, synaptics_mt_state_set mt_state 3 0 2)
    else (priv, mt_state)
  else
    -- case 4, case 5: mt_state was updated by AGM-CONTACT packet; no default case
    (priv, mt_state)

/-- Handle case where mt_state->count = 4, or = 5 -/
def synaptics_image_sensor_45f (priv : synaptics_data) (mt_state : synaptics_mt_state) :
    synaptics_data × synaptics_mt_state :=
  ({ priv with mt_state_lost := false }, mt_state)

def synaptics_image_sensor_process (packet : List Byte) (priv : synaptics_data)
    (sgm : synaptics_hw_state) : synaptics_data × List input_event :=
  -- Initialize using current mt_state (as updated by last agm)
  let mt_state := priv.agm.mt_state
  -- Update mt_state using the new finger count and current mt_state.
  let r :=
    if sgm.z = 0 then synaptics_image_sensor_0f priv mt_state
    else if sgm.w ≥ 4 then synaptics_image_sensor_1f priv mt_state
    else if sgm.w = 0 then synaptics_image_sensor_2f priv mt_state
    else if sgm.w = 1 ∧ mt_state.count ≤ 3 then synaptics_image_sensor_3f priv mt_state
    else synaptics_image_sensor_45f priv mt_state
  -- Send resulting input events to user space
  let events := synaptics_report_mt_data packet r.1 r.2 sgm
  -- Store updated mt_state
  ({ r.1 with
      mt_state := r.2,
      agm := { r.1.agm with mt_state := r.2 },
      agm_pending := false },
   events)

def synaptics_has_multifinger (priv : synaptics_data) : Bool :=
  if priv.info.multifinger then true
  -- Advanced gesture mode also sends multi finger data
  else synaptics_has_agm priv

/-! ## Processing of a full packet -/

/-- The first loop of the scroll block of `synaptics_process_packet`:
`while (priv->scroll >= 4) { ... priv->scroll -= 4; }`.  Returns the final
accumulator and the events emitted, in order. -/
def scroll_loop_back (scroll : Int) (hw : synaptics_hw_state) : Int × List input_event :=
  if scroll ≥ 4 then
    let r := scroll_loop_back (scroll - 4) hw
    (r.1,
     [input_event.key key_code.BTN_BACK (!hw.down), input_event.sync,
      input_event.key key_code.BTN_BACK hw.down, input_event.sync] ++ r.2)
  else (scroll, [])
termination_by scroll.toNat
decreasing_by omega

/-- The second loop of the scroll block of `synaptics_process_packet`:
`while (priv->scroll <= -4) { ... priv->scroll += 4; }`. -/
def scroll_loop_forward (scroll : Int) (hw : synaptics_hw_state) : Int × List input_event :=
  if scroll ≤ -4 then
    let r := scroll_loop_forward (scroll + 4) hw
    (r.1,
     [input_event.key key_code.BTN_FORWARD (!hw.up), input_event.sync,
      input_event.key key_code.BTN_FORWARD hw.up, input_event.sync] ++ r.2)
  else (scroll, [])
termination_by (-scroll).toNat
decreasing_by omega

/-- The block `if (hw.scroll) { ... return; }` of `synaptics_process_packet`,
entered with `hw.scroll != 0`: the new accumulator and the events emitted. -/
def scroll_block (scroll : Int) (hw : synaptics_hw_state) : Int × List input_event :=
  let s0 := scroll + hw.scroll
  let r1 := scroll_loop_back s0 hw
  let r2 := scroll_loop_forward r1.1 hw
  (r2.1, r1.2 ++ r2.2)

/-- The pair `(num_fingers, finger_width)` computed by `synaptics_process_packet`. -/
def fingers_and_width (priv : synaptics_data) (hw : synaptics_hw_state) : Int × Int :=
  if hw.z > 0 ∧ hw.x > 1 then
    if priv.info.extended then
      if 0 ≤ hw.w ∧ hw.w ≤ 1 then
        (if synaptics_has_multifinger priv then hw.w + 2 else 1, 5)
      else if hw.w = 2 then
        -- Nothing, treat a pen as a single finger
        (1, 5)
      else if 4 ≤ hw.w ∧ hw.w ≤ 15 then
        (1, if priv.info.palmdetect then hw.w else 5)
      else (1, 5)
    else (1, 5)
  else (0, 0)

/-- Lines 1348-1400 of `synaptics_process_packet`: the events posted for a
primary report that is neither tracked by the image-sensor code nor a scroll
report. -/
def process_packet_report (packet : List Byte) (priv : synaptics_data)
    (hw : synaptics_hw_state) : List input_event :=
  let nf := fingers_and_width priv hw
  let num_fingers := nf.1
  let finger_width := nf.2
  (if priv.info.adv_gesture then synaptics_report_semi_mt_data hw priv.agm num_fingers
   else []) ++
  (if hw.z > 30 then [input_event.key key_code.BTN_TOUCH true] else []) ++
  (if hw.z < 25 then [input_event.key key_code.BTN_TOUCH false] else []) ++
  (if num_fingers > 0 then
    [input_event.abs abs_code.ABS_X hw.x,
     input_event.abs abs_code.ABS_Y (synaptics_invert_y hw.y)]
   else []) ++
  [input_event.abs abs_code.ABS_PRESSURE hw.z] ++
  (if priv.info.palmdetect then [input_event.abs abs_code.ABS_TOOL_WIDTH finger_width]
   else []) ++
  [input_event.key key_code.BTN_TOOL_FINGER (decide (num_fingers = 1))] ++
  (if synaptics_has_multifinger priv then
    [input_event.key key_code.BTN_TOOL_DOUBLETAP (decide (num_fingers = 2)),
     input_event.key key_code.BTN_TOOL_TRIPLETAP (decide (num_fingers = 3))]
   else []) ++
  synaptics_report_buttons packet priv hw ++
  [input_event.sync]

/-- Called for each full received packet from the touchpad. -/
def synaptics_process_packet (packet : List Byte) (priv : synaptics_data) :
    synaptics_data × List input_event :=
  let r := synaptics_parse_hw_state packet priv
  if r.1 ≠ 0 then (r.2.1, [])
  else
    let priv := r.2.1
    let hw := r.2.2
    if priv.info.image_sensor then synaptics_image_sensor_process packet priv hw
    else if hw.scroll ≠ 0 then
      let sb := scroll_block priv.scroll hw
      ({ priv with scroll := sb.1 }, sb.2)
    else
      (priv, process_packet_report packet priv hw)

/-! ## Packet framing -/

def newabs_mask : List Nat := [0xC8, 0x00, 0x00, 0xC8, 0x00]
def newabs_rel_mask : List Nat := [0xC0, 0x00, 0x00, 0xC0, 0x00]
def newabs_rslt : List Nat := [0x80, 0x00, 0x00, 0xC0, 0x00]
def oldabs_mask : List Nat := [0xC0, 0x60, 0x00, 0xC0, 0x60]
def oldabs_rslt : List Nat := [0xC0, 0x00, 0x00, 0x80, 0x00]

/-- The packet is read through a `const char *`; every mask is below 256, so
the sign extension of a byte above 127 does not reach the masked bits and the
byte is taken as its unsigned value. -/
def synaptics_validate_byte (packet : List Byte) (idx : Int) (pkt_type : Nat) : Bool :=
  if idx < 0 ∨ idx > 4 then false
  else if pkt_type = SYN_NEWABS ∨ pkt_type = SYN_NEWABS_RELAXED then
    decide (byteAt packet idx.toNat &&& newabs_rel_mask.getD idx.toNat 0 =
      newabs_rslt.getD idx.toNat 0)
  else if pkt_type = SYN_NEWABS_STRICT then
    decide (byteAt packet idx.toNat &&& newabs_mask.getD idx.toNat 0 =
      newabs_rslt.getD idx.toNat 0)
  else if pkt_type = SYN_OLDABS then
    decide (byteAt packet idx.toNat &&& oldabs_mask.getD idx.toNat 0 =
      oldabs_rslt.getD idx.toNat 0)
  else
    -- unknown packet type
    false

def synaptics_detect_pkt_type (packet : List Byte) : Nat :=
  if (List.range 5).all fun i => synaptics_validate_byte packet (i : Nat) SYN_NEWABS_STRICT then
    SYN_NEWABS_STRICT
  else
    -- using relaxed packet validation
    SYN_NEWABS_RELAXED

def synaptics_is_pt_packet (buf : List Byte) : Bool :=
  decide (byteAt buf 0 &&& 0xFC = 0x84) && decide (byteAt buf 3 &&& 0xCC = 0xC4)

/-- The part of `struct psmouse` the packet code reads and writes.  The two
`pt_child` fields stand for the state of the device behind the pass-through
port (`child && child->state == PSMOUSE_ACTIVATED`, `child->pktsize`). -/
structure psmouse where
  /-- the bytes of the packet received so far -/
  packet : List Byte
  pktcnt : Nat
  /-- the field `private` -/
  priv : synaptics_data
  pt_child_activated : Bool
  pt_child_pktsize : Nat
deriving DecidableEq, Repr

def synaptics_pass_pt_packet (ps : psmouse) (packet : List Byte) : List input_event :=
  if ps.pt_child_activated then
    [input_event.serio_interrupt (byteAt packet 1) false,
     input_event.serio_interrupt (byteAt packet 4) false,
     input_event.serio_interrupt (byteAt packet 5) false] ++
    (if ps.pt_child_pktsize = 4 then [input_event.serio_interrupt (byteAt packet 2) false]
     else [])
  else
    [input_event.serio_interrupt (byteAt packet 1) false]

def synaptics_process_byte (ps : psmouse) : psmouse_ret_t × psmouse × List input_event :=
  let priv := ps.priv
  if ps.pktcnt ≥ 6 then
    -- Full packet received
    let priv : synaptics_data :=
      if priv.pkt_type = SYN_NEWABS then
        { priv with pkt_type := synaptics_detect_pkt_type ps.packet }
      else priv
    if priv.info.pass_through = true ∧ synaptics_is_pt_packet ps.packet = true then
      (psmouse_ret_t.PSMOUSE_FULL_PACKET, { ps with priv := priv },
       if priv.pt_port then synaptics_pass_pt_packet ps ps.packet else [])
    else
      let r := synaptics_process_packet ps.packet priv
      (psmouse_ret_t.PSMOUSE_FULL_PACKET, { ps with priv := r.1 }, r.2)
  else
    (if synaptics_validate_byte ps.packet ((ps.pktcnt : Int) - 1) priv.pkt_type then
       psmouse_ret_t.PSMOUSE_GOOD_DATA
     else psmouse_ret_t.PSMOUSE_BAD_DATA,
     ps, [])

/-- Modelled from the spec: the byte-stream-in interface `feed(byte)` of the
Packet Framer (the byte counter and packet buffer kept by the PS/2 mouse core,
whose receive routine is not among the sources).  The byte is stored at the
current index and the counter advanced, the protocol handler
`synaptics_process_byte` is called, and the counter is reset and the
accumulated bytes discarded when the handler reports a bad byte or a full
packet. -/
def feed (ps : psmouse) (byte : Byte) : psmouse_ret_t × psmouse × List input_event :=
  let ps1 : psmouse := { ps with packet := ps.packet ++ [byte], pktcnt := ps.pktcnt + 1 }
  let r := synaptics_process_byte ps1
  if r.1 = psmouse_ret_t.PSMOUSE_GOOD_DATA then (r.1, r.2.1, r.2.2)
  else (r.1, { r.2.1 with packet := [], pktcnt := 0 }, r.2.2)

/-- Feed a byte stream to the framer, collecting what it reports for each byte. -/
def feed_all : psmouse → List Byte → List psmouse_ret_t × psmouse
  | ps, [] => ([], ps)
  | ps, b :: bs =>
    let r := feed ps b
    let rest := feed_all r.2.1 bs
    (r.1 :: rest.1, rest.2)

/-! ## Sample devices and states used to instantiate the theorems -/

/-- An image-sensor touchpad with no other optional capability. -/
def info_image_sensor : synaptics_device_info :=
  { newabs := true, pen := false, extended := true, middle_button := false,
    pass_through := false, four_button := false, multifinger := false, palmdetect := false,
    multi_button_no := 0, clickpad := false, adv_gesture := false, image_sensor := true,
    ext_buttons_stick := false, id_full := 0 }

/-- Private data of an image-sensor device holding the tracked state
`{count, sgm, agm}` (also as buffered contact-count sample), the given
`mt_state_lost` and `agm_pending` flags and a buffered gesture sample of
pressure `agm_z`. -/
def priv_tracking (count sgm agm : Int) (lost pending : Bool) (agm_z : Int) : synaptics_data :=
  { synaptics_data_init info_image_sensor with
    pkt_type := SYN_NEWABS_RELAXED,
    mt_state := { count := count, sgm := sgm, agm := agm },
    mt_state_lost := lost,
    agm := { hw_state_zero with z := agm_z, mt_state := { count := count, sgm := sgm, agm := agm } },
    agm_pending := pending }

/-- A decoded primary report with pressure `z` and width code `w`. -/
def hw_primary (z w : Int) : synaptics_hw_state :=
  { hw_state_zero with x := 3000, y := 3000, z := z, w := w }

/-! ## Theorems: the slot tracker -/

/-- C1: on an image-sensor device a primary packet with pressure z = 0 leaves
the tracked state equal to {0, -1, -1} with `mt_state_lost` cleared, whatever
the prior state, the ambiguity flag and the buffered or pending secondary
sample were; a second such packet gives the same state again. -/
theorem image_sensor_zero_fingers_resets (packet : List Byte) (priv : synaptics_data)
    (sgm : synaptics_hw_state) (hz : sgm.z = 0) :
    (synaptics_image_sensor_process packet priv sgm).1.mt_state =
        { count := 0, sgm := -1, agm := -1 } ∧
    (synaptics_image_sensor_process packet priv sgm).1.mt_state_lost = false ∧
    ∀ (packet2 : List Byte) (sgm2 : synaptics_hw_state), sgm2.z = 0 →
      (synaptics_image_sensor_process packet2
          (synaptics_image_sensor_process packet priv sgm).1 sgm2).1.mt_state =
        { count := 0, sgm := -1, agm := -1 } ∧
      (synaptics_image_sensor_process packet2
          (synaptics_image_sensor_process packet priv sgm).1 sgm2).1.mt_state_lost = false := by
  refine ⟨?_, ?_, ?_⟩
  · simp [synaptics_image_sensor_process, synaptics_image_sensor_0f, synaptics_mt_state_set, hz]
  · simp [synaptics_image_sensor_process, synaptics_image_sensor_0f, hz]
  · intro packet2 sgm2 hz2
    constructor
    · simp [synaptics_image_sensor_process, synaptics_image_sensor_0f, synaptics_mt_state_set,
        hz2]
    · simp [synaptics_image_sensor_process, synaptics_image_sensor_0f, hz2]

/-- Witness for C1: prior state {3, 0, 2} with the ambiguity flag set and a
secondary sample pending. -/
theorem image_sensor_zero_fingers_resets_witness :
    (hw_primary 0 5).z = 0 ∧
    (synaptics_image_sensor_process [] (priv_tracking 3 0 2 true true 40)
        (hw_primary 0 5)).1.mt_state = { count := 0, sgm := -1, agm := -1 } :=
  ⟨rfl, (image_sensor_zero_fingers_resets [] (priv_tracking 3 0 2 true true 40)
    (hw_primary 0 5) rfl).1⟩

/-- C2: from every prior tracked state with count 3 a primary packet indicating
2 contacts (z > 0, width code 0) yields {2, -1, -1} and sets `mt_state_lost`. -/
theorem image_sensor_three_to_two (packet : List Byte) (priv : synaptics_data)
    (sgm : synaptics_hw_state) (hcount : priv.mt_state.count = 3) (hz : 0 < sgm.z)
    (hw : sgm.w = 0) :
    (synaptics_image_sensor_process packet priv sgm).1.mt_state =
        { count := 2, sgm := -1, agm := -1 } ∧
    (synaptics_image_sensor_process packet priv sgm).1.mt_state_lost = true := by
  have hz0 : sgm.z ≠ 0 := by omega
  constructor <;>
    simp [synaptics_image_sensor_process, synaptics_image_sensor_2f, synaptics_mt_state_set,
      hz0, hw, hcount]

/-- Witness for C2: prior {3, 0, 2} with ambiguous = false gives {2, -1, -1}
with ambiguous = true. -/
theorem image_sensor_three_to_two_witness :
    (priv_tracking 3 0 2 false false 40).mt_state = { count := 3, sgm := 0, agm := 2 } ∧
    (priv_tracking 3 0 2 false false 40).mt_state_lost = false ∧
    (synaptics_image_sensor_process [] (priv_tracking 3 0 2 false false 40)
        (hw_primary 40 0)).1.mt_state = { count := 2, sgm := -1, agm := -1 } ∧
    (synaptics_image_sensor_process [] (priv_tracking 3 0 2 false false 40)
        (hw_primary 40 0)).1.mt_state_lost = true :=
  ⟨rfl, rfl, image_sensor_three_to_two [] (priv_tracking 3 0 2 false false 40)
    (hw_primary 40 0) rfl (by decide) rfl⟩

/-- C3, as stated, fails: prior {2, 0, 1} with no ambiguity, a pending secondary
sample of pressure 0 and a primary packet indicating 1 contact (z = 40, w = 4)
give {1, 0, -1}, not {1, prior.agm, -1} = {1, 1, -1}. -/
theorem image_sensor_two_to_one_counterexample :
    (priv_tracking 2 0 1 false true 0).mt_state = { count := 2, sgm := 0, agm := 1 } ∧
    (priv_tracking 2 0 1 false true 0).mt_state_lost = false ∧
    0 < (hw_primary 40 4).z ∧ 4 ≤ (hw_primary 40 4).w ∧
    (synaptics_image_sensor_process [] (priv_tracking 2 0 1 false true 0)
        (hw_primary 40 4)).1.mt_state = { count := 1, sgm := 0, agm := -1 } ∧
    (synaptics_image_sensor_process [] (priv_tracking 2 0 1 false true 0)
        (hw_primary 40 4)).1.mt_state ≠
      { count := 1, sgm := (priv_tracking 2 0 1 false true 0).mt_state.agm, agm := -1 } := by
  decide

/-- C3, amended: from every prior tracked state with count 2, a primary packet
indicating 1 contact (z > 0, width code >= 4) gives {1, 0, -1} with
`mt_state_lost` cleared when a secondary sample of pressure 0 is pending;
otherwise it gives {1, -1, -1} with the flag still set when the flag was set,
and {1, prior.agm, -1} with the flag still clear when it was clear. -/
theorem image_sensor_two_to_one (packet : List Byte) (priv : synaptics_data)
    (sgm : synaptics_hw_state) (hcount : priv.mt_state.count = 2) (hz : 0 < sgm.z)
    (hw : 4 ≤ sgm.w) :
    (priv.agm_pending = true ∧ priv.agm.z = 0 →
      (synaptics_image_sensor_process packet priv sgm).1.mt_state =
          { count := 1, sgm := 0, agm := -1 } ∧
      (synaptics_image_sensor_process packet priv sgm).1.mt_state_lost = false) ∧
    (¬ (priv.agm_pending = true ∧ priv.agm.z = 0) → priv.mt_state_lost = true →
      (synaptics_image_sensor_process packet priv sgm).1.mt_state =
          { count := 1, sgm := -1, agm := -1 } ∧
      (synaptics_image_sensor_process packet priv sgm).1.mt_state_lost = true) ∧
    (¬ (priv.agm_pending = true ∧ priv.agm.z = 0) → priv.mt_state_lost = false →
      (synaptics_image_sensor_process packet priv sgm).1.mt_state =
          { count := 1, sgm := priv.mt_state.agm, agm := -1 } ∧
      (synaptics_image_sensor_process packet priv sgm).1.mt_state_lost = false) := by
  have hz0 : sgm.z ≠ 0 := by omega
  refine ⟨?_, ?_, ?_⟩
  · intro hp
    simp [synaptics_image_sensor_process, synaptics_image_sensor_1f, synaptics_mt_state_set,
      hz0, hw, hp.1, hp.2]
  · intro hp hl
    have hp2 : ¬ (priv.agm_pending = true ∧ priv.agm.z = 0) := hp
    simp only [synaptics_image_sensor_process, synaptics_image_sensor_1f,
      synaptics_mt_state_set, if_neg hz0, ge_iff_le, if_pos hw, if_neg hp2, hcount, hl]
    simp [hl]
  · intro hp hl
    have hp2 : ¬ (priv.agm_pending = true ∧ priv.agm.z = 0) := hp
    simp only [synaptics_image_sensor_process, synaptics_image_sensor_1f,
      synaptics_mt_state_set, if_neg hz0, ge_iff_le, if_pos hw, if_neg hp2, hcount, hl]
    simp [hl]

/-- Witness for the amended C3: prior {2, 0, 1} with no ambiguity and no
pending secondary sample gives {1, 1, -1}. -/
theorem image_sensor_two_to_one_witness :
    (priv_tracking 2 0 1 false false 40).mt_state = { count := 2, sgm := 0, agm := 1 } ∧
    (synaptics_image_sensor_process [] (priv_tracking 2 0 1 false false 40)
        (hw_primary 40 4)).1.mt_state = { count := 1, sgm := 1, agm := -1 } ∧
    (synaptics_image_sensor_process [] (priv_tracking 2 0 1 false false 40)
        (hw_primary 40 4)).1.mt_state_lost = false :=
  ⟨rfl, (image_sensor_two_to_one [] (priv_tracking 2 0 1 false false 40) (hw_primary 40 4)
    rfl (by decide) (by decide)).2.2 (by decide) rfl⟩

/-! ## Theorems: the field decoder -/

/-- The wrap-around rule in the words of the specification: a raw coordinate
above 8176 stands for the negative value 2^13 below it, the value 8176 itself
is clamped to 6143, every other value is kept. -/
def spec_decoded_coordinate (v : Int) : Int :=
  if v > 8176 then v - 8192 else if v = 8176 then 6143 else v

theorem and_shiftLeft_le (a m k : Nat) : (a &&& m) <<< k ≤ m * 2 ^ k := by
  rw [Nat.shiftLeft_eq]
  exact Nat.mul_le_mul_right _ Nat.and_le_right

theorem byteAt_lt (buf : List Byte) (i : Nat) : byteAt buf i < 256 := by
  unfold byteAt
  exact (buf.getD i 0).isLt

theorem newabs_raw_x_lt (buf : List Byte) : newabs_raw_x buf < 2 ^ 13 := by
  unfold newabs_raw_x
  have h1 := and_shiftLeft_le (byteAt buf 3) 0x10 8
  have h2 := and_shiftLeft_le (byteAt buf 1) 0x0f 8
  have h3 := byteAt_lt buf 4
  refine Nat.or_lt_two_pow (Nat.or_lt_two_pow ?_ ?_) ?_ <;> omega

theorem newabs_raw_y_lt (buf : List Byte) : newabs_raw_y buf < 2 ^ 13 := by
  unfold newabs_raw_y
  have h1 := and_shiftLeft_le (byteAt buf 3) 0x20 7
  have h2 := and_shiftLeft_le (byteAt buf 1) 0xf0 4
  have h3 := byteAt_lt buf 5
  refine Nat.or_lt_two_pow (Nat.or_lt_two_pow ?_ ?_) ?_ <;> omega

theorem oldabs_raw_x_lt (buf : List Byte) : oldabs_raw_x buf < 2 ^ 13 := by
  unfold oldabs_raw_x
  have h1 := and_shiftLeft_le (byteAt buf 1) 0x1f 8
  have h3 := byteAt_lt buf 2
  refine Nat.or_lt_two_pow ?_ ?_ <;> omega

theorem oldabs_raw_y_lt (buf : List Byte) : oldabs_raw_y buf < 2 ^ 13 := by
  unfold oldabs_raw_y
  have h1 := and_shiftLeft_le (byteAt buf 4) 0x1f 8
  have h3 := byteAt_lt buf 5
  refine Nat.or_lt_two_pow ?_ ?_ <;> omega

theorem convert_wraparound_x (hw : synaptics_hw_state) :
    (convert_wraparound hw).x = spec_decoded_coordinate hw.x := by
  unfold convert_wraparound spec_decoded_coordinate
  simp only [X_MAX_POSITIVE, Y_MAX_POSITIVE, XMAX, YMAX, ABS_POS_BITS]
  have h13 : ((1 <<< 13 : Nat) : Int) = 8192 := by decide
  rw [h13]
  split_ifs <;> rfl

theorem convert_wraparound_y (hw : synaptics_hw_state) :
    (convert_wraparound hw).y = spec_decoded_coordinate hw.y := by
  unfold convert_wraparound spec_decoded_coordinate
  simp only [X_MAX_POSITIVE, Y_MAX_POSITIVE, XMAX, YMAX, ABS_POS_BITS]
  have h13 : ((1 <<< 13 : Nat) : Int) = 8192 := by decide
  rw [h13]
  split_ifs <;> rfl

/-- A plain new-absolute touchpad: no optional capability. -/
def info_plain : synaptics_device_info :=
  { newabs := true, pen := false, extended := false, middle_button := false,
    pass_through := false, four_button := false, multifinger := false, palmdetect := false,
    multi_button_no := 0, clickpad := false, adv_gesture := false, image_sensor := false,
    ext_buttons_stick := false, id_full := 0 }

/-- C5: for every packet decoded as a primary report, the raw x and y
coordinates assembled from it are 13-bit values (at most 8191), and each
decoded coordinate is the raw value v minus 8192 if v > 8176, is 6143 if
v = 8176, and is v otherwise; the same rule serves x and y, under the
new-absolute and the old-absolute layout. -/
theorem parse_hw_state_wraparound (buf : List Byte) (priv : synaptics_data)
    (hprimary : (synaptics_parse_hw_state buf priv).1 = 0) :
    (if priv.info.newabs then newabs_raw_x buf else oldabs_raw_x buf) ≤ 8191 ∧
    (if priv.info.newabs then newabs_raw_y buf else oldabs_raw_y buf) ≤ 8191 ∧
    (synaptics_parse_hw_state buf priv).2.2.x =
      spec_decoded_coordinate
        ((if priv.info.newabs then newabs_raw_x buf else oldabs_raw_x buf : Nat) : Int) ∧
    (synaptics_parse_hw_state buf priv).2.2.y =
      spec_decoded_coordinate
        ((if priv.info.newabs then newabs_raw_y buf else oldabs_raw_y buf : Nat) : Int) := by
  have hx1 := newabs_raw_x_lt buf
  have hy1 := newabs_raw_y_lt buf
  have hx2 := oldabs_raw_x_lt buf
  have hy2 := oldabs_raw_y_lt buf
  by_cases hn : priv.info.newabs = true
  · simp only [hn, if_true]
    refine ⟨by omega, by omega, ?_, ?_⟩ <;>
    · unfold synaptics_parse_hw_state at hprimary ⊢
      simp only [hn, if_true] at hprimary ⊢
      by_cases hagm : synaptics_has_agm priv = true ∧ (parse_newabs_w_buttons buf priv).w = 2
      · rw [if_pos hagm] at hprimary
        simp at hprimary
      · rw [if_neg hagm]
        simp only [convert_wraparound_x, convert_wraparound_y]
        unfold parse_newabs_position
        split_ifs <;> rfl
  · have hn2 : priv.info.newabs = false := by simpa using hn
    simp only [hn2, Bool.false_eq_true, if_false]
    refine ⟨by omega, by omega, ?_, ?_⟩ <;>
    · unfold synaptics_parse_hw_state
      simp only [hn2, Bool.false_eq_true, if_false, convert_wraparound_x, convert_wraparound_y]
      rfl

/-- Witness for C5: raw 8177 decodes to -15, raw 8176 to 6143 and raw 8175
to 8175, on packets with raw (x, y) = (8177, 8176) and (8175, 8177). -/
theorem parse_hw_state_wraparound_witness :
    newabs_raw_x [0x80, 0xFF, 40, 0xF0, 0xF1, 0xF0] = 8177 ∧
    newabs_raw_y [0x80, 0xFF, 40, 0xF0, 0xF1, 0xF0] = 8176 ∧
    (synaptics_parse_hw_state [0x80, 0xFF, 40, 0xF0, 0xF1, 0xF0]
        (synaptics_data_init info_plain)).2.2.x = -15 ∧
    (synaptics_parse_hw_state [0x80, 0xFF, 40, 0xF0, 0xF1, 0xF0]
        (synaptics_data_init info_plain)).2.2.y = 6143 ∧
    newabs_raw_x [0x80, 0xFF, 40, 0xF0, 0xEF, 0xF1] = 8175 ∧
    (synaptics_parse_hw_state [0x80, 0xFF, 40, 0xF0, 0xEF, 0xF1]
        (synaptics_data_init info_plain)).2.2.x = 8175 ∧
    (synaptics_parse_hw_state [0x80, 0xFF, 40, 0xF0, 0xEF, 0xF1]
        (synaptics_data_init info_plain)).2.2.y = -15 :=
  ⟨by decide, by decide,
   (parse_hw_state_wraparound [0x80, 0xFF, 40, 0xF0, 0xF1, 0xF0]
      (synaptics_data_init info_plain) (by decide)).2.2.1,
   (parse_hw_state_wraparound [0x80, 0xFF, 40, 0xF0, 0xF1, 0xF0]
      (synaptics_data_init info_plain) (by decide)).2.2.2,
   by decide,
   (parse_hw_state_wraparound [0x80, 0xFF, 40, 0xF0, 0xEF, 0xF1]
      (synaptics_data_init info_plain) (by decide)).2.2.1,
   (parse_hw_state_wraparound [0x80, 0xFF, 40, 0xF0, 0xEF, 0xF1]
      (synaptics_data_init info_plain) (by decide)).2.2.2⟩

/-! ## Theorems: the packet framer -/

theorem land_C0_of_land_C8 (b r : Nat) (hr : r &&& 0xC0 = r) (h : b &&& 0xC8 = r) :
    b &&& 0xC0 = r := by
  have e : (0xC8 &&& 0xC0 : Nat) = 0xC0 := by decide
  calc b &&& 0xC0 = b &&& (0xC8 &&& 0xC0) := by rw [e]
    _ = (b &&& 0xC8) &&& 0xC0 := (Nat.land_assoc b 0xC8 0xC0).symm
    _ = r &&& 0xC0 := by rw [h]
    _ = r := hr

theorem validate_byte_strict_relaxed (packet : List Byte) (idx : Int)
    (h : synaptics_validate_byte packet idx SYN_NEWABS_STRICT = true) :
    synaptics_validate_byte packet idx SYN_NEWABS_RELAXED = true := by
  unfold synaptics_validate_byte at h ⊢
  by_cases hr : idx < 0 ∨ idx > 4
  · simp [hr] at h
  · have h0 : 0 ≤ idx := by omega
    have h4 : idx ≤ 4 := by omega
    obtain ⟨k, rfl⟩ := Int.eq_ofNat_of_zero_le h0
    have hk : k ≤ 4 := by omega
    simp only [if_neg hr, SYN_NEWABS, SYN_NEWABS_STRICT, SYN_NEWABS_RELAXED, SYN_OLDABS,
      Int.toNat_ofNat] at h ⊢
    simp only [newabs_mask, newabs_rel_mask, newabs_rslt] at h ⊢
    interval_cases k
    · simp at h ⊢
      exact land_C0_of_land_C8 _ _ (by decide) h
    · simp at h ⊢
    · simp at h ⊢
    · simp at h ⊢
      exact land_C0_of_land_C8 _ _ (by decide) h
    · simp at h ⊢

/-- C6: a byte that passes the strict new-absolute template at an index passes
the relaxed new-absolute template at that index; hence a packet whose five
constrained bytes are all accepted under the strict variant has them all
accepted under the relaxed variant. -/
theorem strict_template_implies_relaxed (packet : List Byte) :
    (∀ idx : Int, synaptics_validate_byte packet idx SYN_NEWABS_STRICT = true →
      synaptics_validate_byte packet idx SYN_NEWABS_RELAXED = true) ∧
    ((∀ i : Nat, i < 5 → synaptics_validate_byte packet (i : Int) SYN_NEWABS_STRICT = true) →
      ∀ i : Nat, i < 5 → synaptics_validate_byte packet (i : Int) SYN_NEWABS_RELAXED = true) :=
  ⟨fun idx h => validate_byte_strict_relaxed packet idx h,
   fun hall i hi => validate_byte_strict_relaxed packet i (hall i hi)⟩

/-- Witness for C6: the byte 0x84 passes both templates at index 0, and the
byte 0x88 is refused by the strict template but accepted by the relaxed one. -/
theorem strict_template_implies_relaxed_witness :
    synaptics_validate_byte [0x84] 0 SYN_NEWABS_STRICT = true ∧
    synaptics_validate_byte [0x84] 0 SYN_NEWABS_RELAXED = true ∧
    synaptics_validate_byte [0x88] 0 SYN_NEWABS_STRICT = false ∧
    synaptics_validate_byte [0x88] 0 SYN_NEWABS_RELAXED = true :=
  ⟨by decide, (strict_template_implies_relaxed [0x84]).1 0 (by decide), by decide, by decide⟩

/-! ## Theorems: the scroll emulator -/

/-- One wheel step as the scroll loops emit it on button `code`, `level` being
the decoded level of that button in the packet: the negated level, a sync, the
level, a sync. -/
def wheel_step (code : key_code) (level : Bool) : List input_event :=
  [input_event.key code (!level), input_event.sync,
   input_event.key code level, input_event.sync]

/-- Process a sequence of full packets in order; returns the final private
data and, for each packet, the events it emitted. -/
def process_packets : synaptics_data → List (List Byte) →
    synaptics_data × List (List input_event)
  | priv, [] => (priv, [])
  | priv, p :: ps =>
    let r := synaptics_process_packet p priv
    let rest := process_packets r.1 ps
    (rest.1, r.2 :: rest.2)

/-- A touchpad with a middle button, whose width-2 packets carry a scroll delta. -/
def info_wheel : synaptics_device_info :=
  { info_plain with extended := true, middle_button := true }

/-- A touchpad with a middle button and four buttons. -/
def info_wheel_four : synaptics_device_info :=
  { info_plain with extended := true, middle_button := true, four_button := true }

/-- A new-absolute packet with width code 2 whose byte 1 is `d`. -/
def scroll_packet (d : Byte) : List Byte := [0x84, d, 0, 0xC0, 0, 0]

theorem scroll_loop_back_lt (s : Int) (hw : synaptics_hw_state) (h : s < 4) :
    scroll_loop_back s hw = (s, []) := by
  rw [scroll_loop_back]
  have : ¬ s ≥ 4 := by omega
  simp [this]

theorem scroll_loop_back_ge (s : Int) (hw : synaptics_hw_state) (h : 4 ≤ s) :
    scroll_loop_back s hw =
      ((scroll_loop_back (s - 4) hw).1,
       wheel_step key_code.BTN_BACK hw.down ++ (scroll_loop_back (s - 4) hw).2) := by
  rw [scroll_loop_back]
  have : s ≥ 4 := h
  simp [this, wheel_step]

theorem scroll_loop_forward_gt (s : Int) (hw : synaptics_hw_state) (h : -4 < s) :
    scroll_loop_forward s hw = (s, []) := by
  rw [scroll_loop_forward]
  have : ¬ s ≤ -4 := by omega
  simp [this]

theorem scroll_loop_forward_le (s : Int) (hw : synaptics_hw_state) (h : s ≤ -4) :
    scroll_loop_forward s hw =
      ((scroll_loop_forward (s + 4) hw).1,
       wheel_step key_code.BTN_FORWARD hw.up ++ (scroll_loop_forward (s + 4) hw).2) := by
  rw [scroll_loop_forward]
  simp [h, wheel_step]

theorem scroll_loop_back_steps (hw : synaptics_hw_state) (k : Nat) :
    ∀ s : Int, 0 ≤ s → s < 4 →
      scroll_loop_back (s + 4 * (k : Int)) hw =
        (s, (List.replicate k (wheel_step key_code.BTN_BACK hw.down)).flatten) := by
  induction k with
  | zero =>
    intro s _ hs
    simpa using scroll_loop_back_lt s hw hs
  | succ n ih =>
    intro s h0 hs
    have hge : 4 ≤ s + 4 * ((n + 1 : Nat) : Int) := by push_cast; omega
    rw [scroll_loop_back_ge _ _ hge]
    have e : s + 4 * ((n + 1 : Nat) : Int) - 4 = s + 4 * (n : Int) := by push_cast; ring
    rw [e, ih s h0 hs]
    simp [List.replicate_succ]

theorem scroll_loop_forward_steps (hw : synaptics_hw_state) (k : Nat) :
    ∀ s : Int, s ≤ 0 → -4 < s →
      scroll_loop_forward (s - 4 * (k : Int)) hw =
        (s, (List.replicate k (wheel_step key_code.BTN_FORWARD hw.up)).flatten) := by
  induction k with
  | zero =>
    intro s _ hs
    simpa using scroll_loop_forward_gt s hw hs
  | succ n ih =>
    intro s h0 hs
    have hle : s - 4 * ((n + 1 : Nat) : Int) ≤ -4 := by push_cast; omega
    rw [scroll_loop_forward_le _ _ hle]
    have e : s - 4 * ((n + 1 : Nat) : Int) + 4 = s - 4 * (n : Int) := by push_cast; ring
    rw [e, ih s h0 hs]
    simp [List.replicate_succ]

/-- What the scroll block computes from the accumulator `a` and a decoded
state `hw`: with t = a + hw.scroll and k = |t| div 4, the accumulator moves to
t - 4k and k steps go out on BTN_BACK when t >= 0, it moves to t + 4k and k
steps go out on BTN_FORWARD when t < 0. -/
theorem scroll_block_eq (a : Int) (hw : synaptics_hw_state) :
    scroll_block a hw =
      (if 0 ≤ a + hw.scroll then
        (a + hw.scroll - 4 * (((a + hw.scroll).natAbs / 4 : Nat) : Int),
         (List.replicate ((a + hw.scroll).natAbs / 4)
            (wheel_step key_code.BTN_BACK hw.down)).flatten)
       else
        (a + hw.scroll + 4 * (((a + hw.scroll).natAbs / 4 : Nat) : Int),
         (List.replicate ((a + hw.scroll).natAbs / 4)
            (wheel_step key_code.BTN_FORWARD hw.up)).flatten)) := by
  unfold scroll_block
  generalize a + hw.scroll = t
  by_cases ht : 0 ≤ t
  · rw [if_pos ht]
    have hk : ((t.natAbs / 4 : Nat) : Int) = t / 4 := by
      rw [Int.natCast_div, Int.natCast_natAbs, abs_of_nonneg ht]; rfl
    have hsplit : t = (t - 4 * (t / 4)) + 4 * ((t.natAbs / 4 : Nat) : Int) := by
      rw [hk]; ring
    have hr0 : 0 ≤ t - 4 * (t / 4) := by omega
    have hr4 : t - 4 * (t / 4) < 4 := by omega
    have hb := scroll_loop_back_steps hw (t.natAbs / 4) (t - 4 * (t / 4)) hr0 hr4
    rw [← hsplit] at hb
    simp only [hb]
    rw [scroll_loop_forward_gt _ _ (by omega)]
    simp [hk]
  · rw [if_neg ht]
    have hlt : t < 4 := by omega
    dsimp only
    rw [scroll_loop_back_lt _ _ hlt]
    have hk : ((t.natAbs / 4 : Nat) : Int) = (-t) / 4 := by
      rw [Int.natCast_div, Int.natCast_natAbs, abs_of_neg (by omega)]; rfl
    have hsplit : t = (t + 4 * ((-t) / 4)) - 4 * ((t.natAbs / 4 : Nat) : Int) := by
      rw [hk]; ring
    have hr0 : t + 4 * ((-t) / 4) ≤ 0 := by omega
    have hr4 : -4 < t + 4 * ((-t) / 4) := by omega
    have hf := scroll_loop_forward_steps hw (t.natAbs / 4) (t + 4 * ((-t) / 4)) hr0 hr4
    rw [← hsplit] at hf
    simp only [hf]
    simp [hk]

theorem parse_hw_state_primary_priv (buf : List Byte) (priv : synaptics_data)
    (h : (synaptics_parse_hw_state buf priv).1 = 0) :
    (synaptics_parse_hw_state buf priv).2.1 = priv := by
  unfold synaptics_parse_hw_state at h ⊢
  by_cases hn : priv.info.newabs = true
  · simp only [hn, if_true] at h ⊢
    by_cases hagm : synaptics_has_agm priv = true ∧ (parse_newabs_w_buttons buf priv).w = 2
    · rw [if_pos hagm] at h
      simp at h
    · rw [if_neg hagm]
  · rw [if_neg hn]

/-- On an image-sensor device a primary packet is handled by the slot tracker. -/
theorem process_packet_image_sensor (packet : List Byte) (priv : synaptics_data)
    (hprimary : (synaptics_parse_hw_state packet priv).1 = 0)
    (himg : priv.info.image_sensor = true) :
    synaptics_process_packet packet priv =
      synaptics_image_sensor_process packet priv (synaptics_parse_hw_state packet priv).2.2 := by
  have hp := parse_hw_state_primary_priv packet priv hprimary
  unfold synaptics_process_packet
  simp only [hprimary, ne_eq, not_true_eq_false, if_false, hp, himg, if_true]

/-- On a device without image sensor a primary packet with a non-zero scroll
delta is handled by the scroll block alone. -/
theorem process_packet_scroll (packet : List Byte) (priv : synaptics_data)
    (hprimary : (synaptics_parse_hw_state packet priv).1 = 0)
    (himg : priv.info.image_sensor = false)
    (hd : (synaptics_parse_hw_state packet priv).2.2.scroll ≠ 0) :
    synaptics_process_packet packet priv =
      ({ priv with
          scroll := (scroll_block priv.scroll (synaptics_parse_hw_state packet priv).2.2).1 },
       (scroll_block priv.scroll (synaptics_parse_hw_state packet priv).2.2).2) := by
  have hp := parse_hw_state_primary_priv packet priv hprimary
  unfold synaptics_process_packet
  simp only [hprimary, ne_eq, not_true_eq_false, if_false, hp, himg, Bool.false_eq_true]
  rw [if_pos hd]

/-- The private data of the wheel device `info_wheel` with scroll accumulator `a`. -/
def priv_wheel (a : Int) : synaptics_data :=
  { synaptics_data_init info_wheel with pkt_type := SYN_NEWABS_RELAXED, scroll := a }

/-- The private data of the four-button wheel device with scroll accumulator `a`. -/
def priv_wheel_four (a : Int) : synaptics_data :=
  { synaptics_data_init info_wheel_four with pkt_type := SYN_NEWABS_RELAXED, scroll := a }

theorem w_buttons_scroll_packet_wheel (a : Int) (d : Byte) :
    parse_newabs_w_buttons (scroll_packet d) (priv_wheel a) =
      { hw_state_zero with w := 2, scroll := signed_char d.val } := by
  have b0 : byteAt (scroll_packet d) 0 = 0x84 := rfl
  have b1 : byteAt (scroll_packet d) 1 = d.val := rfl
  have b3 : byteAt (scroll_packet d) 3 = 0xC0 := rfl
  have c1 : (priv_wheel a).info.clickpad = false := rfl
  have c2 : (priv_wheel a).info.middle_button = true := rfl
  have c3 : (priv_wheel a).info.four_button = false := rfl
  have n1 : ((132 &&& 48) >>> 2 ||| (132 &&& 4) >>> 1 ||| (192 &&& 4) >>> 2 : Nat) = 2 := by
    decide
  have n2 : (132 &&& 2 : Nat) = 0 := by decide
  simp only [parse_newabs_w_buttons, b0, b1, b3, c1, c2, c3]
  simp [hw_state_zero, n1, n2]

theorem parse_scroll_packet_wheel (a : Int) (d : Byte) :
    (synaptics_parse_hw_state (scroll_packet d) (priv_wheel a)).1 = 0 ∧
    (synaptics_parse_hw_state (scroll_packet d) (priv_wheel a)).2.2.scroll = signed_char d.val ∧
    (synaptics_parse_hw_state (scroll_packet d) (priv_wheel a)).2.2.down = false := by
  have hagm : synaptics_has_agm (priv_wheel a) = false := rfl
  have hnew : (priv_wheel a).info.newabs = true := rfl
  have hmb : (priv_wheel a).info.multi_button_no.val = 0 := rfl
  simp only [synaptics_parse_hw_state, hnew, if_true, hagm, Bool.false_eq_true, false_and,
    if_false, w_buttons_scroll_packet_wheel, parse_newabs_position, hmb, gt_iff_lt,
    lt_self_iff_false, convert_wraparound]
  refine ⟨trivial, ?_, ?_⟩ <;> split_ifs <;> rfl
theorem process_scroll_packet_wheel (a : Int) (d : Byte)
    (hd : signed_char d.val ≠ 0) :
    synaptics_process_packet (scroll_packet d) (priv_wheel a) =
      ({ priv_wheel a with
          scroll := (scroll_block a
            (synaptics_parse_hw_state (scroll_packet d) (priv_wheel a)).2.2).1 },
       (scroll_block a (synaptics_parse_hw_state (scroll_packet d) (priv_wheel a)).2.2).2) :=
  process_packet_scroll (scroll_packet d) (priv_wheel a) (parse_scroll_packet_wheel a d).1 rfl
    (by rw [(parse_scroll_packet_wheel a d).2.1]; exact hd)

theorem process_scroll_packet_small (a : Int) (d : Byte) (hd : signed_char d.val ≠ 0)
    (h0 : 0 ≤ a + signed_char d.val) (h4 : a + signed_char d.val < 4) :
    synaptics_process_packet (scroll_packet d) (priv_wheel a) =
      (priv_wheel (a + signed_char d.val), []) := by
  rw [process_scroll_packet_wheel a d hd, scroll_block_eq]
  have hs : (synaptics_parse_hw_state (scroll_packet d) (priv_wheel a)).2.2.scroll =
      signed_char d.val := (parse_scroll_packet_wheel a d).2.1
  have hk : (a + signed_char d.val).natAbs / 4 = 0 := by omega
  simp only [hs, if_pos h0, hk]
  simp [priv_wheel]

theorem process_scroll_packet_one_step (a : Int) (d : Byte) (hd : signed_char d.val ≠ 0)
    (h0 : 4 ≤ a + signed_char d.val) (h4 : a + signed_char d.val < 8) :
    synaptics_process_packet (scroll_packet d) (priv_wheel a) =
      (priv_wheel (a + signed_char d.val - 4), wheel_step key_code.BTN_BACK false) := by
  rw [process_scroll_packet_wheel a d hd, scroll_block_eq]
  have hs : (synaptics_parse_hw_state (scroll_packet d) (priv_wheel a)).2.2.scroll =
      signed_char d.val := (parse_scroll_packet_wheel a d).2.1
  have hdn : (synaptics_parse_hw_state (scroll_packet d) (priv_wheel a)).2.2.down = false :=
    (parse_scroll_packet_wheel a d).2.2
  have hk : (a + signed_char d.val).natAbs / 4 = 1 := by omega
  have h00 : 0 ≤ a + signed_char d.val := by omega
  simp only [hs, hdn, if_pos h00, hk]
  simp [priv_wheel]

/-- C7: on a device that does not take the image-sensor path, a primary packet
with non-zero scroll delta d met with accumulator a leaves the accumulator at
a + d moved 4 toward zero k = |a + d| div 4 times, a value of magnitude at
most 3, and emits exactly k wheel steps (none when |a + d| < 4).  Starting from
0, the deltas +1, +1, +1, +1, +2 emit one step, with the fourth packet, and
leave the accumulator at 2. -/
theorem scroll_emulator_accumulator (packet : List Byte) (priv : synaptics_data)
    (hprimary : (synaptics_parse_hw_state packet priv).1 = 0)
    (himg : priv.info.image_sensor = false)
    (hd : (synaptics_parse_hw_state packet priv).2.2.scroll ≠ 0) :
    (synaptics_process_packet packet priv).1.scroll =
      (if 0 ≤ priv.scroll + (synaptics_parse_hw_state packet priv).2.2.scroll then
        priv.scroll + (synaptics_parse_hw_state packet priv).2.2.scroll -
          4 * (((priv.scroll + (synaptics_parse_hw_state packet priv).2.2.scroll).natAbs / 4
            : Nat) : Int)
       else
        priv.scroll + (synaptics_parse_hw_state packet priv).2.2.scroll +
          4 * (((priv.scroll + (synaptics_parse_hw_state packet priv).2.2.scroll).natAbs / 4
            : Nat) : Int)) ∧
    (synaptics_process_packet packet priv).1.scroll.natAbs ≤ 3 ∧
    (∃ code level, (synaptics_process_packet packet priv).2 =
      (List.replicate
        ((priv.scroll + (synaptics_parse_hw_state packet priv).2.2.scroll).natAbs / 4)
        (wheel_step code level)).flatten) ∧
    ((priv.scroll + (synaptics_parse_hw_state packet priv).2.2.scroll).natAbs < 4 →
      (synaptics_process_packet packet priv).2 = []) ∧
    (process_packets (priv_wheel 0)
        [scroll_packet 1, scroll_packet 1, scroll_packet 1, scroll_packet 1,
         scroll_packet 2]).2 =
      [[], [], [], wheel_step key_code.BTN_BACK false, []] ∧
    (process_packets (priv_wheel 0)
        [scroll_packet 1, scroll_packet 1, scroll_packet 1, scroll_packet 1,
         scroll_packet 2]).1.scroll = 2 := by
  rw [process_packet_scroll packet priv hprimary himg hd, scroll_block_eq]
  generalize priv.scroll + (synaptics_parse_hw_state packet priv).2.2.scroll = t
  have hrun : process_packets (priv_wheel 0)
      [scroll_packet 1, scroll_packet 1, scroll_packet 1, scroll_packet 1, scroll_packet 2] =
      (priv_wheel 2, [[], [], [], wheel_step key_code.BTN_BACK false, []]) := by
    simp only [process_packets]
    rw [process_scroll_packet_small 0 1 (by decide) (by decide) (by decide)]
    have e1 : (0 : Int) + signed_char (1 : Byte).val = 1 := by decide
    simp only [e1]
    rw [process_scroll_packet_small 1 1 (by decide) (by decide) (by decide)]
    have e2 : (1 : Int) + signed_char (1 : Byte).val = 2 := by decide
    simp only [e2]
    rw [process_scroll_packet_small 2 1 (by decide) (by decide) (by decide)]
    have e3 : (2 : Int) + signed_char (1 : Byte).val = 3 := by decide
    simp only [e3]
    rw [process_scroll_packet_one_step 3 1 (by decide) (by decide) (by decide)]
    have e4 : (3 : Int) + signed_char (1 : Byte).val - 4 = 0 := by decide
    simp only [e4]
    rw [process_scroll_packet_small 0 2 (by decide) (by decide) (by decide)]
    have e5 : (0 : Int) + signed_char (2 : Byte).val = 2 := by decide
    simp only [e5]
  rw [hrun]
  by_cases ht : 0 ≤ t
  · simp only [if_pos ht]
    refine ⟨trivial, by omega, ⟨key_code.BTN_BACK, _, rfl⟩, ?_, trivial, rfl⟩
    intro hlt
    have hk : t.natAbs / 4 = 0 := by omega
    rw [hk]
    rfl
  · simp only [if_neg ht]
    refine ⟨trivial, by omega, ⟨key_code.BTN_FORWARD, _, rfl⟩, ?_, trivial, rfl⟩
    intro hlt
    have hk : t.natAbs / 4 = 0 := by omega
    rw [hk]
    rfl

/-- Witness for C7: accumulator 3 and delta +6 give 9, two wheel steps and a
remaining accumulator of 1. -/
theorem scroll_emulator_accumulator_witness :
    (synaptics_parse_hw_state (scroll_packet 6) (priv_wheel 3)).1 = 0 ∧
    (synaptics_parse_hw_state (scroll_packet 6) (priv_wheel 3)).2.2.scroll = 6 ∧
    (synaptics_process_packet (scroll_packet 6) (priv_wheel 3)).1.scroll = 1 ∧
    (∃ code level, (synaptics_process_packet (scroll_packet 6) (priv_wheel 3)).2 =
      wheel_step code level ++ wheel_step code level) := by
  have h := scroll_emulator_accumulator (scroll_packet 6) (priv_wheel 3) (by decide) rfl
    (by decide)
  refine ⟨by decide, by decide, ?_, ?_⟩
  · rw [h.1]
    decide
  · obtain ⟨code, level, hev⟩ := h.2.2.1
    refine ⟨code, level, ?_⟩
    rw [hev]
    have hk : ((priv_wheel 3).scroll +
        (synaptics_parse_hw_state (scroll_packet 6) (priv_wheel 3)).2.2.scroll).natAbs / 4 = 2 := by
      decide
    rw [hk]
    simp [List.replicate]

/-- C8, as stated, fails: on a four-button wheel device, a packet with scroll
delta +4 in which the decoded `down` bit is set makes the accumulator reach +4
and emits, on the backward-wheel button BTN_BACK, the value 0 followed by the
value 1: neither a press followed by a release, nor on the forward-wheel
button. -/
theorem scroll_emulator_wheel_steps_counterexample :
    (synaptics_parse_hw_state [0x86, 4, 0, 0xC0, 0, 0] (priv_wheel_four 0)).1 = 0 ∧
    (synaptics_parse_hw_state [0x86, 4, 0, 0xC0, 0, 0] (priv_wheel_four 0)).2.2.scroll = 4 ∧
    (synaptics_parse_hw_state [0x86, 4, 0, 0xC0, 0, 0] (priv_wheel_four 0)).2.2.down = true ∧
    (synaptics_process_packet [0x86, 4, 0, 0xC0, 0, 0] (priv_wheel_four 0)).2 =
      [input_event.key key_code.BTN_BACK false, input_event.sync,
       input_event.key key_code.BTN_BACK true, input_event.sync] ∧
    (synaptics_process_packet [0x86, 4, 0, 0xC0, 0, 0] (priv_wheel_four 0)).2 ≠
      [input_event.key key_code.BTN_FORWARD true, input_event.sync,
       input_event.key key_code.BTN_FORWARD false, input_event.sync] := by
  have h : (synaptics_process_packet [0x86, 4, 0, 0xC0, 0, 0] (priv_wheel_four 0)).2 =
      [input_event.key key_code.BTN_BACK false, input_event.sync,
       input_event.key key_code.BTN_BACK true, input_event.sync] := by
    rw [process_packet_scroll _ _ (by decide) rfl (by decide), scroll_block_eq]
    decide
  refine ⟨by decide, by decide, by decide, h, ?_⟩
  rw [h]
  decide

/-- C8, amended: every wheel step emitted by the scroll block is a pair of
reports on one wheel button, each followed by a sync: first the negation of
the level decoded for that button in the packet, then the decoded level (a
press followed by a release exactly when the decoded level is 0).  With
t = accumulator + delta and k = |t| div 4, the events of the packet are k such
pairs on BTN_BACK with the level `down` when t >= 0 (at least one when
t >= 4), and k such pairs on BTN_FORWARD with the level `up` when t < 0 (at
least one when t <= -4). -/
theorem scroll_emulator_wheel_steps (packet : List Byte) (priv : synaptics_data)
    (hprimary : (synaptics_parse_hw_state packet priv).1 = 0)
    (himg : priv.info.image_sensor = false)
    (hd : (synaptics_parse_hw_state packet priv).2.2.scroll ≠ 0) :
    (0 ≤ priv.scroll + (synaptics_parse_hw_state packet priv).2.2.scroll →
      (synaptics_process_packet packet priv).2 =
        (List.replicate
          ((priv.scroll + (synaptics_parse_hw_state packet priv).2.2.scroll).natAbs / 4)
          [input_event.key key_code.BTN_BACK (!(synaptics_parse_hw_state packet priv).2.2.down),
           input_event.sync,
           input_event.key key_code.BTN_BACK (synaptics_parse_hw_state packet priv).2.2.down,
           input_event.sync]).flatten) ∧
    (priv.scroll + (synaptics_parse_hw_state packet priv).2.2.scroll < 0 →
      (synaptics_process_packet packet priv).2 =
        (List.replicate
          ((priv.scroll + (synaptics_parse_hw_state packet priv).2.2.scroll).natAbs / 4)
          [input_event.key key_code.BTN_FORWARD (!(synaptics_parse_hw_state packet priv).2.2.up),
           input_event.sync,
           input_event.key key_code.BTN_FORWARD (synaptics_parse_hw_state packet priv).2.2.up,
           input_event.sync]).flatten) ∧
    (4 ≤ priv.scroll + (synaptics_parse_hw_state packet priv).2.2.scroll ∨
      priv.scroll + (synaptics_parse_hw_state packet priv).2.2.scroll ≤ -4 →
      1 ≤ (priv.scroll + (synaptics_parse_hw_state packet priv).2.2.scroll).natAbs / 4) := by
  rw [process_packet_scroll packet priv hprimary himg hd, scroll_block_eq]
  generalize priv.scroll + (synaptics_parse_hw_state packet priv).2.2.scroll = t
  refine ⟨?_, ?_, ?_⟩
  · intro ht
    rw [if_pos ht]
    rfl
  · intro ht
    rw [if_neg (by omega)]
    rfl
  · intro ht
    omega

/-- Witness for the amended C8: with no button held, accumulator 0 and delta
-4 emit one press and release pair on BTN_FORWARD. -/
theorem scroll_emulator_wheel_steps_witness :
    (synaptics_parse_hw_state (scroll_packet 252) (priv_wheel 0)).1 = 0 ∧
    (synaptics_parse_hw_state (scroll_packet 252) (priv_wheel 0)).2.2.scroll = -4 ∧
    (synaptics_process_packet (scroll_packet 252) (priv_wheel 0)).2 =
      [input_event.key key_code.BTN_FORWARD true, input_event.sync,
       input_event.key key_code.BTN_FORWARD false, input_event.sync] := by
  have h := (scroll_emulator_wheel_steps (scroll_packet 252) (priv_wheel 0) (by decide) rfl
    (by decide)).2.1 (by decide)
  refine ⟨by decide, by decide, ?_⟩
  rw [h]
  decide

/-! ## Theorems: framing and resynchronisation -/

/-- A packet of six bytes whose five constrained bytes pass the template of
packet type `t`. -/
def valid_packet (t : Nat) (p : List Byte) : Prop :=
  p.length = 6 ∧ ∀ i : Nat, i < 5 → synaptics_validate_byte p (i : Int) t = true

/-- The framer stands at a packet boundary, with packet type `t`. -/
def at_boundary (ps : psmouse) (t : Nat) : Prop :=
  ps.packet = [] ∧ ps.pktcnt = 0 ∧ ps.priv.pkt_type = t

/-- What the framer reports for the six bytes of a packet it frames correctly. -/
def reports_one_packet : List psmouse_ret_t :=
  [psmouse_ret_t.PSMOUSE_GOOD_DATA, psmouse_ret_t.PSMOUSE_GOOD_DATA,
   psmouse_ret_t.PSMOUSE_GOOD_DATA, psmouse_ret_t.PSMOUSE_GOOD_DATA,
   psmouse_ret_t.PSMOUSE_GOOD_DATA, psmouse_ret_t.PSMOUSE_FULL_PACKET]

/-- A framer at a packet boundary of a plain new-absolute device whose
session uses the relaxed template. -/
def psmouse_relaxed : psmouse :=
  { packet := [], pktcnt := 0,
    priv := { synaptics_data_init info_plain with pkt_type := SYN_NEWABS_RELAXED },
    pt_child_activated := false, pt_child_pktsize := 3 }

/-- The tracker functions write no field of the private data but `mt_state_lost`. -/
theorem image_sensor_0f_frame (priv : synaptics_data) (mt : synaptics_mt_state) :
    (synaptics_image_sensor_0f priv mt).1 =
      { priv with mt_state_lost := (synaptics_image_sensor_0f priv mt).1.mt_state_lost } := by
  unfold synaptics_image_sensor_0f
  rfl

theorem image_sensor_1f_frame (priv : synaptics_data) (mt : synaptics_mt_state) :
    (synaptics_image_sensor_1f priv mt).1 =
      { priv with mt_state_lost := (synaptics_image_sensor_1f priv mt).1.mt_state_lost } := by
  unfold synaptics_image_sensor_1f
  dsimp only
  split_ifs <;> rfl

theorem image_sensor_2f_frame (priv : synaptics_data) (mt : synaptics_mt_state) :
    (synaptics_image_sensor_2f priv mt).1 =
      { priv with mt_state_lost := (synaptics_image_sensor_2f priv mt).1.mt_state_lost } := by
  unfold synaptics_image_sensor_2f
  dsimp only
  split_ifs <;> rfl

theorem image_sensor_3f_frame (priv : synaptics_data) (mt : synaptics_mt_state) :
    (synaptics_image_sensor_3f priv mt).1 =
      { priv with mt_state_lost := (synaptics_image_sensor_3f priv mt).1.mt_state_lost } := by
  unfold synaptics_image_sensor_3f
  dsimp only
  split_ifs <;> rfl

theorem image_sensor_45f_frame (priv : synaptics_data) (mt : synaptics_mt_state) :
    (synaptics_image_sensor_45f priv mt).1 =
      { priv with mt_state_lost := (synaptics_image_sensor_45f priv mt).1.mt_state_lost } := by
  unfold synaptics_image_sensor_45f
  rfl

/-- The tracker step selected by `synaptics_image_sensor_process` for the
report `sgm`. -/
def image_sensor_dispatch (priv : synaptics_data) (sgm : synaptics_hw_state) :
    synaptics_data × synaptics_mt_state :=
  if sgm.z = 0 then synaptics_image_sensor_0f priv priv.agm.mt_state
  else if sgm.w ≥ 4 then synaptics_image_sensor_1f priv priv.agm.mt_state
  else if sgm.w = 0 then synaptics_image_sensor_2f priv priv.agm.mt_state
  else if sgm.w = 1 ∧ priv.agm.mt_state.count ≤ 3 then
    synaptics_image_sensor_3f priv priv.agm.mt_state
  else synaptics_image_sensor_45f priv priv.agm.mt_state

theorem image_sensor_dispatch_frame (priv : synaptics_data) (sgm : synaptics_hw_state) :
    (image_sensor_dispatch priv sgm).1 =
      { priv with mt_state_lost := (image_sensor_dispatch priv sgm).1.mt_state_lost } := by
  unfold image_sensor_dispatch
  split_ifs
  · exact image_sensor_0f_frame _ _
  · exact image_sensor_1f_frame _ _
  · exact image_sensor_2f_frame _ _
  · exact image_sensor_3f_frame _ _
  · exact image_sensor_45f_frame _ _

theorem image_sensor_process_eq (packet : List Byte) (priv : synaptics_data)
    (sgm : synaptics_hw_state) :
    (synaptics_image_sensor_process packet priv sgm).1 =
      { priv with
        mt_state := (image_sensor_dispatch priv sgm).2,
        mt_state_lost := (image_sensor_dispatch priv sgm).1.mt_state_lost,
        agm := { priv.agm with mt_state := (image_sensor_dispatch priv sgm).2 },
        agm_pending := false } := by
  have h := image_sensor_dispatch_frame priv sgm
  unfold synaptics_image_sensor_process
  unfold image_sensor_dispatch at h ⊢
  dsimp only
  rw [h]

theorem image_sensor_process_pkt_type (packet : List Byte) (priv : synaptics_data)
    (sgm : synaptics_hw_state) :
    (synaptics_image_sensor_process packet priv sgm).1.pkt_type = priv.pkt_type := by
  rw [image_sensor_process_eq]

theorem parse_agm_pkt_type (buf : List Byte) (priv : synaptics_data)
    (hw : synaptics_hw_state) :
    (synaptics_parse_agm buf priv hw).pkt_type = priv.pkt_type := by
  unfold synaptics_parse_agm
  rfl

theorem parse_hw_state_pkt_type (buf : List Byte) (priv : synaptics_data) :
    (synaptics_parse_hw_state buf priv).2.1.pkt_type = priv.pkt_type := by
  unfold synaptics_parse_hw_state
  by_cases hn : priv.info.newabs = true
  · simp only [hn, if_true]
    by_cases hagm : synaptics_has_agm priv = true ∧ (parse_newabs_w_buttons buf priv).w = 2
    · rw [if_pos hagm]
      exact parse_agm_pkt_type _ _ _
    · rw [if_neg hagm]
  · rw [if_neg hn]

theorem process_packet_pkt_type (packet : List Byte) (priv : synaptics_data) :
    (synaptics_process_packet packet priv).1.pkt_type = priv.pkt_type := by
  have hp := parse_hw_state_pkt_type packet priv
  unfold synaptics_process_packet
  dsimp only
  split_ifs
  · exact hp
  · rw [image_sensor_process_pkt_type]; exact hp
  · exact hp
  · exact hp

theorem validate_byte_congr (p q : List Byte) (idx : Int) (t : Nat)
    (h : byteAt p idx.toNat = byteAt q idx.toNat) :
    synaptics_validate_byte p idx t = synaptics_validate_byte q idx t := by
  unfold synaptics_validate_byte
  rw [h]

theorem process_byte_full (ps : psmouse) (hcnt : 6 ≤ ps.pktcnt)
    (ht : ps.priv.pkt_type ≠ SYN_NEWABS) :
    (synaptics_process_byte ps).1 = psmouse_ret_t.PSMOUSE_FULL_PACKET ∧
    (synaptics_process_byte ps).2.1.priv.pkt_type = ps.priv.pkt_type := by
  have hge : ps.pktcnt ≥ 6 := hcnt
  unfold synaptics_process_byte
  simp only [if_pos hge, if_neg ht]
  split_ifs <;> first | exact ⟨rfl, rfl⟩ | exact ⟨rfl, process_packet_pkt_type _ _⟩

theorem feed_good (ps : psmouse) (b : Byte) (hcnt : ps.pktcnt + 1 < 6)
    (hv : synaptics_validate_byte (ps.packet ++ [b]) (ps.pktcnt : Int) ps.priv.pkt_type = true) :
    feed ps b =
      (psmouse_ret_t.PSMOUSE_GOOD_DATA,
       { ps with packet := ps.packet ++ [b], pktcnt := ps.pktcnt + 1 }, []) := by
  have hn : ¬ (ps.pktcnt + 1 ≥ 6) := by omega
  have e : ((ps.pktcnt + 1 : Nat) : Int) - 1 = (ps.pktcnt : Int) := by push_cast; ring
  simp only [feed, synaptics_process_byte, if_neg hn, e, hv, if_true]

theorem feed_bad (ps : psmouse) (b : Byte) (hcnt : ps.pktcnt + 1 < 6)
    (hv : synaptics_validate_byte (ps.packet ++ [b]) (ps.pktcnt : Int) ps.priv.pkt_type = false) :
    feed ps b =
      (psmouse_ret_t.PSMOUSE_BAD_DATA, { ps with packet := [], pktcnt := 0 }, []) := by
  have hn : ¬ (ps.pktcnt + 1 ≥ 6) := by omega
  have e : ((ps.pktcnt + 1 : Nat) : Int) - 1 = (ps.pktcnt : Int) := by push_cast; ring
  simp only [feed, synaptics_process_byte, if_neg hn, e, hv, Bool.false_eq_true, if_false]
  simp

theorem feed_full (ps : psmouse) (b : Byte) (hcnt : 6 ≤ ps.pktcnt + 1)
    (ht : ps.priv.pkt_type ≠ SYN_NEWABS) :
    (feed ps b).1 = psmouse_ret_t.PSMOUSE_FULL_PACKET ∧
    at_boundary (feed ps b).2.1 ps.priv.pkt_type := by
  have h := process_byte_full
    { ps with packet := ps.packet ++ [b], pktcnt := ps.pktcnt + 1 } hcnt ht
  unfold at_boundary feed
  dsimp only
  rw [h.1]
  simp only [reduceCtorEq, if_false]
  exact ⟨trivial, trivial, trivial, h.2⟩

theorem feed_all_append (ps : psmouse) (xs ys : List Byte) :
    feed_all ps (xs ++ ys) =
      ((feed_all ps xs).1 ++ (feed_all (feed_all ps xs).2 ys).1,
       (feed_all (feed_all ps xs).2 ys).2) := by
  induction xs generalizing ps with
  | nil => simp [feed_all]
  | cons x xs ih => simp [feed_all, ih]

/-- A framer at a packet boundary frames a valid packet correctly and is at a
boundary again after it. -/
theorem feed_all_valid_packet (ps : psmouse) (t : Nat) (p : List Byte)
    (hb : at_boundary ps t) (ht : t ≠ SYN_NEWABS) (hp : valid_packet t p) :
    (feed_all ps p).1 = reports_one_packet ∧ at_boundary (feed_all ps p).2 t := by
  obtain ⟨packet, pktcnt, priv, ca, cs⟩ := ps
  obtain ⟨hpk, hcnt, hty⟩ := hb
  obtain ⟨hlen, hv⟩ := hp
  simp only at hpk hcnt hty
  subst hpk hcnt
  match p, hlen with
  | [b0, b1, b2, b3, b4, b5], _ =>
    have v0 : synaptics_validate_byte ([] ++ [b0]) ((0 : Nat) : Int) priv.pkt_type = true := by
      rw [hty, ← hv 0 (by omega)]; exact validate_byte_congr _ _ _ _ rfl
    have v1 : synaptics_validate_byte ([b0] ++ [b1]) ((1 : Nat) : Int) priv.pkt_type = true := by
      rw [hty, ← hv 1 (by omega)]; exact validate_byte_congr _ _ _ _ rfl
    have v2 : synaptics_validate_byte ([b0, b1] ++ [b2]) ((2 : Nat) : Int) priv.pkt_type =
        true := by
      rw [hty, ← hv 2 (by omega)]; exact validate_byte_congr _ _ _ _ rfl
    have v3 : synaptics_validate_byte ([b0, b1, b2] ++ [b3]) ((3 : Nat) : Int) priv.pkt_type =
        true := by
      rw [hty, ← hv 3 (by omega)]; exact validate_byte_congr _ _ _ _ rfl
    have v4 : synaptics_validate_byte ([b0, b1, b2, b3] ++ [b4]) ((4 : Nat) : Int)
        priv.pkt_type = true := by
      rw [hty, ← hv 4 (by omega)]; exact validate_byte_congr _ _ _ _ rfl
    have s0 := feed_good ⟨[], 0, priv, ca, cs⟩ b0 (by simp) v0
    have s1 := feed_good ⟨[b0], 1, priv, ca, cs⟩ b1 (by simp) v1
    have s2 := feed_good ⟨[b0, b1], 2, priv, ca, cs⟩ b2 (by simp) v2
    have s3 := feed_good ⟨[b0, b1, b2], 3, priv, ca, cs⟩ b3 (by simp) v3
    have s4 := feed_good ⟨[b0, b1, b2, b3], 4, priv, ca, cs⟩ b4 (by simp) v4
    have s5 := feed_full ⟨[b0, b1, b2, b3, b4], 5, priv, ca, cs⟩ b5 (by simp)
      (by rw [hty]; exact ht)
    simp only [List.nil_append, List.singleton_append, List.cons_append, Nat.zero_add,
      Nat.reduceAdd] at s0 s1 s2 s3 s4 s5
    simp only [feed_all, s0, s1, s2, s3, s4, s5.1, reports_one_packet]
    refine ⟨trivial, ?_⟩
    rw [← hty]
    exact s5.2

/-- A new-absolute packet, valid under the strict and the relaxed template,
whose data bytes 2 and 5 happen to look like header bytes. -/
def packet_alias : List Byte := [0x80, 0, 0xC0, 0xC0, 0, 0x80]

/-- An ordinary valid new-absolute packet. -/
def packet_plain : List Byte := [0x80, 0x12, 40, 0xC0, 0x34, 0x56]

/-- C9, as stated, fails: the stray byte 0x80 passes the check of index 0, so
the framer keeps it as the first byte of a packet; followed by five copies of
the valid packet `packet_alias`, every later check passes too, and FullPacket
is reported with the 6th, 12th, 18th, 24th and 30th byte of the stream, one
byte before each true packet boundary (the 7th, 13th, ... 31st byte), which
the framer never reports. -/
theorem framer_resync_counterexample :
    at_boundary psmouse_relaxed SYN_NEWABS_RELAXED ∧
    valid_packet SYN_NEWABS_RELAXED packet_alias ∧
    (feed_all psmouse_relaxed
        (0x80 :: (packet_alias ++ packet_alias ++ packet_alias ++ packet_alias ++
          packet_alias))).1 =
      reports_one_packet ++ reports_one_packet ++ reports_one_packet ++ reports_one_packet ++
        reports_one_packet ++ [psmouse_ret_t.PSMOUSE_GOOD_DATA] ∧
    ((feed_all psmouse_relaxed
        (0x80 :: (packet_alias ++ packet_alias ++ packet_alias ++ packet_alias ++
          packet_alias))).1.getD 5 psmouse_ret_t.PSMOUSE_BAD_DATA =
      psmouse_ret_t.PSMOUSE_FULL_PACKET) ∧
    ((feed_all psmouse_relaxed
        (0x80 :: (packet_alias ++ packet_alias ++ packet_alias ++ packet_alias ++
          packet_alias))).1.getD 6 psmouse_ret_t.PSMOUSE_BAD_DATA ≠
      psmouse_ret_t.PSMOUSE_FULL_PACKET) := by
  refine ⟨⟨rfl, rfl, rfl⟩, ⟨rfl, by decide⟩, ?_, ?_, ?_⟩ <;> decide

/-- C9, amended: when the framer stands at a packet boundary of a session whose
variant is chosen and the corrupted byte fails the check of index 0 under the
session template, the framer reports BadData for it, discards it, and is
synchronised from the next byte on: for five following valid packets it
reports GoodData for the first five bytes and FullPacket for the sixth byte of
each, and ends at a packet boundary. -/
theorem framer_resync (ps : psmouse) (t : Nat) (c : Byte) (p1 p2 p3 p4 p5 : List Byte)
    (hb : at_boundary ps t) (ht : t ≠ SYN_NEWABS)
    (hc : synaptics_validate_byte [c] 0 t = false)
    (h1 : valid_packet t p1) (h2 : valid_packet t p2) (h3 : valid_packet t p3)
    (h4 : valid_packet t p4) (h5 : valid_packet t p5) :
    (feed_all ps (c :: (p1 ++ (p2 ++ (p3 ++ (p4 ++ p5)))))).1 =
      psmouse_ret_t.PSMOUSE_BAD_DATA ::
        (reports_one_packet ++ (reports_one_packet ++ (reports_one_packet ++
          (reports_one_packet ++ reports_one_packet)))) ∧
    at_boundary (feed_all ps (c :: (p1 ++ (p2 ++ (p3 ++ (p4 ++ p5)))))).2 t := by
  obtain ⟨hpk, hcnt, hty⟩ := hb
  have hv : synaptics_validate_byte (ps.packet ++ [c]) (ps.pktcnt : Int) ps.priv.pkt_type =
      false := by
    rw [hpk, hcnt, hty]; exact hc
  have s0 := feed_bad ps c (by omega) hv
  have b0 : at_boundary { ps with packet := [], pktcnt := 0 } t := ⟨rfl, rfl, hty⟩
  have r1 := feed_all_valid_packet _ t p1 b0 ht h1
  have r2 := feed_all_valid_packet _ t p2 r1.2 ht h2
  have r3 := feed_all_valid_packet _ t p3 r2.2 ht h3
  have r4 := feed_all_valid_packet _ t p4 r3.2 ht h4
  have r5 := feed_all_valid_packet _ t p5 r4.2 ht h5
  simp only [feed_all, s0, feed_all_append, r1.1, r2.1, r3.1, r4.1, r5.1]
  exact ⟨trivial, r5.2⟩

/-- Witness for the amended C9: the stray byte 0x00 fails the relaxed check of
index 0 and five ordinary packets follow. -/
theorem framer_resync_witness :
    synaptics_validate_byte [0x00] 0 SYN_NEWABS_RELAXED = false ∧
    valid_packet SYN_NEWABS_RELAXED packet_plain ∧
    (feed_all psmouse_relaxed
        (0x00 :: (packet_plain ++ (packet_plain ++ (packet_plain ++
          (packet_plain ++ packet_plain)))))).1 =
      psmouse_ret_t.PSMOUSE_BAD_DATA ::
        (reports_one_packet ++ (reports_one_packet ++ (reports_one_packet ++
          (reports_one_packet ++ reports_one_packet)))) :=
  ⟨by decide, ⟨rfl, by decide⟩,
   (framer_resync psmouse_relaxed SYN_NEWABS_RELAXED 0x00 packet_plain packet_plain packet_plain
      packet_plain packet_plain ⟨rfl, rfl, rfl⟩ (by decide) (by decide) ⟨rfl, by decide⟩
      ⟨rfl, by decide⟩ ⟨rfl, by decide⟩ ⟨rfl, by decide⟩ ⟨rfl, by decide⟩).1⟩

/-! ## Theorems: invariants of the tracked state -/

/-- The range every tracked or buffered slot assignment stays in: a count of
0..255 and slot numbers of -1..255. -/
def mt_state_in_range (m : synaptics_mt_state) : Prop :=
  0 ≤ m.count ∧ m.count ≤ 255 ∧ -1 ≤ m.sgm ∧ m.sgm ≤ 255 ∧ -1 ≤ m.agm ∧ m.agm ≤ 255

/-- The packet is decoded as a contact-count secondary sample (an AGM packet
of sub-type 2) on a device with capabilities `info`. -/
def is_contact_count_sample (info : synaptics_device_info) (pkt : List Byte) : Prop :=
  (synaptics_parse_hw_state pkt (synaptics_data_init info)).1 = 1 ∧
  (byteAt pkt 5 &&& 0x30) >>> 4 = 2

/-- A primary packet reporting two contacts (z = 40, width code 0). -/
def packet_two_fingers : List Byte := [0x80, 0x12, 40, 0xC0, 0x34, 0x56]

/-- A primary packet reporting one contact (z = 40, width code 4). -/
def packet_one_finger : List Byte := [0x90, 0x12, 40, 0xC0, 0x34, 0x56]

/-- A secondary packet (width code 2) of sub-type 2 carrying count 4, sgm 0
and agm 3. -/
def packet_contact_count : List Byte := [0x84, 4, 0, 0xC0, 3, 0x20]

/-- A secondary packet (width code 2) of sub-type 2 carrying count 3, sgm 0
and agm 3. -/
def packet_contact_count_three : List Byte := [0x84, 3, 0, 0xC0, 3, 0x20]

/-- A secondary packet (width code 2) of sub-type 2 carrying count 2, sgm 0
and agm 1. -/
def packet_contact_count_two : List Byte := [0x84, 2, 0, 0xC0, 1, 0x20]

/-- A primary packet of width code 1 (z = 40, x = 3, y = 5). -/
def packet_three_or_more : List Byte := [0x80, 0, 40, 0xC4, 3, 5]

/-- A secondary packet (width code 2) of sub-type 1: a gesture sample. -/
def packet_gesture : List Byte := [0x84, 0x12, 0x34, 0xF0, 0x56, 0x17]

theorem parse_hw_state_priv_cases (buf : List Byte) (priv : synaptics_data) :
    ((synaptics_parse_hw_state buf priv).1 = 0 ∧ (synaptics_parse_hw_state buf priv).2.1 = priv) ∨
    ((synaptics_parse_hw_state buf priv).1 = 1 ∧
      (synaptics_parse_hw_state buf priv).2.1 =
        synaptics_parse_agm buf priv (parse_newabs_w_buttons buf priv)) := by
  unfold synaptics_parse_hw_state
  by_cases hn : priv.info.newabs = true
  · simp only [hn, if_true]
    by_cases hagm : synaptics_has_agm priv = true ∧ (parse_newabs_w_buttons buf priv).w = 2
    · rw [if_pos hagm]
      exact Or.inr ⟨rfl, rfl⟩
    · rw [if_neg hagm]
      exact Or.inl ⟨rfl, rfl⟩
  · rw [if_neg hn]
    exact Or.inl ⟨rfl, rfl⟩

theorem parse_newabs_w_buttons_w (buf : List Byte) (priv priv2 : synaptics_data) :
    (parse_newabs_w_buttons buf priv).w = (parse_newabs_w_buttons buf priv2).w := by
  unfold parse_newabs_w_buttons
  dsimp only
  split_ifs <;> rfl

/-- Whether a packet is decoded as a secondary continuation depends on the
capabilities only, not on the rest of the private data. -/
theorem parse_hw_state_ret_info (buf : List Byte) (priv priv2 : synaptics_data)
    (h : priv.info = priv2.info) :
    (synaptics_parse_hw_state buf priv).1 = (synaptics_parse_hw_state buf priv2).1 := by
  have hw := parse_newabs_w_buttons_w buf priv priv2
  have hagm : synaptics_has_agm priv = synaptics_has_agm priv2 := by
    unfold synaptics_has_agm
    rw [h]
  unfold synaptics_parse_hw_state
  dsimp only
  rw [h, hagm, hw]
  split_ifs <;> rfl

theorem parse_agm_frame (buf : List Byte) (priv : synaptics_data) (hw : synaptics_hw_state) :
    (synaptics_parse_agm buf priv hw).info = priv.info ∧
    (synaptics_parse_agm buf priv hw).mt_state = priv.mt_state ∧
    (synaptics_parse_agm buf priv hw).agm.mt_state =
      (if (byteAt buf 5 &&& 0x30) >>> 4 = 2 then
        { count := (byteAt buf 1 : Nat), sgm := (byteAt buf 2 : Nat), agm := (byteAt buf 4 : Nat) }
       else priv.agm.mt_state) := by
  unfold synaptics_parse_agm synaptics_mt_state_set
  dsimp only
  refine ⟨rfl, rfl, ?_⟩
  by_cases h1 : (byteAt buf 5 &&& 0x30) >>> 4 = 1
  · have h2 : ¬ (byteAt buf 5 &&& 0x30) >>> 4 = 2 := by omega
    rw [if_pos h1, if_neg h2]
  · rw [if_neg h1]
    split_ifs <;> rfl

theorem image_sensor_1f_in_range (priv : synaptics_data) (mt : synaptics_mt_state)
    (h1 : mt_state_in_range priv.mt_state) (h2 : mt_state_in_range mt) :
    mt_state_in_range (synaptics_image_sensor_1f priv mt).2 := by
  unfold mt_state_in_range at h1 h2 ⊢
  unfold synaptics_image_sensor_1f synaptics_mt_state_set
  dsimp only
  split_ifs <;> dsimp only <;> omega

theorem image_sensor_2f_in_range (priv : synaptics_data) (mt : synaptics_mt_state)
    (h1 : mt_state_in_range priv.mt_state) (h2 : mt_state_in_range mt) :
    mt_state_in_range (synaptics_image_sensor_2f priv mt).2 := by
  unfold mt_state_in_range at h1 h2 ⊢
  unfold synaptics_image_sensor_2f synaptics_mt_state_set
  dsimp only
  split_ifs <;> dsimp only <;> omega

theorem image_sensor_3f_in_range (priv : synaptics_data) (mt : synaptics_mt_state)
    (h1 : mt_state_in_range priv.mt_state) (h2 : mt_state_in_range mt) :
    mt_state_in_range (synaptics_image_sensor_3f priv mt).2 := by
  unfold mt_state_in_range at h1 h2 ⊢
  unfold synaptics_image_sensor_3f synaptics_mt_state_set
  dsimp only
  split_ifs <;> dsimp only <;> omega

theorem image_sensor_dispatch_in_range (priv : synaptics_data) (sgm : synaptics_hw_state)
    (h1 : mt_state_in_range priv.mt_state) (h2 : mt_state_in_range priv.agm.mt_state) :
    mt_state_in_range (image_sensor_dispatch priv sgm).2 := by
  unfold image_sensor_dispatch
  split_ifs
  · unfold mt_state_in_range synaptics_image_sensor_0f synaptics_mt_state_set
    dsimp only
    omega
  · exact image_sensor_1f_in_range _ _ h1 h2
  · exact image_sensor_2f_in_range _ _ h1 h2
  · exact image_sensor_3f_in_range _ _ h1 h2
  · exact h2

theorem image_sensor_1f_count_le (priv : synaptics_data) (mt : synaptics_mt_state)
    (h2 : mt.count ≤ 5) : (synaptics_image_sensor_1f priv mt).2.count ≤ 5 := by
  unfold synaptics_image_sensor_1f synaptics_mt_state_set
  dsimp only
  split_ifs <;> dsimp only <;> omega

theorem image_sensor_2f_count_le (priv : synaptics_data) (mt : synaptics_mt_state)
    (h2 : mt.count ≤ 5) : (synaptics_image_sensor_2f priv mt).2.count ≤ 5 := by
  unfold synaptics_image_sensor_2f synaptics_mt_state_set
  dsimp only
  split_ifs <;> dsimp only <;> omega

theorem image_sensor_3f_count_le (priv : synaptics_data) (mt : synaptics_mt_state)
    (h2 : mt.count ≤ 5) : (synaptics_image_sensor_3f priv mt).2.count ≤ 5 := by
  unfold synaptics_image_sensor_3f synaptics_mt_state_set
  dsimp only
  split_ifs <;> dsimp only <;> omega

theorem image_sensor_dispatch_count_le (priv : synaptics_data) (sgm : synaptics_hw_state)
    (h2 : priv.agm.mt_state.count ≤ 5) :
    (image_sensor_dispatch priv sgm).2.count ≤ 5 := by
  unfold image_sensor_dispatch
  split_ifs
  · unfold synaptics_image_sensor_0f synaptics_mt_state_set
    dsimp only
    omega
  · exact image_sensor_1f_count_le _ _ h2
  · exact image_sensor_2f_count_le _ _ h2
  · exact image_sensor_3f_count_le _ _ h2
  · exact h2

/-- The private data after a packet: the capabilities are kept, and the
tracked and buffered assignments are either kept, both replaced by the result
of the tracker step, or (buffered only) replaced by the three bytes of a
contact-count sample. -/
theorem process_packet_mt_cases (packet : List Byte) (priv : synaptics_data) :
    (synaptics_process_packet packet priv).1.info = priv.info ∧
    (((synaptics_process_packet packet priv).1.mt_state = priv.mt_state ∧
      (synaptics_process_packet packet priv).1.agm.mt_state = priv.agm.mt_state) ∨
     (∃ sgm, (synaptics_process_packet packet priv).1.mt_state =
        (image_sensor_dispatch priv sgm).2 ∧
      (synaptics_process_packet packet priv).1.agm.mt_state =
        (image_sensor_dispatch priv sgm).2) ∨
     ((synaptics_parse_hw_state packet priv).1 = 1 ∧ (byteAt packet 5 &&& 0x30) >>> 4 = 2 ∧
      (synaptics_process_packet packet priv).1.mt_state = priv.mt_state ∧
      (synaptics_process_packet packet priv).1.agm.mt_state =
        { count := (byteAt packet 1 : Nat), sgm := (byteAt packet 2 : Nat),
          agm := (byteAt packet 4 : Nat) })) := by
  rcases parse_hw_state_priv_cases packet priv with ⟨h0, hp⟩ | ⟨h1, hp⟩
  · unfold synaptics_process_packet
    simp only [h0, ne_eq, not_true_eq_false, if_false, hp]
    by_cases himg : priv.info.image_sensor = true
    · rw [if_pos himg, image_sensor_process_eq]
      exact ⟨rfl, Or.inr (Or.inl ⟨_, rfl, rfl⟩)⟩
    · rw [if_neg himg]
      split_ifs <;> exact ⟨rfl, Or.inl ⟨rfl, rfl⟩⟩
  · have hne : (synaptics_parse_hw_state packet priv).1 ≠ 0 := by rw [h1]; decide
    have hf := parse_agm_frame packet priv (parse_newabs_w_buttons packet priv)
    unfold synaptics_process_packet
    simp only [if_pos hne, hp]
    refine ⟨hf.1, ?_⟩
    by_cases h2 : (byteAt packet 5 &&& 0x30) >>> 4 = 2
    · have h3 := hf.2.2
      rw [if_pos h2] at h3
      exact Or.inr (Or.inr ⟨h1, h2, hf.2.1, h3⟩)
    · have h3 := hf.2.2
      rw [if_neg h2] at h3
      exact Or.inl ⟨hf.2.1, h3⟩

/-- The invariant carried along a packet sequence. -/
def tracker_inv (priv : synaptics_data) : Prop :=
  mt_state_in_range priv.mt_state ∧ mt_state_in_range priv.agm.mt_state

theorem process_packet_inv (packet : List Byte) (priv : synaptics_data)
    (hinv : tracker_inv priv) : tracker_inv (synaptics_process_packet packet priv).1 := by
  obtain ⟨h1, h2⟩ := hinv
  rcases (process_packet_mt_cases packet priv).2 with ⟨e1, e2⟩ | ⟨sgm, e1, e2⟩ | ⟨_, _, e1, e2⟩
  · unfold tracker_inv
    rw [e1, e2]
    exact ⟨h1, h2⟩
  · unfold tracker_inv
    rw [e1, e2]
    exact ⟨image_sensor_dispatch_in_range priv sgm h1 h2,
      image_sensor_dispatch_in_range priv sgm h1 h2⟩
  · unfold tracker_inv
    rw [e1, e2]
    refine ⟨h1, ?_⟩
    have b1 := byteAt_lt packet 1
    have b2 := byteAt_lt packet 2
    have b4 := byteAt_lt packet 4
    unfold mt_state_in_range
    dsimp only
    omega

theorem process_packet_count_le (packet : List Byte) (priv : synaptics_data)
    (hs : is_contact_count_sample priv.info packet → byteAt packet 1 ≤ 5)
    (h1 : priv.mt_state.count ≤ 5) (h2 : priv.agm.mt_state.count ≤ 5) :
    (synaptics_process_packet packet priv).1.mt_state.count ≤ 5 ∧
    (synaptics_process_packet packet priv).1.agm.mt_state.count ≤ 5 := by
  rcases (process_packet_mt_cases packet priv).2 with ⟨e1, e2⟩ | ⟨sgm, e1, e2⟩ | ⟨hr, ht, e1, e2⟩
  · rw [e1, e2]
    exact ⟨h1, h2⟩
  · rw [e1, e2]
    exact ⟨image_sensor_dispatch_count_le priv sgm h2, image_sensor_dispatch_count_le priv sgm h2⟩
  · rw [e1, e2]
    have hsample : is_contact_count_sample priv.info packet := by
      refine ⟨?_, ht⟩
      rw [← hr]
      exact parse_hw_state_ret_info packet _ priv rfl
    have := hs hsample
    refine ⟨h1, ?_⟩
    dsimp only
    omega

theorem process_packets_inv (packets : List (List Byte)) :
    ∀ priv : synaptics_data, tracker_inv priv →
      (process_packets priv packets).1.info = priv.info ∧
      tracker_inv (process_packets priv packets).1 ∧
      ((∀ pkt ∈ packets, is_contact_count_sample priv.info pkt → byteAt pkt 1 ≤ 5) →
        priv.mt_state.count ≤ 5 → priv.agm.mt_state.count ≤ 5 →
        (process_packets priv packets).1.mt_state.count ≤ 5) := by
  induction packets with
  | nil =>
    intro priv hinv
    exact ⟨rfl, hinv, fun _ h1 _ => h1⟩
  | cons p ps ih =>
    intro priv hinv
    have hinfo := (process_packet_mt_cases p priv).1
    have hstep := process_packet_inv p priv hinv
    obtain ⟨i1, i2, i3⟩ := ih (synaptics_process_packet p priv).1 hstep
    simp only [process_packets]
    refine ⟨by rw [i1, hinfo], i2, ?_⟩
    intro hs h1 h2
    have hc := process_packet_count_le p priv (hs p (List.mem_cons_self _ _)) h1 h2
    apply i3 _ hc.1 hc.2
    intro pkt hpkt
    rw [hinfo]
    exact hs pkt (List.mem_cons_of_mem _ hpkt)

/-- C10, as stated, fails: from the initial state of an image-sensor device, a
primary packet reporting two contacts followed by one reporting one contact
stores {1, 1, -1}, whose sgm = 1 is not among -1, 0, ..., count - 1. -/
theorem tracked_state_invariant_counterexample :
    (process_packets (synaptics_data_init info_image_sensor)
      [packet_two_fingers]).1.mt_state = { count := 2, sgm := 0, agm := 1 } ∧
    (process_packets (synaptics_data_init info_image_sensor)
      [packet_two_fingers, packet_one_finger]).1.mt_state = { count := 1, sgm := 1, agm := -1 } ∧
    ¬ ((process_packets (synaptics_data_init info_image_sensor)
        [packet_two_fingers, packet_one_finger]).1.mt_state.sgm ≤
      (process_packets (synaptics_data_init info_image_sensor)
        [packet_two_fingers, packet_one_finger]).1.mt_state.count - 1) := by
  decide

/-- C10, amended: every tracked state stored after processing any sequence of
packets, from the initial state of any device, has 0 <= count <= 255 and sgm
and agm each within -1..255; and count <= 5 as long as every contact-count
secondary sample in the sequence reports a count of at most 5. -/
theorem tracked_state_invariant (info : synaptics_device_info) (packets : List (List Byte)) :
    mt_state_in_range (process_packets (synaptics_data_init info) packets).1.mt_state ∧
    ((∀ pkt ∈ packets, is_contact_count_sample info pkt → byteAt pkt 1 ≤ 5) →
      (process_packets (synaptics_data_init info) packets).1.mt_state.count ≤ 5) := by
  have hinit : tracker_inv (synaptics_data_init info) := by
    unfold tracker_inv mt_state_in_range synaptics_data_init hw_state_zero
    dsimp only
    omega
  obtain ⟨_, h2, h3⟩ := process_packets_inv packets (synaptics_data_init info) hinit
  refine ⟨h2.1, fun hs => h3 hs ?_ ?_⟩
  · unfold synaptics_data_init; dsimp only; omega
  · unfold synaptics_data_init hw_state_zero; dsimp only; omega

/-- Witness for the amended C10: an image-sensor device fed a primary packet,
a contact-count sample reporting {4, 0, 3} and a primary packet of width
code 1 stores {4, 0, 3}. -/
theorem tracked_state_invariant_witness :
    is_contact_count_sample info_image_sensor packet_contact_count ∧
    (∀ pkt ∈ [packet_two_fingers, packet_contact_count, packet_three_or_more],
      is_contact_count_sample info_image_sensor pkt → byteAt pkt 1 ≤ 5) ∧
    (process_packets (synaptics_data_init info_image_sensor)
      [packet_two_fingers, packet_contact_count, packet_three_or_more]).1.mt_state =
        { count := 4, sgm := 0, agm := 3 } ∧
    (process_packets (synaptics_data_init info_image_sensor)
      [packet_two_fingers, packet_contact_count, packet_three_or_more]).1.mt_state.count ≤ 5 := by
  have hs : ∀ pkt ∈ [packet_two_fingers, packet_contact_count, packet_three_or_more],
      is_contact_count_sample info_image_sensor pkt → byteAt pkt 1 ≤ 5 := by
    intro pkt hpkt hsample
    simp only [List.mem_cons, List.mem_singleton, List.not_mem_nil, or_false] at hpkt
    rcases hpkt with rfl | rfl | rfl
    · exact absurd hsample.1 (by decide)
    · decide
    · exact absurd hsample.1 (by decide)
  exact ⟨⟨by decide, by decide⟩, hs, by decide, (tracked_state_invariant info_image_sensor
    [packet_two_fingers, packet_contact_count, packet_three_or_more]).2 hs⟩

/-! ## Theorems: the slot tracker, transitions between one, two and three contacts -/

/-- Private data of an image-sensor device whose tracked state is
`{count, sgm, agm}` while the buffered contact-count sample, received since the
previous primary packet, holds `{scount, ssgm, sagm}`. -/
def priv_tracking_sample (count sgm agm : Int) (lost pending : Bool) (agm_z : Int)
    (scount ssgm sagm : Int) : synaptics_data :=
  { priv_tracking count sgm agm lost pending agm_z with
    agm := { hw_state_zero with
      z := agm_z, mt_state := { count := scount, sgm := ssgm, agm := sagm } } }

/-- The state and the flag stored by `synaptics_image_sensor_process` for a
report of one contact (z > 0, width code >= 4). -/
theorem image_sensor_process_1f (packet : List Byte) (priv : synaptics_data)
    (sgm : synaptics_hw_state) (hz : 0 < sgm.z) (hw : 4 ≤ sgm.w) :
    (synaptics_image_sensor_process packet priv sgm).1.mt_state =
      (synaptics_image_sensor_1f priv priv.agm.mt_state).2 ∧
    (synaptics_image_sensor_process packet priv sgm).1.mt_state_lost =
      (synaptics_image_sensor_1f priv priv.agm.mt_state).1.mt_state_lost := by
  have hz0 : sgm.z ≠ 0 := by omega
  simp [synaptics_image_sensor_process, hz0, hw]

/-- The state and the flag stored for a report of two contacts (z > 0, width
code 0). -/
theorem image_sensor_process_2f (packet : List Byte) (priv : synaptics_data)
    (sgm : synaptics_hw_state) (hz : 0 < sgm.z) (hw : sgm.w = 0) :
    (synaptics_image_sensor_process packet priv sgm).1.mt_state =
      (synaptics_image_sensor_2f priv priv.agm.mt_state).2 ∧
    (synaptics_image_sensor_process packet priv sgm).1.mt_state_lost =
      (synaptics_image_sensor_2f priv priv.agm.mt_state).1.mt_state_lost := by
  have hz0 : sgm.z ≠ 0 := by omega
  simp [synaptics_image_sensor_process, hz0, hw]

/-- The state and the flag stored for a report of three contacts (z > 0, width
code 1, buffered count at most 3). -/
theorem image_sensor_process_3f (packet : List Byte) (priv : synaptics_data)
    (sgm : synaptics_hw_state) (hz : 0 < sgm.z) (hw : sgm.w = 1)
    (hc : priv.agm.mt_state.count ≤ 3) :
    (synaptics_image_sensor_process packet priv sgm).1.mt_state =
      (synaptics_image_sensor_3f priv priv.agm.mt_state).2 ∧
    (synaptics_image_sensor_process packet priv sgm).1.mt_state_lost =
      (synaptics_image_sensor_3f priv priv.agm.mt_state).1.mt_state_lost := by
  have hz0 : sgm.z ≠ 0 := by omega
  simp [synaptics_image_sensor_process, hz0, hw, hc]

/-- The state and the flag stored when the 4-or-5 rule applies (z > 0 and a
width code that selects none of the other rules). -/
theorem image_sensor_process_45f (packet : List Byte) (priv : synaptics_data)
    (sgm : synaptics_hw_state) (hz : 0 < sgm.z) (hw4 : sgm.w < 4) (hw0 : sgm.w ≠ 0)
    (hw1 : ¬ (sgm.w = 1 ∧ priv.agm.mt_state.count ≤ 3)) :
    (synaptics_image_sensor_process packet priv sgm).1.mt_state = priv.agm.mt_state ∧
    (synaptics_image_sensor_process packet priv sgm).1.mt_state_lost = false := by
  have hz0 : sgm.z ≠ 0 := by omega
  have hw4n : ¬ (4 ≤ sgm.w) := by omega
  simp only [synaptics_image_sensor_process, if_neg hz0, ge_iff_le, if_neg hw4n, if_neg hw0,
    if_neg hw1, synaptics_image_sensor_45f]
  exact ⟨trivial, trivial⟩

/-- C4, as stated, fails: after a primary packet of one contact the tracked
state is {1, 0, -1} with prior.sgm = 0 < 2; a contact-count sample {4, 0, 3}
follows, then a primary packet with z = 40 and width code 1, the width code of
3 contacts.  The stored state is the buffered {4, 0, 3}, not {3, 0, 2}. -/
theorem image_sensor_one_to_more_counterexample :
    (process_packets (synaptics_data_init info_image_sensor)
      [packet_one_finger, packet_contact_count]).1.mt_state =
        { count := 1, sgm := 0, agm := -1 } ∧
    (process_packets (synaptics_data_init info_image_sensor)
      [packet_one_finger, packet_contact_count]).1.agm.mt_state =
        { count := 4, sgm := 0, agm := 3 } ∧
    (synaptics_parse_hw_state packet_three_or_more
      (process_packets (synaptics_data_init info_image_sensor)
        [packet_one_finger, packet_contact_count]).1).1 = 0 ∧
    0 < (synaptics_parse_hw_state packet_three_or_more
      (process_packets (synaptics_data_init info_image_sensor)
        [packet_one_finger, packet_contact_count]).1).2.2.z ∧
    (synaptics_parse_hw_state packet_three_or_more
      (process_packets (synaptics_data_init info_image_sensor)
        [packet_one_finger, packet_contact_count]).1).2.2.w = 1 ∧
    (process_packets (synaptics_data_init info_image_sensor)
      [packet_one_finger, packet_contact_count, packet_three_or_more]).1.mt_state =
        { count := 4, sgm := 0, agm := 3 } ∧
    (process_packets (synaptics_data_init info_image_sensor)
      [packet_one_finger, packet_contact_count, packet_three_or_more]).1.mt_state ≠
        { count := 3, sgm := 0, agm := 3 - 1 } ∧
    (synaptics_image_sensor_process [] (priv_tracking_sample 1 0 (-1) false true 0 4 0 3)
        (hw_primary 40 1)).1.mt_state = { count := 4, sgm := 0, agm := 3 } := by
  decide

/-- C4, amended: from every prior tracked state with count 1, a primary packet
indicating n contacts, n = 2 (z > 0, width code 0) or n = 3 (z > 0, width
code 1 and a buffered count of at most 3), gives {n, 0, prior.sgm} if
prior.sgm >= n - 1 and {n, 0, n - 1} otherwise, and leaves `mt_state_lost` as
it is; with z > 0, width code 1 and a buffered count above 3 the 4-or-5 rule
applies instead: the buffered state is stored and `mt_state_lost` is cleared. -/
theorem image_sensor_one_to_more (packet : List Byte) (priv : synaptics_data)
    (sgm : synaptics_hw_state) (hcount : priv.mt_state.count = 1) (hz : 0 < sgm.z) :
    (∀ n : Int,
      (n = 2 ∧ sgm.w = 0) ∨ (n = 3 ∧ sgm.w = 1 ∧ priv.agm.mt_state.count ≤ 3) →
      (synaptics_image_sensor_process packet priv sgm).1.mt_state =
        (if priv.mt_state.sgm ≥ n - 1 then { count := n, sgm := 0, agm := priv.mt_state.sgm }
         else { count := n, sgm := 0, agm := n - 1 }) ∧
      (synaptics_image_sensor_process packet priv sgm).1.mt_state_lost = priv.mt_state_lost) ∧
    (sgm.w = 1 → ¬ priv.agm.mt_state.count ≤ 3 →
      (synaptics_image_sensor_process packet priv sgm).1.mt_state = priv.agm.mt_state ∧
      (synaptics_image_sensor_process packet priv sgm).1.mt_state_lost = false) := by
  have hz0 : sgm.z ≠ 0 := by omega
  constructor
  · intro n hn
    rcases hn with ⟨hn, hw⟩ | ⟨hn, hw, hc⟩
    · subst hn
      by_cases hs : priv.mt_state.sgm ≥ 1
      · simp [synaptics_image_sensor_process, synaptics_image_sensor_2f, synaptics_mt_state_set,
          hz0, hw, hcount, hs]
      · simp [synaptics_image_sensor_process, synaptics_image_sensor_2f, synaptics_mt_state_set,
          hz0, hw, hcount, hs]
    · subst hn
      by_cases hs : priv.mt_state.sgm ≥ 2
      · simp [synaptics_image_sensor_process, synaptics_image_sensor_3f, synaptics_mt_state_set,
          hz0, hw, hcount, hs, hc]
      · simp [synaptics_image_sensor_process, synaptics_image_sensor_3f, synaptics_mt_state_set,
          hz0, hw, hcount, hs, hc]
  · intro hw hc
    exact image_sensor_process_45f packet priv sgm hz (by omega) (by omega) (fun h => hc h.2)

/-- Witness for the amended C4: prior {1, 0, -1} with new count 2 gives
{2, 0, 1}; with new count 3 it gives {3, 0, 2}; prior {1, 2, -1} with new
count 3 gives {3, 0, 2} as well, sgm moving to the secondary slot; and prior
{1, 0, -1} with a buffered sample {4, 0, 3} and width code 1 stores {4, 0, 3}. -/
theorem image_sensor_one_to_more_witness :
    (priv_tracking 1 0 (-1) false false 40).mt_state = { count := 1, sgm := 0, agm := -1 } ∧
    (synaptics_image_sensor_process [] (priv_tracking 1 0 (-1) false false 40)
        (hw_primary 40 0)).1.mt_state = { count := 2, sgm := 0, agm := 1 } ∧
    (synaptics_image_sensor_process [] (priv_tracking 1 0 (-1) false false 40)
        (hw_primary 40 1)).1.mt_state = { count := 3, sgm := 0, agm := 2 } ∧
    (synaptics_image_sensor_process [] (priv_tracking 1 2 (-1) false false 40)
        (hw_primary 40 1)).1.mt_state = { count := 3, sgm := 0, agm := 2 } ∧
    (synaptics_image_sensor_process [] (priv_tracking 1 1 (-1) false false 40)
        (hw_primary 40 0)).1.mt_state = { count := 2, sgm := 0, agm := 1 } ∧
    (synaptics_image_sensor_process [] (priv_tracking_sample 1 0 (-1) false true 40 4 0 3)
        (hw_primary 40 1)).1.mt_state = { count := 4, sgm := 0, agm := 3 } ∧
    (synaptics_image_sensor_process [] (priv_tracking_sample 1 0 (-1) false true 40 4 0 3)
        (hw_primary 40 1)).1.mt_state_lost = false :=
  ⟨rfl,
   ((image_sensor_one_to_more [] (priv_tracking 1 0 (-1) false false 40) (hw_primary 40 0)
      rfl (by decide)).1 2 (Or.inl ⟨rfl, rfl⟩)).1,
   ((image_sensor_one_to_more [] (priv_tracking 1 0 (-1) false false 40) (hw_primary 40 1)
      rfl (by decide)).1 3 (Or.inr ⟨rfl, rfl, by decide⟩)).1,
   ((image_sensor_one_to_more [] (priv_tracking 1 2 (-1) false false 40) (hw_primary 40 1)
      rfl (by decide)).1 3 (Or.inr ⟨rfl, rfl, by decide⟩)).1,
   ((image_sensor_one_to_more [] (priv_tracking 1 1 (-1) false false 40) (hw_primary 40 0)
      rfl (by decide)).1 2 (Or.inl ⟨rfl, rfl⟩)).1,
   (image_sensor_one_to_more [] (priv_tracking_sample 1 0 (-1) false true 40 4 0 3)
      (hw_primary 40 1) rfl (by decide)).2 rfl (by decide)⟩

/-- C11, as stated, fails: prior {3, 0, 2} with a pending secondary sample of
pressure 0 and a primary packet indicating 1 contact (z = 40, w = 4) give
{1, 0, -1} with the ambiguity flag clear, not {1, -1, -1} with the flag set. -/
theorem image_sensor_three_to_one_counterexample :
    (priv_tracking 3 0 2 false true 0).mt_state = { count := 3, sgm := 0, agm := 2 } ∧
    0 < (hw_primary 40 4).z ∧ 4 ≤ (hw_primary 40 4).w ∧
    (synaptics_image_sensor_process [] (priv_tracking 3 0 2 false true 0)
        (hw_primary 40 4)).1.mt_state = { count := 1, sgm := 0, agm := -1 } ∧
    (synaptics_image_sensor_process [] (priv_tracking 3 0 2 false true 0)
        (hw_primary 40 4)).1.mt_state ≠ { count := 1, sgm := -1, agm := -1 } ∧
    (synaptics_image_sensor_process [] (priv_tracking 3 0 2 false true 0)
        (hw_primary 40 4)).1.mt_state_lost = false := by
  decide

/-- C11, amended: from every prior tracked state with count 3, a primary packet
indicating 1 contact (z > 0, width code >= 4) gives {1, 0, -1} with
`mt_state_lost` cleared when a secondary sample of pressure 0 is pending, and
in every other case gives {1, -1, -1} and sets `mt_state_lost`. -/
theorem image_sensor_three_to_one (packet : List Byte) (priv : synaptics_data)
    (sgm : synaptics_hw_state) (hcount : priv.mt_state.count = 3) (hz : 0 < sgm.z)
    (hw : 4 ≤ sgm.w) :
    (priv.agm_pending = true ∧ priv.agm.z = 0 →
      (synaptics_image_sensor_process packet priv sgm).1.mt_state =
          { count := 1, sgm := 0, agm := -1 } ∧
      (synaptics_image_sensor_process packet priv sgm).1.mt_state_lost = false) ∧
    (¬ (priv.agm_pending = true ∧ priv.agm.z = 0) →
      (synaptics_image_sensor_process packet priv sgm).1.mt_state =
          { count := 1, sgm := -1, agm := -1 } ∧
      (synaptics_image_sensor_process packet priv sgm).1.mt_state_lost = true) := by
  obtain ⟨e1, e2⟩ := image_sensor_process_1f packet priv sgm hz hw
  rw [e1, e2]
  constructor
  · intro hp
    simp [synaptics_image_sensor_1f, synaptics_mt_state_set, hp.1, hp.2]
  · intro hp
    have hp2 : ¬ (priv.agm_pending = true ∧ priv.agm.z = 0) := hp
    simp only [synaptics_image_sensor_1f, synaptics_mt_state_set, if_neg hp2, hcount]
    simp

/-- Witness for the amended C11: prior {3, 0, 2}, no secondary sample pending. -/
theorem image_sensor_three_to_one_witness :
    (priv_tracking 3 0 2 false false 40).mt_state = { count := 3, sgm := 0, agm := 2 } ∧
    (synaptics_image_sensor_process [] (priv_tracking 3 0 2 false false 40)
        (hw_primary 40 4)).1.mt_state = { count := 1, sgm := -1, agm := -1 } ∧
    (synaptics_image_sensor_process [] (priv_tracking 3 0 2 false false 40)
        (hw_primary 40 4)).1.mt_state_lost = true :=
  ⟨rfl, (image_sensor_three_to_one [] (priv_tracking 3 0 2 false false 40) (hw_primary 40 4)
    rfl (by decide) (by decide)).2 (by decide)⟩

/-- The state stored for a report of one contact when the prior count is 1. -/
theorem image_sensor_one_to_one_aux (packet : List Byte) (priv : synaptics_data)
    (sgm : synaptics_hw_state) (hcount : priv.mt_state.count = 1) (hz : 0 < sgm.z)
    (hw : 4 ≤ sgm.w) :
    (synaptics_image_sensor_process packet priv sgm).1.mt_state =
      (if priv.agm_pending = true ∧ priv.agm.z = 0 then { count := 1, sgm := 0, agm := -1 }
       else if priv.mt_state_lost = true ∨ (priv.agm_pending = true ∧ priv.mt_state.sgm ≤ 0)
         then { count := 1, sgm := 1, agm := -1 }
       else if priv.mt_state.sgm = -1 then { count := 1, sgm := 0, agm := -1 }
       else priv.agm.mt_state) := by
  obtain ⟨e1, _⟩ := image_sensor_process_1f packet priv sgm hz hw
  have h10 : ¬ ((1 : Int) = 0) := by decide
  rw [e1]
  simp only [synaptics_image_sensor_1f, synaptics_mt_state_set, hcount, h10, if_false, if_true]
  split_ifs <;> rfl

/-- C12, as stated, fails: two contacts, then one contact, leave the tracked
state {1, 1, -1} with the ambiguity flag clear; a gesture sample of pressure
110 and a contact-count sample {4, 0, 3} follow, then a primary packet
indicating 1 contact (z = 40, width code 4).  No pending sample has z = 0, the
flag is clear, prior.sgm = 1 is neither <= 0 nor -1, so the claim keeps
{1, 1, -1}; the stored state is the buffered {4, 0, 3}. -/
theorem image_sensor_one_to_one_counterexample :
    (process_packets (synaptics_data_init info_image_sensor)
      [packet_two_fingers, packet_one_finger, packet_gesture, packet_contact_count]).1.mt_state =
        { count := 1, sgm := 1, agm := -1 } ∧
    (process_packets (synaptics_data_init info_image_sensor)
      [packet_two_fingers, packet_one_finger, packet_gesture,
        packet_contact_count]).1.mt_state_lost = false ∧
    (process_packets (synaptics_data_init info_image_sensor)
      [packet_two_fingers, packet_one_finger, packet_gesture,
        packet_contact_count]).1.agm_pending = true ∧
    (process_packets (synaptics_data_init info_image_sensor)
      [packet_two_fingers, packet_one_finger, packet_gesture, packet_contact_count]).1.agm.z =
        110 ∧
    (process_packets (synaptics_data_init info_image_sensor)
      [packet_two_fingers, packet_one_finger, packet_gesture,
        packet_contact_count]).1.agm.mt_state = { count := 4, sgm := 0, agm := 3 } ∧
    (synaptics_parse_hw_state packet_one_finger
      (process_packets (synaptics_data_init info_image_sensor)
        [packet_two_fingers, packet_one_finger, packet_gesture,
          packet_contact_count]).1).1 = 0 ∧
    0 < (synaptics_parse_hw_state packet_one_finger
      (process_packets (synaptics_data_init info_image_sensor)
        [packet_two_fingers, packet_one_finger, packet_gesture,
          packet_contact_count]).1).2.2.z ∧
    4 ≤ (synaptics_parse_hw_state packet_one_finger
      (process_packets (synaptics_data_init info_image_sensor)
        [packet_two_fingers, packet_one_finger, packet_gesture,
          packet_contact_count]).1).2.2.w ∧
    (process_packets (synaptics_data_init info_image_sensor)
      [packet_two_fingers, packet_one_finger, packet_gesture, packet_contact_count,
        packet_one_finger]).1.mt_state = { count := 4, sgm := 0, agm := 3 } ∧
    (process_packets (synaptics_data_init info_image_sensor)
      [packet_two_fingers, packet_one_finger, packet_gesture, packet_contact_count,
        packet_one_finger]).1.mt_state ≠
      (process_packets (synaptics_data_init info_image_sensor)
        [packet_two_fingers, packet_one_finger, packet_gesture,
          packet_contact_count]).1.mt_state ∧
    (synaptics_image_sensor_process [] (priv_tracking_sample 1 1 (-1) false true 110 4 0 3)
        (hw_primary 40 4)).1.mt_state = { count := 4, sgm := 0, agm := 3 } := by
  decide

/-- C12, amended: from every prior tracked state with count 1, a primary packet
indicating 1 contact (z > 0, width code >= 4) gives {1, 0, -1} if a secondary
sample of pressure 0 is pending; else {1, 1, -1} if `mt_state_lost` is set or
a secondary sample is pending and prior.sgm <= 0; else {1, 0, -1} if
prior.sgm = -1; otherwise the tracker writes nothing and the stored state is
the buffered one: the prior state, kept unchanged, when no contact-count
sample has replaced it since the previous primary packet, and the state of
that sample when one has. -/
theorem image_sensor_one_to_one (packet : List Byte) (priv : synaptics_data)
    (sgm : synaptics_hw_state) (hcount : priv.mt_state.count = 1) (hz : 0 < sgm.z)
    (hw : 4 ≤ sgm.w) :
    (synaptics_image_sensor_process packet priv sgm).1.mt_state =
      (if priv.agm_pending = true ∧ priv.agm.z = 0 then { count := 1, sgm := 0, agm := -1 }
       else if priv.mt_state_lost = true ∨ (priv.agm_pending = true ∧ priv.mt_state.sgm ≤ 0)
         then { count := 1, sgm := 1, agm := -1 }
       else if priv.mt_state.sgm = -1 then { count := 1, sgm := 0, agm := -1 }
       else priv.agm.mt_state) ∧
    (¬ (priv.agm_pending = true ∧ priv.agm.z = 0) →
      ¬ (priv.mt_state_lost = true ∨ (priv.agm_pending = true ∧ priv.mt_state.sgm ≤ 0)) →
      priv.mt_state.sgm ≠ -1 →
      (synaptics_image_sensor_process packet priv sgm).1.mt_state = priv.agm.mt_state ∧
      (priv.agm.mt_state = priv.mt_state →
        (synaptics_image_sensor_process packet priv sgm).1.mt_state = priv.mt_state)) := by
  obtain ⟨e1, _⟩ := image_sensor_process_1f packet priv sgm hz hw
  have key : (synaptics_image_sensor_1f priv priv.agm.mt_state).2 =
      (if priv.agm_pending = true ∧ priv.agm.z = 0 then { count := 1, sgm := 0, agm := -1 }
       else if priv.mt_state_lost = true ∨ (priv.agm_pending = true ∧ priv.mt_state.sgm ≤ 0)
         then { count := 1, sgm := 1, agm := -1 }
       else if priv.mt_state.sgm = -1 then { count := 1, sgm := 0, agm := -1 }
       else priv.agm.mt_state) := by
    have h10 : ¬ ((1 : Int) = 0) := by decide
    simp only [synaptics_image_sensor_1f, synaptics_mt_state_set, hcount, h10, if_false, if_true]
    split_ifs <;> rfl
  rw [e1, key]
  refine ⟨rfl, ?_⟩
  intro h1 h2 h3
  rw [if_neg h1, if_neg h2, if_neg h3]
  exact ⟨rfl, fun hsame => hsame⟩

/-- Witness for the amended C12: prior {1, 1, -1}, flag clear, nothing pending:
the state is kept; prior {1, 0, -1} with a secondary sample of pressure 40
pending gives {1, 1, -1}; prior {1, 1, -1} with a pending contact-count sample
{4, 0, 3} stores {4, 0, 3}. -/
theorem image_sensor_one_to_one_witness :
    (synaptics_image_sensor_process [] (priv_tracking 1 1 (-1) false false 40)
        (hw_primary 40 4)).1.mt_state = { count := 1, sgm := 1, agm := -1 } ∧
    (synaptics_image_sensor_process [] (priv_tracking 1 0 (-1) false true 40)
        (hw_primary 40 4)).1.mt_state = { count := 1, sgm := 1, agm := -1 } ∧
    (synaptics_image_sensor_process [] (priv_tracking_sample 1 1 (-1) false true 40 4 0 3)
        (hw_primary 40 4)).1.mt_state = { count := 4, sgm := 0, agm := 3 } :=
  ⟨((image_sensor_one_to_one [] (priv_tracking 1 1 (-1) false false 40) (hw_primary 40 4)
      rfl (by decide) (by decide)).2 (by decide) (by decide) (by decide)).2 rfl,
   (image_sensor_one_to_one [] (priv_tracking 1 0 (-1) false true 40) (hw_primary 40 4)
      rfl (by decide) (by decide)).1,
   ((image_sensor_one_to_one [] (priv_tracking_sample 1 1 (-1) false true 40 4 0 3)
      (hw_primary 40 4) rfl (by decide) (by decide)).2 (by decide) (by decide) (by decide)).1⟩

/-- C13, as stated, fails: prior {2, -1, -1} with the ambiguity flag set and a
primary packet indicating 2 contacts give {2, 0, 1}, but the flag is not
cleared: `mt_state_lost` is still set afterwards. -/
theorem image_sensor_two_to_two_counterexample :
    (priv_tracking 2 (-1) (-1) true false 40).mt_state = { count := 2, sgm := -1, agm := -1 } ∧
    (priv_tracking 2 (-1) (-1) true false 40).mt_state_lost = true ∧
    0 < (hw_primary 40 0).z ∧ (hw_primary 40 0).w = 0 ∧
    (synaptics_image_sensor_process [] (priv_tracking 2 (-1) (-1) true false 40)
        (hw_primary 40 0)).1.mt_state = { count := 2, sgm := 0, agm := 1 } ∧
    (synaptics_image_sensor_process [] (priv_tracking 2 (-1) (-1) true false 40)
        (hw_primary 40 0)).1.mt_state_lost = true ∧
    (synaptics_image_sensor_process [] (priv_tracking 2 (-1) (-1) true false 40)
        (hw_primary 40 0)).1.mt_state_lost ≠ false := by
  decide

/-- C13, amended: from every prior tracked state with count 2, a primary packet
indicating 2 contacts (z > 0, width code 0) gives {2, 0, 1} if `mt_state_lost`
is set and otherwise keeps the buffered state (the prior one, or the one
supplied by a contact-count sample since the previous primary packet); in both
cases `mt_state_lost` keeps its value, so a set flag stays set. -/
theorem image_sensor_two_to_two (packet : List Byte) (priv : synaptics_data)
    (sgm : synaptics_hw_state) (hcount : priv.mt_state.count = 2) (hz : 0 < sgm.z)
    (hw : sgm.w = 0) :
    (synaptics_image_sensor_process packet priv sgm).1.mt_state =
      (if priv.mt_state_lost = true then { count := 2, sgm := 0, agm := 1 }
       else priv.agm.mt_state) ∧
    (synaptics_image_sensor_process packet priv sgm).1.mt_state_lost = priv.mt_state_lost ∧
    (priv.agm.mt_state = priv.mt_state → priv.mt_state_lost = false →
      (synaptics_image_sensor_process packet priv sgm).1.mt_state = priv.mt_state) := by
  obtain ⟨e1, e2⟩ := image_sensor_process_2f packet priv sgm hz hw
  have h20 : ¬ ((2 : Int) = 0) := by decide
  have h21 : ¬ ((2 : Int) = 1) := by decide
  have key : synaptics_image_sensor_2f priv priv.agm.mt_state =
      (priv, if priv.mt_state_lost = true then { count := 2, sgm := 0, agm := 1 }
        else priv.agm.mt_state) := by
    simp only [synaptics_image_sensor_2f, synaptics_mt_state_set, hcount, h20, h21, if_false,
      if_true]
    split_ifs <;> rfl
  rw [e1, e2, key]
  refine ⟨rfl, rfl, ?_⟩
  intro hsame hl
  simp only [hl, Bool.false_eq_true, if_false, hsame]

/-- Witness for the amended C13: prior {2, 0, 1} with the flag clear is kept,
flag still clear. -/
theorem image_sensor_two_to_two_witness :
    (synaptics_image_sensor_process [] (priv_tracking 2 0 1 false false 40)
        (hw_primary 40 0)).1.mt_state = { count := 2, sgm := 0, agm := 1 } ∧
    (synaptics_image_sensor_process [] (priv_tracking 2 0 1 false false 40)
        (hw_primary 40 0)).1.mt_state_lost = false :=
  ⟨(image_sensor_two_to_two [] (priv_tracking 2 0 1 false false 40) (hw_primary 40 0)
      rfl (by decide) rfl).2.2 rfl rfl,
   (image_sensor_two_to_two [] (priv_tracking 2 0 1 false false 40) (hw_primary 40 0)
      rfl (by decide) rfl).2.1⟩

/-- C14, as stated, fails: after a primary packet of two contacts the tracked
state is {2, 0, 1} with the flag clear; a contact-count sample {4, 0, 3}
follows, then a primary packet with z = 40 and width code 1, the width code of
3 contacts.  The stored state is the buffered {4, 0, 3}, not {3, 0, -1}.  With
the flag set (three contacts, two contacts, the same sample, width code 1) the
stored state is {4, 0, 3} again, not {3, -1, -1}, and the flag is cleared. -/
theorem image_sensor_two_to_three_counterexample :
    (process_packets (synaptics_data_init info_image_sensor)
      [packet_two_fingers, packet_contact_count]).1.mt_state =
        { count := 2, sgm := 0, agm := 1 } ∧
    (process_packets (synaptics_data_init info_image_sensor)
      [packet_two_fingers, packet_contact_count]).1.mt_state_lost = false ∧
    (process_packets (synaptics_data_init info_image_sensor)
      [packet_two_fingers, packet_contact_count]).1.agm.mt_state =
        { count := 4, sgm := 0, agm := 3 } ∧
    (synaptics_parse_hw_state packet_three_or_more
      (process_packets (synaptics_data_init info_image_sensor)
        [packet_two_fingers, packet_contact_count]).1).1 = 0 ∧
    0 < (synaptics_parse_hw_state packet_three_or_more
      (process_packets (synaptics_data_init info_image_sensor)
        [packet_two_fingers, packet_contact_count]).1).2.2.z ∧
    (synaptics_parse_hw_state packet_three_or_more
      (process_packets (synaptics_data_init info_image_sensor)
        [packet_two_fingers, packet_contact_count]).1).2.2.w = 1 ∧
    (process_packets (synaptics_data_init info_image_sensor)
      [packet_two_fingers, packet_contact_count, packet_three_or_more]).1.mt_state =
        { count := 4, sgm := 0, agm := 3 } ∧
    (process_packets (synaptics_data_init info_image_sensor)
      [packet_two_fingers, packet_contact_count, packet_three_or_more]).1.mt_state ≠
        { count := 3, sgm := 0, agm := -1 } ∧
    (process_packets (synaptics_data_init info_image_sensor)
      [packet_three_or_more, packet_two_fingers, packet_contact_count]).1.mt_state =
        { count := 2, sgm := -1, agm := -1 } ∧
    (process_packets (synaptics_data_init info_image_sensor)
      [packet_three_or_more, packet_two_fingers, packet_contact_count]).1.mt_state_lost =
        true ∧
    (process_packets (synaptics_data_init info_image_sensor)
      [packet_three_or_more, packet_two_fingers, packet_contact_count,
        packet_three_or_more]).1.mt_state = { count := 4, sgm := 0, agm := 3 } ∧
    (process_packets (synaptics_data_init info_image_sensor)
      [packet_three_or_more, packet_two_fingers, packet_contact_count,
        packet_three_or_more]).1.mt_state ≠ { count := 3, sgm := -1, agm := -1 } ∧
    (process_packets (synaptics_data_init info_image_sensor)
      [packet_three_or_more, packet_two_fingers, packet_contact_count,
        packet_three_or_more]).1.mt_state_lost = false := by
  decide

/-- C14, amended: from every prior tracked state with count 2, a primary packet
with z > 0 and width code 1 indicates 3 contacts when the buffered count is at
most 3, and then gives {3, 0, prior.agm} if prior.agm >= 3; else {3, -1, -1}
if `mt_state_lost` is set; else {3, 0, -1}; `mt_state_lost` keeps its value in
each of these cases.  When the buffered count is above 3 the 4-or-5 rule
applies instead: the buffered state is stored and `mt_state_lost` is cleared. -/
theorem image_sensor_two_to_three (packet : List Byte) (priv : synaptics_data)
    (sgm : synaptics_hw_state) (hcount : priv.mt_state.count = 2) (hz : 0 < sgm.z)
    (hw : sgm.w = 1) :
    (priv.agm.mt_state.count ≤ 3 →
      (synaptics_image_sensor_process packet priv sgm).1.mt_state =
        (if priv.mt_state.agm ≥ 3 then { count := 3, sgm := 0, agm := priv.mt_state.agm }
         else if priv.mt_state_lost = true then { count := 3, sgm := -1, agm := -1 }
         else { count := 3, sgm := 0, agm := -1 }) ∧
      (synaptics_image_sensor_process packet priv sgm).1.mt_state_lost =
        priv.mt_state_lost) ∧
    (¬ priv.agm.mt_state.count ≤ 3 →
      (synaptics_image_sensor_process packet priv sgm).1.mt_state = priv.agm.mt_state ∧
      (synaptics_image_sensor_process packet priv sgm).1.mt_state_lost = false) := by
  constructor
  · intro hc
    obtain ⟨e1, e2⟩ := image_sensor_process_3f packet priv sgm hz hw hc
    have h20 : ¬ ((2 : Int) = 0) := by decide
    have h21 : ¬ ((2 : Int) = 1) := by decide
    have key : synaptics_image_sensor_3f priv priv.agm.mt_state =
        (priv,
         if priv.mt_state.agm ≥ 3 then { count := 3, sgm := 0, agm := priv.mt_state.agm }
         else if priv.mt_state_lost = true then { count := 3, sgm := -1, agm := -1 }
         else { count := 3, sgm := 0, agm := -1 }) := by
      simp only [synaptics_image_sensor_3f, synaptics_mt_state_set, hcount, h20, h21, if_false,
        if_true]
      split_ifs <;> rfl
    rw [e1, e2, key]
    exact ⟨rfl, rfl⟩
  · intro hc
    exact image_sensor_process_45f packet priv sgm hz (by omega) (by omega) (fun h => hc h.2)

/-- Witness for the amended C14: prior {2, 0, 1} with the flag clear gives
{3, 0, -1}, flag still clear; prior {2, -1, -1} with the flag set gives
{3, -1, -1}, flag still set; prior {2, 0, 3} gives {3, 0, 3}; prior
{2, -1, -1} with the flag set and a buffered sample {4, 0, 3} stores
{4, 0, 3} and clears the flag. -/
theorem image_sensor_two_to_three_witness :
    (priv_tracking 2 0 1 false false 40).mt_state = { count := 2, sgm := 0, agm := 1 } ∧
    (synaptics_image_sensor_process [] (priv_tracking 2 0 1 false false 40)
        (hw_primary 40 1)).1.mt_state = { count := 3, sgm := 0, agm := -1 } ∧
    (synaptics_image_sensor_process [] (priv_tracking 2 0 1 false false 40)
        (hw_primary 40 1)).1.mt_state_lost = false ∧
    (synaptics_image_sensor_process [] (priv_tracking 2 (-1) (-1) true false 40)
        (hw_primary 40 1)).1.mt_state = { count := 3, sgm := -1, agm := -1 } ∧
    (synaptics_image_sensor_process [] (priv_tracking 2 (-1) (-1) true false 40)
        (hw_primary 40 1)).1.mt_state_lost = true ∧
    (synaptics_image_sensor_process [] (priv_tracking 2 0 3 false false 40)
        (hw_primary 40 1)).1.mt_state = { count := 3, sgm := 0, agm := 3 } ∧
    (synaptics_image_sensor_process [] (priv_tracking_sample 2 (-1) (-1) true true 40 4 0 3)
        (hw_primary 40 1)).1.mt_state = { count := 4, sgm := 0, agm := 3 } ∧
    (synaptics_image_sensor_process [] (priv_tracking_sample 2 (-1) (-1) true true 40 4 0 3)
        (hw_primary 40 1)).1.mt_state_lost = false :=
  ⟨rfl,
   ((image_sensor_two_to_three [] (priv_tracking 2 0 1 false false 40) (hw_primary 40 1)
      rfl (by decide) rfl).1 (by decide)).1,
   ((image_sensor_two_to_three [] (priv_tracking 2 0 1 false false 40) (hw_primary 40 1)
      rfl (by decide) rfl).1 (by decide)).2,
   ((image_sensor_two_to_three [] (priv_tracking 2 (-1) (-1) true false 40) (hw_primary 40 1)
      rfl (by decide) rfl).1 (by decide)).1,
   ((image_sensor_two_to_three [] (priv_tracking 2 (-1) (-1) true false 40) (hw_primary 40 1)
      rfl (by decide) rfl).1 (by decide)).2,
   ((image_sensor_two_to_three [] (priv_tracking 2 0 3 false false 40) (hw_primary 40 1)
      rfl (by decide) rfl).1 (by decide)).1,
   (image_sensor_two_to_three [] (priv_tracking_sample 2 (-1) (-1) true true 40 4 0 3)
      (hw_primary 40 1) rfl (by decide) rfl).2 (by decide)⟩

/-- C15, as stated, fails: prior {3, 0, 3} (prior.agm = 3 > 2), a buffered
contact-count sample {2, 0, 1} and a primary packet with z = 40 and width
code 1, which indicates 3 contacts since the buffered count is 2 <= 3, store
{2, 0, 1}: the state is not left unchanged.  The state is reached from the
initial one by the samples {4, 0, 3}, {3, 0, 3} and {2, 0, 1}, each followed
by a primary packet of width code 1, the last being the packet in question. -/
theorem image_sensor_three_to_three_counterexample :
    (priv_tracking_sample 3 0 3 false true 0 2 0 1).mt_state =
        { count := 3, sgm := 0, agm := 3 } ∧
    (priv_tracking_sample 3 0 3 false true 0 2 0 1).agm.mt_state =
        { count := 2, sgm := 0, agm := 1 } ∧
    0 < (hw_primary 40 1).z ∧ (hw_primary 40 1).w = 1 ∧
    (synaptics_image_sensor_process [] (priv_tracking_sample 3 0 3 false true 0 2 0 1)
        (hw_primary 40 1)).1.mt_state = { count := 2, sgm := 0, agm := 1 } ∧
    (synaptics_image_sensor_process [] (priv_tracking_sample 3 0 3 false true 0 2 0 1)
        (hw_primary 40 1)).1.mt_state ≠
      (priv_tracking_sample 3 0 3 false true 0 2 0 1).mt_state ∧
    (process_packets (synaptics_data_init info_image_sensor)
      [packet_contact_count, packet_three_or_more, packet_contact_count_three,
        packet_three_or_more, packet_contact_count_two]).1.mt_state =
        { count := 3, sgm := 0, agm := 3 } ∧
    (process_packets (synaptics_data_init info_image_sensor)
      [packet_contact_count, packet_three_or_more, packet_contact_count_three,
        packet_three_or_more, packet_contact_count_two]).1.agm.mt_state =
        { count := 2, sgm := 0, agm := 1 } ∧
    (synaptics_parse_hw_state packet_three_or_more
      (process_packets (synaptics_data_init info_image_sensor)
        [packet_contact_count, packet_three_or_more, packet_contact_count_three,
          packet_three_or_more, packet_contact_count_two]).1).1 = 0 ∧
    (synaptics_parse_hw_state packet_three_or_more
      (process_packets (synaptics_data_init info_image_sensor)
        [packet_contact_count, packet_three_or_more, packet_contact_count_three,
          packet_three_or_more, packet_contact_count_two]).1).2.2.w = 1 ∧
    (process_packets (synaptics_data_init info_image_sensor)
      [packet_contact_count, packet_three_or_more, packet_contact_count_three,
        packet_three_or_more, packet_contact_count_two, packet_three_or_more]).1.mt_state =
        { count := 2, sgm := 0, agm := 1 } := by
  decide

/-- C15, amended: from every prior tracked state with count 3, a primary packet
with z > 0 and width code 1 indicates 3 contacts when the buffered count is at
most 3, and then gives {3, 0, 2} if prior.agm <= 2 and otherwise stores the
buffered state, leaving `mt_state_lost` as it is in both cases; the buffered
state is the prior state, which is then left unchanged, when no contact-count
sample has replaced it since the previous primary packet.  When the buffered
count is above 3 the 4-or-5 rule applies instead: the buffered state is stored
and `mt_state_lost` is cleared. -/
theorem image_sensor_three_to_three (packet : List Byte) (priv : synaptics_data)
    (sgm : synaptics_hw_state) (hcount : priv.mt_state.count = 3) (hz : 0 < sgm.z)
    (hw : sgm.w = 1) :
    (priv.agm.mt_state.count ≤ 3 →
      (synaptics_image_sensor_process packet priv sgm).1.mt_state =
        (if priv.mt_state.agm ≤ 2 then { count := 3, sgm := 0, agm := 2 }
         else priv.agm.mt_state) ∧
      (synaptics_image_sensor_process packet priv sgm).1.mt_state_lost =
        priv.mt_state_lost) ∧
    (priv.agm.mt_state = priv.mt_state → ¬ priv.mt_state.agm ≤ 2 →
      (synaptics_image_sensor_process packet priv sgm).1.mt_state = priv.mt_state ∧
      (synaptics_image_sensor_process packet priv sgm).1.mt_state_lost =
        priv.mt_state_lost) ∧
    (¬ priv.agm.mt_state.count ≤ 3 →
      (synaptics_image_sensor_process packet priv sgm).1.mt_state = priv.agm.mt_state ∧
      (synaptics_image_sensor_process packet priv sgm).1.mt_state_lost = false) := by
  have h30 : ¬ ((3 : Int) = 0) := by decide
  have h31 : ¬ ((3 : Int) = 1) := by decide
  have h32 : ¬ ((3 : Int) = 2) := by decide
  have key : synaptics_image_sensor_3f priv priv.agm.mt_state =
      (priv, if priv.mt_state.agm ≤ 2 then { count := 3, sgm := 0, agm := 2 }
        else priv.agm.mt_state) := by
    simp only [synaptics_image_sensor_3f, synaptics_mt_state_set, hcount, h30, h31, h32,
      if_false, if_true]
    split_ifs <;> rfl
  refine ⟨?_, ?_, ?_⟩
  · intro hc
    obtain ⟨e1, e2⟩ := image_sensor_process_3f packet priv sgm hz hw hc
    rw [e1, e2, key]
    exact ⟨rfl, rfl⟩
  · intro hsame hagm
    have hc : priv.agm.mt_state.count ≤ 3 := by
      rw [hsame, hcount]
    obtain ⟨e1, e2⟩ := image_sensor_process_3f packet priv sgm hz hw hc
    rw [e1, e2, key]
    refine ⟨?_, rfl⟩
    show (if priv.mt_state.agm ≤ 2 then _ else _) = _
    rw [if_neg hagm, hsame]
  · intro hc
    exact image_sensor_process_45f packet priv sgm hz (by omega) (by omega) (fun h => hc h.2)

/-- Witness for the amended C15: prior {3, -1, -1} with the flag set is reset
to {3, 0, 2}, flag still set; prior {3, 0, 4} with the flag set is left
unchanged, flag still set; prior {3, 0, 3} with a buffered sample {2, 0, 1}
stores {2, 0, 1}; prior {3, 0, 2} with the flag set and a buffered sample
{4, 0, 3} stores {4, 0, 3} and clears the flag. -/
theorem image_sensor_three_to_three_witness :
    (synaptics_image_sensor_process [] (priv_tracking 3 (-1) (-1) true false 40)
        (hw_primary 40 1)).1.mt_state = { count := 3, sgm := 0, agm := 2 } ∧
    (synaptics_image_sensor_process [] (priv_tracking 3 (-1) (-1) true false 40)
        (hw_primary 40 1)).1.mt_state_lost = true ∧
    (synaptics_image_sensor_process [] (priv_tracking 3 0 4 true false 40)
        (hw_primary 40 1)).1.mt_state = { count := 3, sgm := 0, agm := 4 } ∧
    (synaptics_image_sensor_process [] (priv_tracking 3 0 4 true false 40)
        (hw_primary 40 1)).1.mt_state_lost = true ∧
    (synaptics_image_sensor_process [] (priv_tracking_sample 3 0 3 false true 40 2 0 1)
        (hw_primary 40 1)).1.mt_state = { count := 2, sgm := 0, agm := 1 } ∧
    (synaptics_image_sensor_process [] (priv_tracking_sample 3 0 2 true true 40 4 0 3)
        (hw_primary 40 1)).1.mt_state = { count := 4, sgm := 0, agm := 3 } ∧
    (synaptics_image_sensor_process [] (priv_tracking_sample 3 0 2 true true 40 4 0 3)
        (hw_primary 40 1)).1.mt_state_lost = false :=
  ⟨((image_sensor_three_to_three [] (priv_tracking 3 (-1) (-1) true false 40) (hw_primary 40 1)
      rfl (by decide) rfl).1 (by decide)).1,
   ((image_sensor_three_to_three [] (priv_tracking 3 (-1) (-1) true false 40) (hw_primary 40 1)
      rfl (by decide) rfl).1 (by decide)).2,
   ((image_sensor_three_to_three [] (priv_tracking 3 0 4 true false 40) (hw_primary 40 1)
      rfl (by decide) rfl).2.1 rfl (by decide)).1,
   ((image_sensor_three_to_three [] (priv_tracking 3 0 4 true false 40) (hw_primary 40 1)
      rfl (by decide) rfl).2.1 rfl (by decide)).2,
   ((image_sensor_three_to_three [] (priv_tracking_sample 3 0 3 false true 40 2 0 1)
      (hw_primary 40 1) rfl (by decide) rfl).1 (by decide)).1,
   (image_sensor_three_to_three [] (priv_tracking_sample 3 0 2 true true 40 4 0 3)
      (hw_primary 40 1) rfl (by decide) rfl).2.2 (by decide)⟩

/-- The new contact count in the words of the specification, from the pressure
`z`, the width code `w` and a count `count` of the state before the packet:
`some n` for n = 0, 1, 2, 3 contacts, `none` when the 4-or-5 rule applies and
the count is not inferred from the width. -/
def spec_new_contact_count (z w count : Int) : Option Int :=
  if z = 0 then some 0
  else if w ≥ 4 then some 1
  else if w = 0 then some 2
  else if w = 1 ∧ count ≤ 3 then some 3
  else none

/-- The tracker function serving a new contact count. -/
def tracker_rule (n : Option Int) (priv : synaptics_data) (mt_state : synaptics_mt_state) :
    synaptics_data × synaptics_mt_state :=
  if n = some 0 then synaptics_image_sensor_0f priv mt_state
  else if n = some 1 then synaptics_image_sensor_1f priv mt_state
  else if n = some 2 then synaptics_image_sensor_2f priv mt_state
  else if n = some 3 then synaptics_image_sensor_3f priv mt_state
  else synaptics_image_sensor_45f priv mt_state

/-- C17, as stated, fails: on an image-sensor device, after a primary packet
of one contact the tracked state is {1, 0, -1}; a contact-count sample
{4, 0, 3} follows, then a primary packet with z = 40 and width code 1.  The
prior count is 1 <= 3, so the claim derives 3 contacts, but the code applies
the 4-or-5 rule and stores {4, 0, 3}, not the {3, 0, 2} of the 1 -> 3 rule. -/
theorem new_contact_count_counterexample :
    (process_packets (synaptics_data_init info_image_sensor)
      [packet_one_finger, packet_contact_count]).1.mt_state =
        { count := 1, sgm := 0, agm := -1 } ∧
    (synaptics_parse_hw_state packet_three_or_more
      (process_packets (synaptics_data_init info_image_sensor)
        [packet_one_finger, packet_contact_count]).1).1 = 0 ∧
    (synaptics_parse_hw_state packet_three_or_more
      (process_packets (synaptics_data_init info_image_sensor)
        [packet_one_finger, packet_contact_count]).1).2.2.z = 40 ∧
    (synaptics_parse_hw_state packet_three_or_more
      (process_packets (synaptics_data_init info_image_sensor)
        [packet_one_finger, packet_contact_count]).1).2.2.w = 1 ∧
    spec_new_contact_count 40 1
      (process_packets (synaptics_data_init info_image_sensor)
        [packet_one_finger, packet_contact_count]).1.mt_state.count = some 3 ∧
    (process_packets (synaptics_data_init info_image_sensor)
      [packet_one_finger, packet_contact_count, packet_three_or_more]).1.mt_state =
        { count := 4, sgm := 0, agm := 3 } ∧
    (synaptics_image_sensor_3f
      (process_packets (synaptics_data_init info_image_sensor)
        [packet_one_finger, packet_contact_count]).1
      (process_packets (synaptics_data_init info_image_sensor)
        [packet_one_finger, packet_contact_count]).1.agm.mt_state).2 =
        { count := 3, sgm := 0, agm := 2 } := by
  decide

/-- C17, amended: for every primary packet on an image-sensor device the
tracker applies the rule of the new contact count derived as 0 if z = 0,
else 1 if the width code is >= 4, else 2 if it is 0, else 3 if it is 1 and the
count of the buffered state (the prior state, or the contact-count sample
received since the previous primary packet) is <= 3; in every remaining case
the 4-or-5 rule applies and the stored count is the buffered one, not one
inferred from the width.  When no contact-count sample has been received since
the previous primary packet the buffered count is the prior count. -/
theorem new_contact_count_derivation (packet : List Byte) (priv : synaptics_data)
    (sgm : synaptics_hw_state) :
    (synaptics_image_sensor_process packet priv sgm).1.mt_state =
      (tracker_rule (spec_new_contact_count sgm.z sgm.w priv.agm.mt_state.count) priv
        priv.agm.mt_state).2 ∧
    (synaptics_image_sensor_process packet priv sgm).1.mt_state_lost =
      (tracker_rule (spec_new_contact_count sgm.z sgm.w priv.agm.mt_state.count) priv
        priv.agm.mt_state).1.mt_state_lost ∧
    (spec_new_contact_count sgm.z sgm.w priv.agm.mt_state.count = none →
      (synaptics_image_sensor_process packet priv sgm).1.mt_state.count =
        priv.agm.mt_state.count) ∧
    (priv.agm.mt_state = priv.mt_state →
      (synaptics_image_sensor_process packet priv sgm).1.mt_state =
        (tracker_rule (spec_new_contact_count sgm.z sgm.w priv.mt_state.count) priv
          priv.mt_state).2) := by
  have key : image_sensor_dispatch priv sgm =
      tracker_rule (spec_new_contact_count sgm.z sgm.w priv.agm.mt_state.count) priv
        priv.agm.mt_state := by
    unfold image_sensor_dispatch tracker_rule spec_new_contact_count
    by_cases h0 : sgm.z = 0
    · simp [h0]
    · by_cases h1 : sgm.w ≥ 4
      · simp [h0, h1]
      · by_cases h2 : sgm.w = 0
        · simp [h0, h2]
        · by_cases h3 : sgm.w = 1 ∧ priv.agm.mt_state.count ≤ 3
          · simp [h0, h3.1, h3.2]
          · simp only [if_neg h0, if_neg h1, if_neg h2, if_neg h3]
            simp
  have hproc := image_sensor_process_eq packet priv sgm
  rw [key] at hproc
  rw [hproc]
  refine ⟨rfl, rfl, ?_, ?_⟩
  · intro hnone
    rw [hnone]
    simp [tracker_rule, synaptics_image_sensor_45f]
  · intro hsame
    rw [hsame]

/-- Witness for the amended C17: tracked {1, 0, -1}, a contact-count sample
{4, 0, 3} received since, and a primary packet with z = 40 and width code 1:
the 4-or-5 rule applies and the stored count is the buffered 4. -/
theorem new_contact_count_derivation_witness :
    spec_new_contact_count 40 1 4 = none ∧
    (synaptics_image_sensor_process [] (priv_tracking_sample 1 0 (-1) false true 40 4 0 3)
        (hw_primary 40 1)).1.mt_state.count = 4 ∧
    spec_new_contact_count 40 1 1 = some 3 ∧
    (synaptics_image_sensor_process [] (priv_tracking 1 0 (-1) false false 40)
        (hw_primary 40 1)).1.mt_state = { count := 3, sgm := 0, agm := 2 } :=
  ⟨by decide,
   (new_contact_count_derivation [] (priv_tracking_sample 1 0 (-1) false true 40 4 0 3)
      (hw_primary 40 1)).2.2.1 (by decide),
   by decide,
   (new_contact_count_derivation [] (priv_tracking 1 0 (-1) false false 40)
      (hw_primary 40 1)).2.2.2 rfl⟩

/-! ## Theorems: recovery from an undetermined assignment -/

/-- C18: from prior state {n, -1, -1} with `mt_state_lost` set and no
contact-count sample received since the previous primary packet, a further
primary packet indicating n contacts stores a state whose sgm is not -1:
for n = 1 (z > 0, width code >= 4) it is {1, 0, -1} when a secondary sample of
pressure 0 is pending and {1, 1, -1} otherwise; for n = 2 (width code 0) it is
{2, 0, 1}; for n = 3 (width code 1) it is {3, 0, 2}. -/
theorem undetermined_assignment_resolved (packet : List Byte) (priv : synaptics_data)
    (sgm : synaptics_hw_state) (n : Int)
    (hprior : priv.mt_state = { count := n, sgm := -1, agm := -1 })
    (hlost : priv.mt_state_lost = true)
    (hsame : priv.agm.mt_state = priv.mt_state) (hz : 0 < sgm.z)
    (hn : (n = 1 ∧ 4 ≤ sgm.w) ∨ (n = 2 ∧ sgm.w = 0) ∨ (n = 3 ∧ sgm.w = 1)) :
    (synaptics_image_sensor_process packet priv sgm).1.mt_state =
      (if n = 1 then
        (if priv.agm_pending = true ∧ priv.agm.z = 0 then { count := 1, sgm := 0, agm := -1 }
         else { count := 1, sgm := 1, agm := -1 })
       else if n = 2 then { count := 2, sgm := 0, agm := 1 }
       else { count := 3, sgm := 0, agm := 2 }) ∧
    (synaptics_image_sensor_process packet priv sgm).1.mt_state.sgm ≠ -1 := by
  have hcount : priv.mt_state.count = n := by rw [hprior]
  have hagm : priv.mt_state.agm = -1 := by rw [hprior]
  have hres : (synaptics_image_sensor_process packet priv sgm).1.mt_state =
      (if n = 1 then
        (if priv.agm_pending = true ∧ priv.agm.z = 0 then { count := 1, sgm := 0, agm := -1 }
         else { count := 1, sgm := 1, agm := -1 })
       else if n = 2 then { count := 2, sgm := 0, agm := 1 }
       else { count := 3, sgm := 0, agm := 2 }) := by
    rcases hn with ⟨h1, hw⟩ | ⟨h2, hw⟩ | ⟨h3, hw⟩
    · subst h1
      rw [(image_sensor_one_to_one_aux packet priv sgm hcount hz hw)]
      simp only [if_true]
      by_cases hp : priv.agm_pending = true ∧ priv.agm.z = 0
      · rw [if_pos hp, if_pos hp]
      · rw [if_neg hp, if_neg hp, if_pos (Or.inl hlost)]
    · subst h2
      rw [(image_sensor_process_2f packet priv sgm hz hw).1]
      have h20 : ¬ ((2 : Int) = 0) := by decide
      have h21 : ¬ ((2 : Int) = 1) := by decide
      simp only [synaptics_image_sensor_2f, synaptics_mt_state_set, hcount, h20, h21, if_false,
        if_true, hlost]
    · subst h3
      have hc : priv.agm.mt_state.count ≤ 3 := by rw [hsame, hcount]
      rw [(image_sensor_process_3f packet priv sgm hz hw hc).1]
      have h30 : ¬ ((3 : Int) = 0) := by decide
      have h31 : ¬ ((3 : Int) = 1) := by decide
      have h32 : ¬ ((3 : Int) = 2) := by decide
      have ha : priv.mt_state.agm ≤ 2 := by rw [hagm]; decide
      simp only [synaptics_image_sensor_3f, synaptics_mt_state_set, hcount, h30, h31, h32,
        if_false, if_true, if_pos ha]
  refine ⟨hres, ?_⟩
  rw [hres]
  rcases hn with ⟨h1, _⟩ | ⟨h2, _⟩ | ⟨h3, _⟩
  · subst h1
    simp only [if_true]
    split_ifs <;> decide
  · subst h2
    simp
  · subst h3
    simp

/-- Witness for C18: the states {1, -1, -1}, {2, -1, -1} and {3, -1, -1} with
the flag set are resolved to {1, 1, -1}, {2, 0, 1} and {3, 0, 2}. -/
theorem undetermined_assignment_resolved_witness :
    (synaptics_image_sensor_process [] (priv_tracking 1 (-1) (-1) true false 40)
        (hw_primary 40 4)).1.mt_state = { count := 1, sgm := 1, agm := -1 } ∧
    (synaptics_image_sensor_process [] (priv_tracking 2 (-1) (-1) true false 40)
        (hw_primary 40 0)).1.mt_state = { count := 2, sgm := 0, agm := 1 } ∧
    (synaptics_image_sensor_process [] (priv_tracking 3 (-1) (-1) true false 40)
        (hw_primary 40 1)).1.mt_state = { count := 3, sgm := 0, agm := 2 } :=
  ⟨(undetermined_assignment_resolved [] (priv_tracking 1 (-1) (-1) true false 40)
      (hw_primary 40 4) 1 rfl rfl rfl (by decide) (Or.inl ⟨rfl, by decide⟩)).1,
   (undetermined_assignment_resolved [] (priv_tracking 2 (-1) (-1) true false 40)
      (hw_primary 40 0) 2 rfl rfl rfl (by decide) (Or.inr (Or.inl ⟨rfl, rfl⟩))).1,
   (undetermined_assignment_resolved [] (priv_tracking 3 (-1) (-1) true false 40)
      (hw_primary 40 1) 3 rfl rfl rfl (by decide) (Or.inr (Or.inr ⟨rfl, rfl⟩))).1⟩

/-! ## Theorems: secondary continuation packets -/

/-- An old-absolute touchpad that nevertheless declares image-sensor support. -/
def info_oldabs_image : synaptics_device_info :=
  { info_image_sensor with newabs := false }

/-- The width code decoded under the new-absolute layout, whatever the
capabilities. -/
theorem parse_newabs_w_buttons_w_eq (buf : List Byte) (priv : synaptics_data) :
    (parse_newabs_w_buttons buf priv).w =
      ((((byteAt buf 0 &&& 0x30) >>> 2) ||| ((byteAt buf 0 &&& 0x04) >>> 1) |||
        ((byteAt buf 3 &&& 0x04) >>> 2) : Nat) : Int) := by
  unfold parse_newabs_w_buttons
  dsimp only
  split_ifs <;> rfl

/-- The position, pressure and extended-button fields are not written by the
first stage of the new-absolute decoder. -/
theorem parse_newabs_w_buttons_zero (buf : List Byte) (priv : synaptics_data) :
    (parse_newabs_w_buttons buf priv).x = 0 ∧ (parse_newabs_w_buttons buf priv).y = 0 ∧
    (parse_newabs_w_buttons buf priv).z = 0 ∧
    (parse_newabs_w_buttons buf priv).ext_buttons = 0 := by
  unfold parse_newabs_w_buttons
  dsimp only
  split_ifs <;> exact ⟨rfl, rfl, rfl, rfl⟩

/-- C19: the decoder returns 1 (secondary continuation) exactly when the
packet is decoded under the new-absolute layout, the capabilities declare
advanced-gesture or image-sensor support, and the reassembled width code
equals 2, and it returns 0 otherwise; when it returns 1 the fields x, y, z and
ext_buttons of the returned state are 0; for an old-absolute device it always
returns 0. -/
theorem parse_hw_state_secondary (buf : List Byte) (priv : synaptics_data) :
    ((synaptics_parse_hw_state buf priv).1 = 1 ↔
      (priv.info.newabs = true ∧
       (priv.info.adv_gesture = true ∨ priv.info.image_sensor = true) ∧
       ((((byteAt buf 0 &&& 0x30) >>> 2) ||| ((byteAt buf 0 &&& 0x04) >>> 1) |||
          ((byteAt buf 3 &&& 0x04) >>> 2) : Nat) : Int) = 2)) ∧
    ((synaptics_parse_hw_state buf priv).1 ≠ 1 → (synaptics_parse_hw_state buf priv).1 = 0) ∧
    ((synaptics_parse_hw_state buf priv).1 = 1 →
      (synaptics_parse_hw_state buf priv).2.2.x = 0 ∧
      (synaptics_parse_hw_state buf priv).2.2.y = 0 ∧
      (synaptics_parse_hw_state buf priv).2.2.z = 0 ∧
      (synaptics_parse_hw_state buf priv).2.2.ext_buttons = 0) ∧
    (priv.info.newabs = false → (synaptics_parse_hw_state buf priv).1 = 0) := by
  have hwv := parse_newabs_w_buttons_w_eq buf priv
  have hzero := parse_newabs_w_buttons_zero buf priv
  have hagm : synaptics_has_agm priv = true ↔
      (priv.info.adv_gesture = true ∨ priv.info.image_sensor = true) := by
    unfold synaptics_has_agm
    simp
  unfold synaptics_parse_hw_state
  by_cases hn : priv.info.newabs = true
  · simp only [hn, if_true]
    by_cases hc : synaptics_has_agm priv = true ∧ (parse_newabs_w_buttons buf priv).w = 2
    · rw [if_pos hc]
      refine ⟨⟨fun _ => ⟨trivial, hagm.mp hc.1, by rw [← hwv]; exact hc.2⟩, fun _ => rfl⟩,
        fun h => absurd rfl h, fun _ => hzero, fun h => by simp at h⟩
    · rw [if_neg hc]
      refine ⟨⟨fun h => by simp at h, fun h => ?_⟩, fun _ => rfl, fun h => by simp at h,
        fun _ => rfl⟩
      exact absurd ⟨hagm.mpr h.2.1, by rw [hwv]; exact h.2.2⟩ hc
  · rw [if_neg hn]
    refine ⟨⟨fun h => by simp at h, fun h => absurd h.1 hn⟩, fun _ => rfl,
      fun h => by simp at h, fun _ => rfl⟩

/-- Witness for C19: the width-2 packet `packet_contact_count` is a secondary
continuation on an image-sensor device, a primary report on a plain device and
on an old-absolute device. -/
theorem parse_hw_state_secondary_witness :
    (synaptics_parse_hw_state packet_contact_count
      (synaptics_data_init info_image_sensor)).1 = 1 ∧
    (synaptics_parse_hw_state packet_contact_count
      (synaptics_data_init info_image_sensor)).2.2.z = 0 ∧
    (synaptics_parse_hw_state packet_contact_count (synaptics_data_init info_plain)).1 = 0 ∧
    (synaptics_parse_hw_state packet_contact_count
      (synaptics_data_init info_oldabs_image)).1 = 0 :=
  ⟨(parse_hw_state_secondary packet_contact_count
      (synaptics_data_init info_image_sensor)).1.mpr ⟨rfl, Or.inr rfl, by decide⟩,
   ((parse_hw_state_secondary packet_contact_count
      (synaptics_data_init info_image_sensor)).2.2.1 (by decide)).2.2.1,
   (parse_hw_state_secondary packet_contact_count (synaptics_data_init info_plain)).2.1
     (by decide),
   (parse_hw_state_secondary packet_contact_count
      (synaptics_data_init info_oldabs_image)).2.2.2 rfl⟩

/-- C20: processing a packet that decodes as a secondary continuation emits
no events and writes nothing but the buffered secondary report `agm` and the
marker `agm_pending`, which it sets: the tracked state, `mt_state_lost`, the
scroll accumulator, the capabilities and the packet type are unchanged; the
marker is cleared by the next primary packet the slot tracker processes. -/
theorem process_packet_secondary (packet : List Byte) (priv : synaptics_data)
    (hsec : (synaptics_parse_hw_state packet priv).1 = 1) :
    (synaptics_process_packet packet priv).2 = [] ∧
    (synaptics_process_packet packet priv).1 =
      { priv with agm := (synaptics_process_packet packet priv).1.agm, agm_pending := true } ∧
    (synaptics_process_packet packet priv).1.mt_state = priv.mt_state ∧
    (synaptics_process_packet packet priv).1.mt_state_lost = priv.mt_state_lost ∧
    (synaptics_process_packet packet priv).1.scroll = priv.scroll ∧
    (synaptics_process_packet packet priv).1.agm_pending = true ∧
    (∀ (packet2 : List Byte) (sgm : synaptics_hw_state),
      (synaptics_image_sensor_process packet2 (synaptics_process_packet packet priv).1
        sgm).1.agm_pending = false) := by
  have hne : (synaptics_parse_hw_state packet priv).1 ≠ 0 := by rw [hsec]; decide
  have hp : (synaptics_parse_hw_state packet priv).2.1 =
      synaptics_parse_agm packet priv (parse_newabs_w_buttons packet priv) := by
    rcases parse_hw_state_priv_cases packet priv with ⟨h0, _⟩ | ⟨_, h⟩
    · exact absurd h0 hne
    · exact h
  have hres : synaptics_process_packet packet priv =
      (synaptics_parse_agm packet priv (parse_newabs_w_buttons packet priv), []) := by
    unfold synaptics_process_packet
    simp only [if_pos hne, hp]
  rw [hres]
  refine ⟨rfl, ?_, ?_, ?_, ?_, ?_, ?_⟩
  · unfold synaptics_parse_agm
    rfl
  · unfold synaptics_parse_agm
    rfl
  · unfold synaptics_parse_agm
    rfl
  · unfold synaptics_parse_agm
    rfl
  · unfold synaptics_parse_agm
    rfl
  · intro packet2 sgm
    rw [image_sensor_process_eq]

/-- Witness for C20: tracked {2, 0, 1} with the flag set; the contact-count
sample `packet_contact_count` leaves them as they are, emits nothing, buffers
{4, 0, 3} and sets the marker. -/
theorem process_packet_secondary_witness :
    (synaptics_parse_hw_state packet_contact_count
      (priv_tracking 2 0 1 true false 40)).1 = 1 ∧
    (synaptics_process_packet packet_contact_count (priv_tracking 2 0 1 true false 40)).2 = [] ∧
    (synaptics_process_packet packet_contact_count
      (priv_tracking 2 0 1 true false 40)).1.mt_state = { count := 2, sgm := 0, agm := 1 } ∧
    (synaptics_process_packet packet_contact_count
      (priv_tracking 2 0 1 true false 40)).1.mt_state_lost = true ∧
    (synaptics_process_packet packet_contact_count
      (priv_tracking 2 0 1 true false 40)).1.agm_pending = true ∧
    (synaptics_process_packet packet_contact_count
      (priv_tracking 2 0 1 true false 40)).1.agm.mt_state = { count := 4, sgm := 0, agm := 3 } :=
  ⟨by decide,
   (process_packet_secondary packet_contact_count (priv_tracking 2 0 1 true false 40)
      (by decide)).1,
   (process_packet_secondary packet_contact_count (priv_tracking 2 0 1 true false 40)
      (by decide)).2.2.1,
   (process_packet_secondary packet_contact_count (priv_tracking 2 0 1 true false 40)
      (by decide)).2.2.2.1,
   (process_packet_secondary packet_contact_count (priv_tracking 2 0 1 true false 40)
      (by decide)).2.2.2.2.2.1,
   by decide⟩

/-! ## Theorems: the content of a secondary continuation -/

/-- A secondary packet (width code 2) whose sub-type field is 0. -/
def packet_unknown_agm : List Byte := [0x84, 0x12, 0x34, 0xC0, 0x56, 0x07]

/-- A packet decoded as a secondary continuation is handled by
`synaptics_parse_agm` alone. -/
theorem process_packet_secondary_eq (packet : List Byte) (priv : synaptics_data)
    (hsec : (synaptics_parse_hw_state packet priv).1 = 1) :
    synaptics_process_packet packet priv =
      (synaptics_parse_agm packet priv (parse_newabs_w_buttons packet priv), []) ∧
    (parse_newabs_w_buttons packet priv).w = 2 := by
  have hne : (synaptics_parse_hw_state packet priv).1 ≠ 0 := by rw [hsec]; decide
  have hp : (synaptics_parse_hw_state packet priv).2.1 =
      synaptics_parse_agm packet priv (parse_newabs_w_buttons packet priv) := by
    rcases parse_hw_state_priv_cases packet priv with ⟨h0, _⟩ | ⟨_, h⟩
    · exact absurd h0 hne
    · exact h
  constructor
  · unfold synaptics_process_packet
    simp only [if_pos hne, hp]
  · unfold synaptics_parse_hw_state at hsec
    by_cases hn : priv.info.newabs = true
    · simp only [hn, if_true] at hsec
      by_cases hc : synaptics_has_agm priv = true ∧ (parse_newabs_w_buttons packet priv).w = 2
      · exact hc.2
      · rw [if_neg hc] at hsec
        simp at hsec
    · rw [if_neg hn] at hsec
      simp at hsec

/-- C21, as stated, fails: with tracked state {1, 0, -1}, no secondary sample
pending and a buffered pressure of 40, a secondary continuation of sub-type 0
sets the pending marker, and the next primary packet of one contact then
stores {1, 1, -1}, where it stores {1, 0, -1} if the packet is not received. -/
theorem unknown_subtype_counterexample :
    (synaptics_parse_hw_state packet_unknown_agm (priv_tracking 1 0 (-1) false false 40)).1 = 1 ∧
    (byteAt packet_unknown_agm 5 &&& 0x30) >>> 4 = 0 ∧
    (priv_tracking 1 0 (-1) false false 40).agm_pending = false ∧
    (synaptics_process_packet packet_unknown_agm
      (priv_tracking 1 0 (-1) false false 40)).1.agm_pending = true ∧
    (process_packets (priv_tracking 1 0 (-1) false false 40)
      [packet_unknown_agm, packet_one_finger]).1.mt_state = { count := 1, sgm := 1, agm := -1 } ∧
    (process_packets (priv_tracking 1 0 (-1) false false 40)
      [packet_one_finger]).1.mt_state = { count := 1, sgm := 0, agm := -1 } := by
  decide

/-- C21, amended: a secondary continuation whose sub-type field is neither 1
nor 2 emits nothing and leaves the buffered secondary sample (x, y, z, w and
count, sgm, agm) and every other field unchanged, except that it sets the
pending marker `agm_pending`; when the marker was already set the private data
are the same as if the packet had not been received. -/
theorem unknown_subtype_sets_pending (packet : List Byte) (priv : synaptics_data)
    (hsec : (synaptics_parse_hw_state packet priv).1 = 1)
    (h1 : (byteAt packet 5 &&& 0x30) >>> 4 ≠ 1) (h2 : (byteAt packet 5 &&& 0x30) >>> 4 ≠ 2) :
    synaptics_process_packet packet priv = ({ priv with agm_pending := true }, []) ∧
    (synaptics_process_packet packet priv).1.agm = priv.agm ∧
    (priv.agm_pending = true → (synaptics_process_packet packet priv).1 = priv) := by
  have hres := (process_packet_secondary_eq packet priv hsec).1
  have hagm : synaptics_parse_agm packet priv (parse_newabs_w_buttons packet priv) =
      { priv with agm_pending := true } := by
    unfold synaptics_parse_agm
    simp only [if_neg h1, if_neg h2]
  rw [hres, hagm]
  refine ⟨rfl, rfl, ?_⟩
  intro hp
  simp only
  rw [← hp]

/-- Witness for the amended C21: a secondary sample is pending already; the
sub-type 0 packet changes nothing. -/
theorem unknown_subtype_sets_pending_witness :
    (synaptics_parse_hw_state packet_unknown_agm (priv_tracking 1 0 (-1) false true 40)).1 = 1 ∧
    synaptics_process_packet packet_unknown_agm (priv_tracking 1 0 (-1) false true 40) =
      (priv_tracking 1 0 (-1) false true 40, []) := by
  have h := unknown_subtype_sets_pending packet_unknown_agm
    (priv_tracking 1 0 (-1) false true 40) (by decide) (by decide) (by decide)
  refine ⟨by decide, ?_⟩
  rw [h.1]
  rfl

theorem shiftLeft_one_eq_two_mul (a : Nat) : a <<< 1 = 2 * a := by
  rw [Nat.shiftLeft_eq]
  omega

theorem agm_gesture_x_lt (buf : List Byte) :
    ((byteAt buf 4 &&& 0x0f) <<< 8) ||| byteAt buf 1 < 2 ^ 12 := by
  have h1 := and_shiftLeft_le (byteAt buf 4) 0x0f 8
  have h2 := byteAt_lt buf 1
  refine Nat.or_lt_two_pow ?_ ?_ <;> omega

theorem agm_gesture_y_lt (buf : List Byte) :
    ((byteAt buf 4 &&& 0xf0) <<< 4) ||| byteAt buf 2 < 2 ^ 12 := by
  have h1 := and_shiftLeft_le (byteAt buf 4) 0xf0 4
  have h2 := byteAt_lt buf 2
  refine Nat.or_lt_two_pow ?_ ?_ <;> omega

theorem agm_gesture_z_lt (buf : List Byte) :
    (byteAt buf 3 &&& 0x30) ||| (byteAt buf 5 &&& 0x0f) < 2 ^ 6 := by
  have h1 : byteAt buf 3 &&& 0x30 ≤ 0x30 := Nat.and_le_right
  have h2 : byteAt buf 5 &&& 0x0f ≤ 0x0f := Nat.and_le_right
  refine Nat.or_lt_two_pow ?_ ?_ <;> omega

/-- C22: a sub-type 1 secondary continuation sets the buffered gesture sample
to x = 2 * (((byte4 & 0x0F) << 8) | byte1), y = 2 * (((byte4 & 0xF0) << 4) |
byte2), z = 2 * ((byte3 & 0x30) | (byte5 & 0x0F)) and w = 2, with x and y
even and at most 8190, z even and at most 126, and keeps the buffered
(count, sgm, agm); a sub-type 2 continuation sets the buffered (count, sgm,
agm) to (byte1, byte2, byte4) and keeps the gesture fields. -/
theorem secondary_sample_fields (packet : List Byte) (priv : synaptics_data)
    (hsec : (synaptics_parse_hw_state packet priv).1 = 1) :
    ((byteAt packet 5 &&& 0x30) >>> 4 = 1 →
      (synaptics_process_packet packet priv).1.agm =
        { priv.agm with
          w := 2,
          x := ((2 * (((byteAt packet 4 &&& 0x0f) <<< 8) ||| byteAt packet 1) : Nat) : Int),
          y := ((2 * (((byteAt packet 4 &&& 0xf0) <<< 4) ||| byteAt packet 2) : Nat) : Int),
          z := ((2 * ((byteAt packet 3 &&& 0x30) ||| (byteAt packet 5 &&& 0x0f)) : Nat) : Int) } ∧
      0 ≤ (synaptics_process_packet packet priv).1.agm.x ∧
      (synaptics_process_packet packet priv).1.agm.x ≤ 8190 ∧
      (synaptics_process_packet packet priv).1.agm.x % 2 = 0 ∧
      0 ≤ (synaptics_process_packet packet priv).1.agm.y ∧
      (synaptics_process_packet packet priv).1.agm.y ≤ 8190 ∧
      (synaptics_process_packet packet priv).1.agm.y % 2 = 0 ∧
      0 ≤ (synaptics_process_packet packet priv).1.agm.z ∧
      (synaptics_process_packet packet priv).1.agm.z ≤ 126 ∧
      (synaptics_process_packet packet priv).1.agm.z % 2 = 0 ∧
      (synaptics_process_packet packet priv).1.agm.mt_state = priv.agm.mt_state) ∧
    ((byteAt packet 5 &&& 0x30) >>> 4 = 2 →
      (synaptics_process_packet packet priv).1.agm =
        { priv.agm with
          mt_state := { count := (byteAt packet 1 : Nat), sgm := (byteAt packet 2 : Nat),
                        agm := (byteAt packet 4 : Nat) } }) := by
  obtain ⟨hres, hw⟩ := process_packet_secondary_eq packet priv hsec
  rw [hres]
  constructor
  · intro ht
    have hx := agm_gesture_x_lt packet
    have hy := agm_gesture_y_lt packet
    have hz := agm_gesture_z_lt packet
    have hagm : (synaptics_parse_agm packet priv (parse_newabs_w_buttons packet priv)).agm =
        { priv.agm with
          w := 2,
          x := ((2 * (((byteAt packet 4 &&& 0x0f) <<< 8) ||| byteAt packet 1) : Nat) : Int),
          y := ((2 * (((byteAt packet 4 &&& 0xf0) <<< 4) ||| byteAt packet 2) : Nat) : Int),
          z := ((2 * ((byteAt packet 3 &&& 0x30) ||| (byteAt packet 5 &&& 0x0f)) : Nat)
            : Int) } := by
      unfold synaptics_parse_agm
      simp only [if_pos ht, hw, shiftLeft_one_eq_two_mul]
    simp only [hagm]
    refine ⟨trivial, ?_, ?_, ?_, ?_, ?_, ?_, ?_, ?_, ?_, trivial⟩ <;> omega
  · intro ht
    have h1 : ¬ (byteAt packet 5 &&& 0x30) >>> 4 = 1 := by omega
    unfold synaptics_parse_agm synaptics_mt_state_set
    simp only [if_neg h1, if_pos ht]

/-- Witness for C22: the gesture sample of `packet_gesture`, and the
contact-count sample of `packet_contact_count`. -/
theorem secondary_sample_fields_witness :
    (synaptics_parse_hw_state packet_gesture (priv_tracking 2 0 1 false false 40)).1 = 1 ∧
    (byteAt packet_gesture 5 &&& 0x30) >>> 4 = 1 ∧
    (synaptics_process_packet packet_gesture (priv_tracking 2 0 1 false false 40)).1.agm.x =
      3108 ∧
    (synaptics_process_packet packet_gesture (priv_tracking 2 0 1 false false 40)).1.agm.x ≤
      8190 ∧
    (synaptics_process_packet packet_contact_count
      (priv_tracking 2 0 1 false false 40)).1.agm.mt_state = { count := 4, sgm := 0, agm := 3 } := by
  have h := (secondary_sample_fields packet_gesture (priv_tracking 2 0 1 false false 40)
    (by decide)).1 (by decide)
  have h2 := (secondary_sample_fields packet_contact_count (priv_tracking 2 0 1 false false 40)
    (by decide)).2 (by decide)
  refine ⟨by decide, by decide, ?_, h.2.2.1, ?_⟩
  · rw [h.1]
    decide
  · rw [h2]
    decide

/-! ## Theorems: byte validation and the choice of the protocol variant -/

/-- A framer of a plain new-absolute device at the start of the session: the
packet type is still undetermined. -/
def psmouse_new_session : psmouse :=
  { packet := [], pktcnt := 0, priv := synaptics_data_init info_plain,
    pt_child_activated := false, pt_child_pktsize := 3 }

theorem validate_byte_nat (packet : List Byte) (i : Nat) (hi : i ≤ 4) (t : Nat) :
    synaptics_validate_byte packet (i : Int) t =
      (if t = SYN_NEWABS ∨ t = SYN_NEWABS_RELAXED then
        decide (byteAt packet i &&& newabs_rel_mask.getD i 0 = newabs_rslt.getD i 0)
       else if t = SYN_NEWABS_STRICT then
        decide (byteAt packet i &&& newabs_mask.getD i 0 = newabs_rslt.getD i 0)
       else if t = SYN_OLDABS then
        decide (byteAt packet i &&& oldabs_mask.getD i 0 = oldabs_rslt.getD i 0)
       else false) := by
  have hr : ¬ ((i : Int) < 0 ∨ (i : Int) > 4) := by omega
  unfold synaptics_validate_byte
  simp only [if_neg hr, Int.toNat_ofNat]

theorem process_byte_incomplete (ps : psmouse) (hcnt : ps.pktcnt < 6) :
    synaptics_process_byte ps =
      (if synaptics_validate_byte ps.packet ((ps.pktcnt : Int) - 1) ps.priv.pkt_type = true then
         psmouse_ret_t.PSMOUSE_GOOD_DATA
       else psmouse_ret_t.PSMOUSE_BAD_DATA, ps, []) := by
  have hn : ¬ ps.pktcnt ≥ 6 := by omega
  unfold synaptics_process_byte
  simp only [if_neg hn]

/-- C23: while fewer than 6 bytes of a packet have been received, the byte at
index i in 0..4 is reported GoodData exactly when (byte AND mask[i]) =
expect[i], and BadData otherwise, with the strict mask {0xC8,0,0,0xC8,0} and
the relaxed mask {0xC0,0,0,0xC0,0} (also used before the variant is chosen)
against the expected values {0x80,0,0,0xC0,0}, and the old-absolute mask
{0xC0,0x60,0,0xC0,0x60} against {0xC0,0,0,0x80,0}; the call that receives the
sixth byte reports FullPacket whatever the bytes are. -/
theorem process_byte_reports (ps : psmouse) :
    (∀ i : Nat, i ≤ 4 → ps.pktcnt = i + 1 →
      (ps.priv.pkt_type = SYN_NEWABS_STRICT →
        ((synaptics_process_byte ps).1 = psmouse_ret_t.PSMOUSE_GOOD_DATA ↔
          byteAt ps.packet i &&& [0xC8, 0, 0, 0xC8, 0].getD i 0 =
            [0x80, 0, 0, 0xC0, 0].getD i 0)) ∧
      (ps.priv.pkt_type = SYN_NEWABS_RELAXED ∨ ps.priv.pkt_type = SYN_NEWABS →
        ((synaptics_process_byte ps).1 = psmouse_ret_t.PSMOUSE_GOOD_DATA ↔
          byteAt ps.packet i &&& [0xC0, 0, 0, 0xC0, 0].getD i 0 =
            [0x80, 0, 0, 0xC0, 0].getD i 0)) ∧
      (ps.priv.pkt_type = SYN_OLDABS →
        ((synaptics_process_byte ps).1 = psmouse_ret_t.PSMOUSE_GOOD_DATA ↔
          byteAt ps.packet i &&& [0xC0, 0x60, 0, 0xC0, 0x60].getD i 0 =
            [0xC0, 0, 0, 0x80, 0].getD i 0)) ∧
      ((synaptics_process_byte ps).1 ≠ psmouse_ret_t.PSMOUSE_GOOD_DATA →
        (synaptics_process_byte ps).1 = psmouse_ret_t.PSMOUSE_BAD_DATA)) ∧
    (6 ≤ ps.pktcnt → (synaptics_process_byte ps).1 = psmouse_ret_t.PSMOUSE_FULL_PACKET) := by
  constructor
  · intro i hi hcnt
    have hlt : ps.pktcnt < 6 := by omega
    have hidx : (ps.pktcnt : Int) - 1 = (i : Int) := by rw [hcnt]; push_cast; ring
    rw [process_byte_incomplete ps hlt, hidx, validate_byte_nat ps.packet i hi]
    refine ⟨?_, ?_, ?_, ?_⟩
    · intro ht
      rw [ht]
      simp [SYN_NEWABS, SYN_NEWABS_STRICT, SYN_NEWABS_RELAXED, newabs_mask, newabs_rslt]
    · intro ht
      rcases ht with ht | ht <;> rw [ht] <;>
        simp [SYN_NEWABS, SYN_NEWABS_RELAXED, newabs_rel_mask, newabs_rslt]
    · intro ht
      rw [ht]
      simp [SYN_NEWABS, SYN_NEWABS_STRICT, SYN_NEWABS_RELAXED, SYN_OLDABS, oldabs_mask,
        oldabs_rslt]
    · intro hne
      dsimp only at hne ⊢
      split_ifs at hne ⊢ <;> first | rfl | exact absurd rfl hne
  · intro hcnt
    have hge : ps.pktcnt ≥ 6 := hcnt
    unfold synaptics_process_byte
    simp only [if_pos hge]
    split_ifs <;> rfl

/-- A framer of a plain device with packet type `t` that has just stored the
byte `b` at index 0. -/
def psmouse_one_byte (t : Nat) (b : Byte) : psmouse :=
  { packet := [b], pktcnt := 1,
    priv := { synaptics_data_init info_plain with pkt_type := t },
    pt_child_activated := false, pt_child_pktsize := 3 }

/-- Witness for C23: under the strict template the byte 0x88 at index 0 is
BadData, under the relaxed template it is GoodData. -/
theorem process_byte_reports_witness :
    (synaptics_process_byte (psmouse_one_byte SYN_NEWABS_STRICT 0x88)).1 =
      psmouse_ret_t.PSMOUSE_BAD_DATA ∧
    (synaptics_process_byte (psmouse_one_byte SYN_NEWABS_RELAXED 0x88)).1 =
      psmouse_ret_t.PSMOUSE_GOOD_DATA := by
  have hs := (process_byte_reports (psmouse_one_byte SYN_NEWABS_STRICT 0x88)).1 0
    (by decide) rfl
  have hr := (process_byte_reports (psmouse_one_byte SYN_NEWABS_RELAXED 0x88)).1 0
    (by decide) rfl
  constructor
  · apply hs.2.2.2
    intro h
    exact absurd ((hs.1 rfl).mp h) (by decide)
  · exact (hr.2.1 (Or.inl rfl)).mpr (by decide)

theorem detect_pkt_type_eq (packet : List Byte) :
    (synaptics_detect_pkt_type packet = SYN_NEWABS_STRICT ↔
      ∀ i : Nat, i < 5 → synaptics_validate_byte packet (i : Int) SYN_NEWABS_STRICT = true) ∧
    (synaptics_detect_pkt_type packet = SYN_NEWABS_RELAXED ↔
      ∃ i : Nat, i < 5 ∧ synaptics_validate_byte packet (i : Int) SYN_NEWABS_STRICT = false) := by
  unfold synaptics_detect_pkt_type
  by_cases hall : ((List.range 5).all fun i =>
      synaptics_validate_byte packet (i : Nat) SYN_NEWABS_STRICT) = true
  · rw [if_pos hall]
    have hall2 : ∀ i : Nat, i < 5 →
        synaptics_validate_byte packet (i : Int) SYN_NEWABS_STRICT = true := by
      intro i hi
      exact (List.all_eq_true.mp hall) i (List.mem_range.mpr hi)
    refine ⟨⟨fun _ => hall2, fun _ => rfl⟩, ⟨fun h => absurd h (by decide), ?_⟩⟩
    rintro ⟨i, hi, hf⟩
    rw [hall2 i hi] at hf
    exact absurd hf (by decide)
  · rw [if_neg hall]
    have hex : ∃ i : Nat, i < 5 ∧
        synaptics_validate_byte packet (i : Int) SYN_NEWABS_STRICT = false := by
      by_contra hno
      apply hall
      rw [List.all_eq_true]
      intro i hi
      have hi5 := List.mem_range.mp hi
      by_contra hv
      exact hno ⟨i, hi5, by simpa using hv⟩
    refine ⟨⟨fun h => absurd h (by decide), fun h => ?_⟩, ⟨fun _ => hex, fun _ => rfl⟩⟩
    obtain ⟨i, hi, hf⟩ := hex
    rw [h i hi] at hf
    exact absurd hf (by decide)

theorem process_byte_first_packet (ps : psmouse) (hcnt : 6 ≤ ps.pktcnt)
    (ht : ps.priv.pkt_type = SYN_NEWABS) :
    (synaptics_process_byte ps).2.1.priv.pkt_type = synaptics_detect_pkt_type ps.packet := by
  have hge : ps.pktcnt ≥ 6 := hcnt
  unfold synaptics_process_byte
  simp only [if_pos hge, if_pos ht]
  split_ifs <;> first | rfl | exact process_packet_pkt_type _ _

theorem process_byte_keeps_pkt_type (ps : psmouse) (ht : ps.priv.pkt_type ≠ SYN_NEWABS) :
    (synaptics_process_byte ps).2.1.priv.pkt_type = ps.priv.pkt_type := by
  by_cases hcnt : 6 ≤ ps.pktcnt
  · exact (process_byte_full ps hcnt ht).2
  · rw [process_byte_incomplete ps (by omega)]

theorem feed_keeps_pkt_type (ps : psmouse) (b : Byte) (ht : ps.priv.pkt_type ≠ SYN_NEWABS) :
    (feed ps b).2.1.priv.pkt_type = ps.priv.pkt_type := by
  have h := process_byte_keeps_pkt_type
    { ps with packet := ps.packet ++ [b], pktcnt := ps.pktcnt + 1 } ht
  unfold feed
  dsimp only
  split_ifs <;> exact h

theorem feed_all_keeps_pkt_type (bytes : List Byte) :
    ∀ ps : psmouse, ps.priv.pkt_type ≠ SYN_NEWABS →
      (feed_all ps bytes).2.priv.pkt_type = ps.priv.pkt_type := by
  induction bytes with
  | nil => intro ps _; rfl
  | cons b bs ih =>
    intro ps ht
    have h1 := feed_keeps_pkt_type ps b ht
    simp only [feed_all]
    rw [ih (feed ps b).2.1 (by rw [h1]; exact ht), h1]

/-- C24: when the first full packet of a new-absolute session completes (six
bytes stored, packet type still undetermined) the packet type becomes
SYN_NEWABS_STRICT if all five constrained bytes pass the strict template and
SYN_NEWABS_RELAXED if one of them fails.  A call of the protocol handler with
a packet type that is already chosen (strict, relaxed or old-absolute) leaves
it unchanged, whatever the bytes, and so does every sequence of bytes fed to
the framer. -/
theorem pkt_type_chosen_once (ps : psmouse) :
    (6 ≤ ps.pktcnt → ps.priv.pkt_type = SYN_NEWABS →
      ((∀ i : Nat, i < 5 → synaptics_validate_byte ps.packet (i : Int) SYN_NEWABS_STRICT = true) →
        (synaptics_process_byte ps).2.1.priv.pkt_type = SYN_NEWABS_STRICT) ∧
      ((∃ i : Nat, i < 5 ∧ synaptics_validate_byte ps.packet (i : Int) SYN_NEWABS_STRICT = false) →
        (synaptics_process_byte ps).2.1.priv.pkt_type = SYN_NEWABS_RELAXED)) ∧
    (ps.priv.pkt_type ≠ SYN_NEWABS →
      (synaptics_process_byte ps).2.1.priv.pkt_type = ps.priv.pkt_type) ∧
    (∀ bytes : List Byte, ps.priv.pkt_type ≠ SYN_NEWABS →
      (feed_all ps bytes).2.priv.pkt_type = ps.priv.pkt_type) := by
  refine ⟨?_, process_byte_keeps_pkt_type ps, fun bytes ht => feed_all_keeps_pkt_type bytes ps ht⟩
  intro hcnt ht
  rw [process_byte_first_packet ps hcnt ht]
  exact ⟨fun h => (detect_pkt_type_eq ps.packet).1.mpr h,
    fun h => (detect_pkt_type_eq ps.packet).2.mpr h⟩

/-- Witness for C24: the first packet `packet_plain` passes the strict template
and makes the session strict; the first packet [0x88, ...] fails it at index 0
and makes the session relaxed, which later bytes do not change. -/
theorem pkt_type_chosen_once_witness :
    (feed_all psmouse_new_session packet_plain).2.priv.pkt_type = SYN_NEWABS_STRICT ∧
    (feed_all psmouse_new_session [0x88, 0x12, 40, 0xC0, 0x34, 0x56]).2.priv.pkt_type =
      SYN_NEWABS_RELAXED ∧
    (feed_all (feed_all psmouse_new_session [0x88, 0x12, 40, 0xC0, 0x34, 0x56]).2
      packet_plain).2.priv.pkt_type = SYN_NEWABS_RELAXED := by
  have h1 : (feed_all psmouse_new_session [0x88, 0x12, 40, 0xC0, 0x34, 0x56]).2.priv.pkt_type =
      SYN_NEWABS_RELAXED := by decide
  refine ⟨by decide, h1, ?_⟩
  rw [(pkt_type_chosen_once
    (feed_all psmouse_new_session [0x88, 0x12, 40, 0xC0, 0x34, 0x56]).2).2.2 packet_plain
    (by rw [h1]; decide), h1]

/-! ## Theorems: the fields of a decoded packet -/

/-- The width code in the words of the specification: bits 3..2 from bits
[7:6] of byte 0, bit 1 from bit 2 of byte 0, bit 0 from bit 2 of byte 3. -/
def spec_newabs_width (b0 b3 : Nat) : Nat :=
  (((b0 >>> 6) &&& 3) <<< 2) ||| (((b0 >>> 2) &&& 1) <<< 1) ||| ((b3 >>> 2) &&& 1)

set_option maxRecDepth 20000 in
theorem newabs_width_bits (b : Fin 256) (c : Fin 2) :
    (((b.val &&& 0x30) >>> 2) ||| ((b.val &&& 0x04) >>> 1)) ||| c.val =
      8 * (b.val / 32 % 2) + 4 * (b.val / 16 % 2) + 2 * (b.val / 4 % 2) + c.val := by
  revert b c
  decide

set_option maxRecDepth 20000 in
theorem land_4_shiftRight_2 (b : Fin 256) : (b.val &&& 0x04) >>> 2 = b.val / 4 % 2 := by
  revert b
  decide

/-- The decoded state of a new-absolute packet keeps the width code and the
scroll delta of the first decoding stage. -/
theorem parse_hw_state_newabs_w_scroll (buf : List Byte) (priv : synaptics_data)
    (hn : priv.info.newabs = true) :
    (synaptics_parse_hw_state buf priv).2.2.w = (parse_newabs_w_buttons buf priv).w ∧
    (synaptics_parse_hw_state buf priv).2.2.scroll =
      (parse_newabs_w_buttons buf priv).scroll := by
  unfold synaptics_parse_hw_state
  simp only [hn, if_true]
  by_cases hc : synaptics_has_agm priv = true ∧ (parse_newabs_w_buttons buf priv).w = 2
  · rw [if_pos hc]
    exact ⟨rfl, rfl⟩
  · rw [if_neg hc]
    unfold convert_wraparound parse_newabs_position synaptics_parse_ext_buttons
    dsimp only
    split_ifs <;> exact ⟨rfl, rfl⟩

/-- C25, as stated, fails: in the packet `packet_one_finger` byte 0 is 0x90,
whose bits [7:6] are 10 and whose bit 4 is set; the decoded width code is 4
(from bit 4), where the layout of the claim gives 8 (from bits [7:6]). -/
theorem newabs_width_counterexample :
    byteAt packet_one_finger 0 = 0x90 ∧ byteAt packet_one_finger 3 = 0xC0 ∧
    (synaptics_parse_hw_state packet_one_finger (synaptics_data_init info_plain)).2.2.w = 4 ∧
    spec_newabs_width (byteAt packet_one_finger 0) (byteAt packet_one_finger 3) = 8 := by
  decide

/-- C25, amended: for every new-absolute packet the width code is reassembled
from three scattered fields: its bits 3..2 are bits [5:4] of byte 0, its bit 1
is bit 2 of byte 0 and its bit 0 is bit 2 of byte 3; it is a value 0..15, and
bits [7:6] of byte 0 do not contribute to it. -/
theorem newabs_width (buf : List Byte) (priv : synaptics_data)
    (hn : priv.info.newabs = true) :
    (synaptics_parse_hw_state buf priv).2.2.w =
      ((8 * (byteAt buf 0 / 32 % 2) + 4 * (byteAt buf 0 / 16 % 2) + 2 * (byteAt buf 0 / 4 % 2) +
        byteAt buf 3 / 4 % 2 : Nat) : Int) ∧
    0 ≤ (synaptics_parse_hw_state buf priv).2.2.w ∧
    (synaptics_parse_hw_state buf priv).2.2.w ≤ 15 := by
  have hw : (synaptics_parse_hw_state buf priv).2.2.w =
      ((8 * (byteAt buf 0 / 32 % 2) + 4 * (byteAt buf 0 / 16 % 2) + 2 * (byteAt buf 0 / 4 % 2) +
        byteAt buf 3 / 4 % 2 : Nat) : Int) := by
    rw [(parse_hw_state_newabs_w_scroll buf priv hn).1, parse_newabs_w_buttons_w_eq]
    have h3 : (byteAt buf 3 &&& 0x04) >>> 2 = byteAt buf 3 / 4 % 2 :=
      land_4_shiftRight_2 (buf.getD 3 0)
    have hlt : byteAt buf 3 / 4 % 2 < 2 := Nat.mod_lt _ (by decide)
    have h0 := newabs_width_bits (buf.getD 0 0) ⟨byteAt buf 3 / 4 % 2, hlt⟩
    simp only at h0
    rw [h3]
    exact congrArg Nat.cast h0
  refine ⟨hw, ?_, ?_⟩
  · rw [hw]
    exact Int.natCast_nonneg _
  · rw [hw]
    have a := Nat.mod_lt (byteAt buf 0 / 32) (show 0 < 2 by decide)
    have b := Nat.mod_lt (byteAt buf 0 / 16) (show 0 < 2 by decide)
    have c := Nat.mod_lt (byteAt buf 0 / 4) (show 0 < 2 by decide)
    have d := Nat.mod_lt (byteAt buf 3 / 4) (show 0 < 2 by decide)
    omega

/-- Witness for the amended C25: byte 0 = 0x90 and byte 3 = 0xC0 give the
width code 4. -/
theorem newabs_width_witness :
    (synaptics_data_init info_plain).info.newabs = true ∧
    (synaptics_parse_hw_state packet_one_finger (synaptics_data_init info_plain)).2.2.w =
      ((8 * (0x90 / 32 % 2) + 4 * (0x90 / 16 % 2) + 2 * (0x90 / 4 % 2) + 0xC0 / 4 % 2 : Nat) : Int) :=
  ⟨rfl, (newabs_width packet_one_finger (synaptics_data_init info_plain) rfl).1⟩

theorem signed_char_range (b : Nat) : -128 ≤ signed_char b ∧ signed_char b ≤ 127 := by
  unfold signed_char
  have h := Nat.mod_lt b (show 0 < 256 by decide)
  split_ifs <;> omega

theorem parse_newabs_w_buttons_scroll (buf : List Byte) (priv : synaptics_data) :
    (parse_newabs_w_buttons buf priv).scroll =
      (if priv.info.clickpad = false ∧ priv.info.middle_button = true ∧
          (parse_newabs_w_buttons buf priv).w = 2 then signed_char (byteAt buf 1)
       else 0) := by
  rw [parse_newabs_w_buttons_w_eq]
  unfold parse_newabs_w_buttons
  dsimp only
  by_cases hc : priv.info.clickpad = true
  · simp only [hc, if_true, Bool.true_eq_false, false_and, if_false]
    split_ifs <;> rfl
  · have hc2 : priv.info.clickpad = false := by simpa using hc
    simp only [hc2, Bool.false_eq_true, if_false, true_and]
    by_cases hm : priv.info.middle_button = true
    · simp only [hm, if_true, true_and]
      by_cases hw : ((((byteAt buf 0 &&& 0x30) >>> 2) ||| ((byteAt buf 0 &&& 0x04) >>> 1) |||
          ((byteAt buf 3 &&& 0x04) >>> 2) : Nat) : Int) = 2
      · rw [if_pos hw, if_pos hw]
        split_ifs <;> rfl
      · rw [if_neg hw, if_neg hw]
        split_ifs <;> rfl
    · have hm2 : priv.info.middle_button = false := by simpa using hm
      simp only [hm2, Bool.false_eq_true, if_false, false_and]
      split_ifs <;> rfl

/-- C26, as stated, fails: on a middle-button device the width-2 packet
[0x84, 5, 0, 0xC0, 9, 7] decodes to the scroll delta 5, the value of byte 1,
not to the value 9 or 7 of a position low byte (byte 4 for x, byte 5 for y). -/
theorem scroll_delta_counterexample :
    (synaptics_parse_hw_state [0x84, 5, 0, 0xC0, 9, 7] (priv_wheel 0)).2.2.w = 2 ∧
    (synaptics_parse_hw_state [0x84, 5, 0, 0xC0, 9, 7] (priv_wheel 0)).2.2.scroll = 5 ∧
    signed_char (byteAt [0x84, 5, 0, 0xC0, 9, 7] 1) = 5 ∧
    signed_char (byteAt [0x84, 5, 0, 0xC0, 9, 7] 4) = 9 ∧
    signed_char (byteAt [0x84, 5, 0, 0xC0, 9, 7] 5) = 7 ∧
    (synaptics_parse_hw_state [0x84, 5, 0, 0xC0, 9, 7] (priv_wheel 0)).2.2.scroll ≠
      signed_char (byteAt [0x84, 5, 0, 0xC0, 9, 7] 4) ∧
    (synaptics_parse_hw_state [0x84, 5, 0, 0xC0, 9, 7] (priv_wheel 0)).2.2.scroll ≠
      signed_char (byteAt [0x84, 5, 0, 0xC0, 9, 7] 5) := by
  decide

/-- C26, amended: for every new-absolute packet the decoded scroll delta is
byte 1 of the packet read as a signed 8-bit number (range -128..127) when the
device has a physical middle button, is not a clickpad and the width code
equals 2, and is 0 in every other case. -/
theorem scroll_delta (buf : List Byte) (priv : synaptics_data)
    (hn : priv.info.newabs = true) :
    (synaptics_parse_hw_state buf priv).2.2.scroll =
      (if priv.info.clickpad = false ∧ priv.info.middle_button = true ∧
          (synaptics_parse_hw_state buf priv).2.2.w = 2 then signed_char (byteAt buf 1)
       else 0) ∧
    -128 ≤ (synaptics_parse_hw_state buf priv).2.2.scroll ∧
    (synaptics_parse_hw_state buf priv).2.2.scroll ≤ 127 := by
  obtain ⟨hw, hs⟩ := parse_hw_state_newabs_w_scroll buf priv hn
  have key := parse_newabs_w_buttons_scroll buf priv
  have hr := signed_char_range (byteAt buf 1)
  rw [hs, hw]
  refine ⟨key, ?_, ?_⟩ <;> rw [key] <;> split_ifs <;> omega

/-- Witness for the amended C26: byte 1 = 0xFC on a middle-button device gives
the scroll delta -4; on a plain device the delta is 0. -/
theorem scroll_delta_witness :
    (synaptics_parse_hw_state (scroll_packet 0xFC) (priv_wheel 0)).2.2.scroll = -4 ∧
    (synaptics_parse_hw_state (scroll_packet 0xFC)
      (synaptics_data_init info_plain)).2.2.scroll = 0 := by
  have h1 := (scroll_delta (scroll_packet 0xFC) (priv_wheel 0) rfl).1
  have h2 := (scroll_delta (scroll_packet 0xFC) (synaptics_data_init info_plain) rfl).1
  constructor
  · rw [h1]
    decide
  · rw [h2]
    decide

/-- A plain new-absolute touchpad declaring two extended buttons. -/
def info_ext_buttons : synaptics_device_info :=
  { info_plain with multi_button_no := 2 }

/-- A primary packet in which bit 1 of byte 0 and bit 1 of byte 3 differ. -/
def packet_ext_set : List Byte := [0x82, 0, 40, 0xC0, 1, 1]

/-- A primary packet in which bit 1 of byte 0 and bit 1 of byte 3 agree. -/
def packet_ext_clear : List Byte := [0x80, 0, 40, 0xC0, 1, 1]

/-- The test `(buf[0] ^ buf[3]) & 0x02` compares bit 1 of byte 0 with bit 1 of
byte 3. -/
theorem xor_land_2_ne_zero (a b : Nat) :
    (a ^^^ b) &&& 2 ≠ 0 ↔ a / 2 % 2 ≠ b / 2 % 2 := by
  have e : (a ^^^ b) &&& 2 = ((a ^^^ b).testBit 1).toNat * 2 ^ 1 := Nat.and_two_pow _ 1
  rw [e, Nat.testBit_xor, Nat.testBit_to_div_mod, Nat.testBit_to_div_mod]
  have ha := Nat.mod_two_eq_zero_or_one (a / 2 ^ 1)
  have hb := Nat.mod_two_eq_zero_or_one (b / 2 ^ 1)
  have p1 : (2 : Nat) ^ 1 = 2 := by decide
  rw [p1] at ha hb ⊢
  rcases ha with ha | ha <;> rcases hb with hb | hb <;> simp [ha, hb]

theorem ext_buttons_value_lt (b4 b5 n : Nat) (h1 : 1 ≤ n) (h8 : n ≤ 8) :
    (b4 &&& (2 ^ ((n + 1) / 2) - 1)) ||| ((b5 &&& (2 ^ ((n + 1) / 2) - 1)) <<< ((n + 1) / 2)) <
      2 ^ (2 * ((n + 1) / 2)) ∧
    2 ^ (2 * ((n + 1) / 2)) ≤ 256 ∧
    b4 &&& (2 ^ ((n + 1) / 2) - 1) < 256 := by
  have a1 : ∀ m : Nat, b4 &&& m ≤ m := fun m => Nat.and_le_right
  have a2 : ∀ m k : Nat, (b5 &&& m) <<< k ≤ m * 2 ^ k := fun m k => and_shiftLeft_le b5 m k
  interval_cases n
  · have := a1 1; have := a2 1 1
    exact ⟨Nat.or_lt_two_pow (by norm_num; omega) (by norm_num at *; omega), by norm_num,
      by norm_num; omega⟩
  · have := a1 1; have := a2 1 1
    exact ⟨Nat.or_lt_two_pow (by norm_num; omega) (by norm_num at *; omega), by norm_num,
      by norm_num; omega⟩
  · have := a1 3; have := a2 3 2
    exact ⟨Nat.or_lt_two_pow (by norm_num; omega) (by norm_num at *; omega), by norm_num,
      by norm_num; omega⟩
  · have := a1 3; have := a2 3 2
    exact ⟨Nat.or_lt_two_pow (by norm_num; omega) (by norm_num at *; omega), by norm_num,
      by norm_num; omega⟩
  · have := a1 7; have := a2 7 3
    exact ⟨Nat.or_lt_two_pow (by norm_num; omega) (by norm_num at *; omega), by norm_num,
      by norm_num; omega⟩
  · have := a1 7; have := a2 7 3
    exact ⟨Nat.or_lt_two_pow (by norm_num; omega) (by norm_num at *; omega), by norm_num,
      by norm_num; omega⟩
  · have := a1 15; have := a2 15 4
    exact ⟨Nat.or_lt_two_pow (by norm_num; omega) (by norm_num at *; omega), by norm_num,
      by norm_num; omega⟩
  · have := a1 15; have := a2 15 4
    exact ⟨Nat.or_lt_two_pow (by norm_num; omega) (by norm_num at *; omega), by norm_num,
      by norm_num; omega⟩

theorem convert_wraparound_ext_buttons (hw : synaptics_hw_state) :
    (convert_wraparound hw).ext_buttons = hw.ext_buttons := by
  unfold convert_wraparound
  dsimp only
  split_ifs <;> rfl

theorem parse_ext_buttons_value (buf : List Byte) (priv : synaptics_data)
    (hw : synaptics_hw_state) (h1 : 1 ≤ priv.info.multi_button_no.val)
    (h8 : priv.info.multi_button_no.val ≤ 8) :
    (synaptics_parse_ext_buttons buf priv hw).ext_buttons =
      (byteAt buf 4 &&& (2 ^ ((priv.info.multi_button_no.val + 1) / 2) - 1)) |||
        ((byteAt buf 5 &&& (2 ^ ((priv.info.multi_button_no.val + 1) / 2) - 1)) <<<
          ((priv.info.multi_button_no.val + 1) / 2)) := by
  obtain ⟨hlt, h256, h4⟩ :=
    ext_buttons_value_lt (byteAt buf 4) (byteAt buf 5) priv.info.multi_button_no.val h1 h8
  have hk : (priv.info.multi_button_no.val + 1) >>> 1 = (priv.info.multi_button_no.val + 1) / 2 := by
    rw [Nat.shiftRight_eq_div_pow]
  have hk1 : 1 ≤ (priv.info.multi_button_no.val + 1) / 2 := by omega
  have hm : GENMASK0 ((priv.info.multi_button_no.val + 1) / 2 - 1) =
      2 ^ ((priv.info.multi_button_no.val + 1) / 2) - 1 := by
    unfold GENMASK0
    rw [Nat.sub_add_cancel hk1]
  unfold synaptics_parse_ext_buttons
  simp only [hk, hm]
  rw [Nat.mod_eq_of_lt h4, Nat.mod_eq_of_lt (by omega)]

/-- C27, as stated, fails: on a device declaring two extended buttons, the
packet `packet_ext_set` received twice in a row is decoded the second time to
ext_buttons = 3 although no bit differs between it and the previous packet;
and `packet_ext_clear` received after `packet_ext_set` is decoded to
ext_buttons = 0 although the status bit differs from the previous packet.
What decides is whether bit 1 of byte 0 differs from bit 1 of byte 3 within
the packet. -/
theorem ext_buttons_counterexample :
    (synaptics_parse_hw_state packet_ext_set
      (process_packets (synaptics_data_init info_ext_buttons) [packet_ext_set]).1).1 = 0 ∧
    (synaptics_parse_hw_state packet_ext_set
      (process_packets (synaptics_data_init info_ext_buttons)
        [packet_ext_set]).1).2.2.ext_buttons = 3 ∧
    (byteAt packet_ext_set 0 ^^^ byteAt packet_ext_set 3) &&& 0x02 = 2 ∧
    (byteAt packet_ext_clear 0 ^^^ byteAt packet_ext_clear 3) &&& 0x02 = 0 ∧
    (synaptics_parse_hw_state packet_ext_clear
      (process_packets (synaptics_data_init info_ext_buttons) [packet_ext_set]).1).1 = 0 ∧
    (synaptics_parse_hw_state packet_ext_clear
      (process_packets (synaptics_data_init info_ext_buttons)
        [packet_ext_set]).1).2.2.ext_buttons = 0 := by
  decide

/-- C27, amended: in a new-absolute primary report of a device declaring n
extra buttons, n <= 8 (a higher count is cleared when the capabilities are
read), the extended button bits are extracted exactly when n is not 0 and bit
1 of byte 0 differs from bit 1 of byte 3 of the same packet; when extracted,
ext_buttons = (byte4 & m) | ((byte5 & m) << k) with k = (n + 1) div 2 and
m = 2^k - 1, so ext_buttons < 2^(2k); otherwise ext_buttons = 0. -/
theorem ext_buttons_extraction (buf : List Byte) (priv : synaptics_data)
    (hn : priv.info.newabs = true) (hprimary : (synaptics_parse_hw_state buf priv).1 = 0)
    (h8 : priv.info.multi_button_no.val ≤ 8) :
    (synaptics_parse_hw_state buf priv).2.2.ext_buttons =
      (if priv.info.multi_button_no.val ≠ 0 ∧ byteAt buf 0 / 2 % 2 ≠ byteAt buf 3 / 2 % 2 then
        (byteAt buf 4 &&& (2 ^ ((priv.info.multi_button_no.val + 1) / 2) - 1)) |||
          ((byteAt buf 5 &&& (2 ^ ((priv.info.multi_button_no.val + 1) / 2) - 1)) <<<
            ((priv.info.multi_button_no.val + 1) / 2))
       else 0) ∧
    (synaptics_parse_hw_state buf priv).2.2.ext_buttons <
      2 ^ (2 * ((priv.info.multi_button_no.val + 1) / 2)) := by
  have hzero := (parse_newabs_w_buttons_zero buf priv).2.2.2
  have hval : (synaptics_parse_hw_state buf priv).2.2.ext_buttons =
      (if priv.info.multi_button_no.val ≠ 0 ∧ byteAt buf 0 / 2 % 2 ≠ byteAt buf 3 / 2 % 2 then
        (byteAt buf 4 &&& (2 ^ ((priv.info.multi_button_no.val + 1) / 2) - 1)) |||
          ((byteAt buf 5 &&& (2 ^ ((priv.info.multi_button_no.val + 1) / 2) - 1)) <<<
            ((priv.info.multi_button_no.val + 1) / 2))
       else 0) := by
    unfold synaptics_parse_hw_state at hprimary ⊢
    simp only [hn, if_true] at hprimary ⊢
    by_cases hc : synaptics_has_agm priv = true ∧ (parse_newabs_w_buttons buf priv).w = 2
    · rw [if_pos hc] at hprimary
      simp at hprimary
    · rw [if_neg hc]
      simp only [convert_wraparound_ext_buttons]
      unfold parse_newabs_position
      dsimp only
      by_cases he : priv.info.multi_button_no.val > 0 ∧
          (byteAt buf 0 ^^^ byteAt buf 3) &&& 0x02 ≠ 0
      · have he2 : priv.info.multi_button_no.val ≠ 0 ∧
            byteAt buf 0 / 2 % 2 ≠ byteAt buf 3 / 2 % 2 :=
          ⟨by omega, (xor_land_2_ne_zero _ _).mp he.2⟩
        rw [if_pos he, if_pos he2]
        exact parse_ext_buttons_value buf priv _ (by omega) h8
      · have he2 : ¬ (priv.info.multi_button_no.val ≠ 0 ∧
            byteAt buf 0 / 2 % 2 ≠ byteAt buf 3 / 2 % 2) := by
          intro h
          exact he ⟨by omega, (xor_land_2_ne_zero _ _).mpr h.2⟩
        rw [if_neg he, if_neg he2]
        exact hzero
  refine ⟨hval, ?_⟩
  rw [hval]
  split_ifs with h
  · exact (ext_buttons_value_lt (byteAt buf 4) (byteAt buf 5) priv.info.multi_button_no.val
      (by omega) h8).1
  · exact Nat.pow_pos (by decide)

/-- Witness for the amended C27: two extended buttons (k = 1, m = 1), bytes 4
and 5 both 1: ext_buttons = 3. -/
theorem ext_buttons_extraction_witness :
    (synaptics_parse_hw_state packet_ext_set (synaptics_data_init info_ext_buttons)).1 = 0 ∧
    (synaptics_parse_hw_state packet_ext_set
      (synaptics_data_init info_ext_buttons)).2.2.ext_buttons = 3 := by
  have h := (ext_buttons_extraction packet_ext_set (synaptics_data_init info_ext_buttons) rfl
    (by decide) (by decide)).1
  refine ⟨by decide, ?_⟩
  rw [h]
  decide

/-- A plain old-absolute touchpad. -/
def info_oldabs : synaptics_device_info :=
  { info_plain with newabs := false }

/-- The old-absolute width in the words of the specification: bit 7 of byte 1
concatenated with bit 2 of byte 0, a 2-bit value. -/
def spec_oldabs_width (b0 b1 : Nat) : Nat := 2 * (b1 / 128) + b0 / 4 % 2

theorem shiftLeft_8_lor (a b : Nat) (hb : b < 256) : (a <<< 8) ||| b = 256 * a + b := by
  rw [Nat.shiftLeft_eq, Nat.mul_comm]
  exact (Nat.mul_add_lt_is_or (show b < 2 ^ 8 from hb) a).symm

theorem land_1f (a : Nat) : a &&& 0x1f = a % 32 := Nat.and_pow_two_sub_one_eq_mod a 5

theorem land_3f (a : Nat) : a &&& 0x3F = a % 64 := Nat.and_pow_two_sub_one_eq_mod a 6

set_option maxRecDepth 20000 in
theorem land_30_shiftLeft_2 (b : Fin 256) : (b.val &&& 0x30) <<< 2 = 2 ^ 6 * (b.val / 16 % 4) := by
  revert b
  decide

set_option maxRecDepth 20000 in
theorem oldabs_width_bits (b : Fin 256) (c : Fin 256) :
    ((b.val &&& 0x80) >>> 4) = 8 * (b.val / 128) ∧
    ((c.val &&& 0x04) >>> 1) = 2 * (c.val / 4 % 2) ∧
    (decide (c.val &&& 0x01 ≠ 0) = decide (c.val % 2 = 1)) ∧
    (decide (c.val &&& 0x02 ≠ 0) = decide (c.val / 2 % 2 = 1)) := by
  refine ⟨?_, ?_, ?_, ?_⟩
  · revert b; decide
  · revert c; decide
  · revert c; decide
  · revert c; decide

theorem lor_8_2 (u v : Nat) (hu : u < 2) (hv : v < 2) : (8 * u) ||| (2 * v) = 8 * u + 2 * v := by
  interval_cases u <;> interval_cases v <;> decide

/-- C28, as stated, fails: for the old-absolute packet [0xC4, 0x80, 0, 0x80,
0, 0], with bit 7 of byte 1 and bit 2 of byte 0 both set, the decoded width is
10, not the 2-bit value 3 and not within 0..3. -/
theorem oldabs_fields_counterexample :
    (synaptics_parse_hw_state [0xC4, 0x80, 0, 0x80, 0, 0] (synaptics_data_init info_oldabs)).1 =
      0 ∧
    (synaptics_parse_hw_state [0xC4, 0x80, 0, 0x80, 0, 0]
      (synaptics_data_init info_oldabs)).2.2.w = 10 ∧
    spec_oldabs_width (byteAt [0xC4, 0x80, 0, 0x80, 0, 0] 0)
      (byteAt [0xC4, 0x80, 0, 0x80, 0, 0] 1) = 3 ∧
    ¬ ((synaptics_parse_hw_state [0xC4, 0x80, 0, 0x80, 0, 0]
      (synaptics_data_init info_oldabs)).2.2.w ≤ 3) := by
  decide

/-- C28, amended: for every old-absolute packet the raw x is byte1[4:0]
concatenated with byte2 and the raw y is byte4[4:0] concatenated with byte5
(13 bits each, decoded through the wrap-around rule), z is byte0[5:4]
concatenated with byte3[5:0] (0..255), left is bit 0 and right is bit 1 of
byte 0, and the width is 8 * byte1[7] + 2 * byte0[2], one of 0, 2, 8, 10:
bit 7 of byte 1 is bit 3 and bit 2 of byte 0 is bit 1 of the width code. -/
theorem oldabs_fields (buf : List Byte) (priv : synaptics_data)
    (hn : priv.info.newabs = false) :
    oldabs_raw_x buf = 256 * (byteAt buf 1 % 32) + byteAt buf 2 ∧
    oldabs_raw_y buf = 256 * (byteAt buf 4 % 32) + byteAt buf 5 ∧
    (synaptics_parse_hw_state buf priv).2.2.x =
      spec_decoded_coordinate ((256 * (byteAt buf 1 % 32) + byteAt buf 2 : Nat) : Int) ∧
    (synaptics_parse_hw_state buf priv).2.2.y =
      spec_decoded_coordinate ((256 * (byteAt buf 4 % 32) + byteAt buf 5 : Nat) : Int) ∧
    (synaptics_parse_hw_state buf priv).2.2.z =
      ((64 * (byteAt buf 0 / 16 % 4) + byteAt buf 3 % 64 : Nat) : Int) ∧
    (synaptics_parse_hw_state buf priv).2.2.z ≤ 255 ∧
    (synaptics_parse_hw_state buf priv).2.2.w =
      ((8 * (byteAt buf 1 / 128) + 2 * (byteAt buf 0 / 4 % 2) : Nat) : Int) ∧
    (synaptics_parse_hw_state buf priv).2.2.left = decide (byteAt buf 0 % 2 = 1) ∧
    (synaptics_parse_hw_state buf priv).2.2.right = decide (byteAt buf 0 / 2 % 2 = 1) := by
  have hx : oldabs_raw_x buf = 256 * (byteAt buf 1 % 32) + byteAt buf 2 := by
    unfold oldabs_raw_x
    rw [land_1f, shiftLeft_8_lor _ _ (byteAt_lt buf 2)]
  have hy : oldabs_raw_y buf = 256 * (byteAt buf 4 % 32) + byteAt buf 5 := by
    unfold oldabs_raw_y
    rw [land_1f, shiftLeft_8_lor _ _ (byteAt_lt buf 5)]
  have hz : ((byteAt buf 0 &&& 0x30) <<< 2) ||| (byteAt buf 3 &&& 0x3F) =
      64 * (byteAt buf 0 / 16 % 4) + byteAt buf 3 % 64 := by
    have h0 : (byteAt buf 0 &&& 0x30) <<< 2 = 2 ^ 6 * (byteAt buf 0 / 16 % 4) :=
      land_30_shiftLeft_2 (buf.getD 0 0)
    have h3 : byteAt buf 3 % 64 < 2 ^ 6 := Nat.mod_lt _ (by decide)
    rw [land_3f, h0, ← Nat.mul_add_lt_is_or h3]
  have hbits := oldabs_width_bits (buf.getD 1 0) (buf.getD 0 0)
  have hw : ((byteAt buf 1 &&& 0x80) >>> 4) ||| ((byteAt buf 0 &&& 0x04) >>> 1) =
      8 * (byteAt buf 1 / 128) + 2 * (byteAt buf 0 / 4 % 2) := by
    have e1 : (byteAt buf 1 &&& 0x80) >>> 4 = 8 * (byteAt buf 1 / 128) := hbits.1
    have e2 : (byteAt buf 0 &&& 0x04) >>> 1 = 2 * (byteAt buf 0 / 4 % 2) := hbits.2.1
    have b1 := byteAt_lt buf 1
    rw [e1, e2]
    exact lor_8_2 _ _ (by omega) (Nat.mod_lt _ (by decide))
  have hl : decide (byteAt buf 0 &&& 0x01 ≠ 0) = decide (byteAt buf 0 % 2 = 1) := hbits.2.2.1
  have hr : decide (byteAt buf 0 &&& 0x02 ≠ 0) = decide (byteAt buf 0 / 2 % 2 = 1) :=
    hbits.2.2.2
  have hparse : synaptics_parse_hw_state buf priv =
      (0, priv, convert_wraparound (parse_oldabs buf)) := by
    unfold synaptics_parse_hw_state
    simp only [hn, Bool.false_eq_true, if_false]
  have hcw : (convert_wraparound (parse_oldabs buf)).z = (parse_oldabs buf).z ∧
      (convert_wraparound (parse_oldabs buf)).w = (parse_oldabs buf).w ∧
      (convert_wraparound (parse_oldabs buf)).left = (parse_oldabs buf).left ∧
      (convert_wraparound (parse_oldabs buf)).right = (parse_oldabs buf).right := by
    unfold convert_wraparound
    dsimp only
    split_ifs <;> exact ⟨rfl, rfl, rfl, rfl⟩
  rw [hparse]
  simp only [convert_wraparound_x, convert_wraparound_y, hcw.1, hcw.2.1, hcw.2.2.1, hcw.2.2.2]
  have hzv : (parse_oldabs buf).z =
      ((64 * (byteAt buf 0 / 16 % 4) + byteAt buf 3 % 64 : Nat) : Int) := by
    unfold parse_oldabs
    exact congrArg Nat.cast hz
  refine ⟨hx, hy, ?_, ?_, hzv, ?_, ?_, ?_, ?_⟩
  · unfold parse_oldabs
    exact congrArg (fun n : Nat => spec_decoded_coordinate (n : Int)) hx
  · unfold parse_oldabs
    exact congrArg (fun n : Nat => spec_decoded_coordinate (n : Int)) hy
  · rw [hzv]
    have a := Nat.mod_lt (byteAt buf 0 / 16) (show 0 < 4 by decide)
    have b := Nat.mod_lt (byteAt buf 3) (show 0 < 64 by decide)
    omega
  · unfold parse_oldabs
    exact congrArg Nat.cast hw
  · unfold parse_oldabs
    exact hl
  · unfold parse_oldabs
    exact hr

/-- Witness for the amended C28: the old-absolute packet [0xC4, 0x80, 0, 0x80,
0, 0] has width 8 * 1 + 2 * 1 = 10. -/
theorem oldabs_fields_witness :
    (synaptics_data_init info_oldabs).info.newabs = false ∧
    (synaptics_parse_hw_state [0xC4, 0x80, 0, 0x80, 0, 0]
      (synaptics_data_init info_oldabs)).2.2.w = 10 := by
  have h := (oldabs_fields [0xC4, 0x80, 0, 0x80, 0, 0] (synaptics_data_init info_oldabs)
    rfl).2.2.2.2.2.2.1
  refine ⟨rfl, ?_⟩
  rw [h]
  decide

/-! ## Theorems: the semi-multi-touch projector -/

/-- A decoded report at touchpad position (x, y). -/
def hw_at (x y : Int) : synaptics_hw_state :=
  { hw_state_zero with x := x, y := y, z := 40 }

/-- C29, as stated, fails: with the primary report at (100, 200), the buffered
secondary report at (300, 400) and two contacts, slot 0 is reported at x = 100
and y = 5656 and slot 1 at x = 300 and y = 5456: the y reported for slot 0 is
not min(200, 400) = 200, and it is greater than the y reported for slot 1. -/
theorem semi_mt_counterexample :
    synaptics_report_semi_mt_data (hw_at 100 200) (hw_at 300 400) 2 =
      [input_event.mt_slot 0, input_event.mt_slot_state true,
       input_event.abs abs_code.ABS_MT_POSITION_X 100,
       input_event.abs abs_code.ABS_MT_POSITION_Y 5656,
       input_event.mt_slot 1, input_event.mt_slot_state true,
       input_event.abs abs_code.ABS_MT_POSITION_X 300,
       input_event.abs abs_code.ABS_MT_POSITION_Y 5456] ∧
    min (hw_at 100 200).y (hw_at 300 400).y = 200 ∧
    ¬ ((5656 : Int) ≤ 5456) := by
  decide

/-- C29, amended: the semi-multi-touch projector reports, for a count below 1,
both slots inactive; for 1 contact, slot 0 active at the primary position and
slot 1 inactive; for every count >= 2, slot 0 active at (min(xp, xs),
min(yp, ys)) and slot 1 active at (max(xp, xs), max(yp, ys)) in touchpad
coordinates, where slot 0 is component-wise at most slot 1.  The y value
handed to the input layer for an active slot is the inverted one,
YMAX_NOMINAL + YMIN_NOMINAL - y = 5856 - y, so among the reported values the x
of slot 0 is at most the x of slot 1 and the y of slot 0 is at least the y of
slot 1. -/
theorem semi_mt_bounding_box (a b : synaptics_hw_state) (n : Int) :
    (n < 1 →
      synaptics_report_semi_mt_data a b n =
        [input_event.mt_slot 0, input_event.mt_slot_state false,
         input_event.mt_slot 1, input_event.mt_slot_state false]) ∧
    (n = 1 →
      synaptics_report_semi_mt_data a b n =
        [input_event.mt_slot 0, input_event.mt_slot_state true,
         input_event.abs abs_code.ABS_MT_POSITION_X a.x,
         input_event.abs abs_code.ABS_MT_POSITION_Y (5856 - a.y),
         input_event.mt_slot 1, input_event.mt_slot_state false]) ∧
    (2 ≤ n →
      synaptics_report_semi_mt_data a b n =
        [input_event.mt_slot 0, input_event.mt_slot_state true,
         input_event.abs abs_code.ABS_MT_POSITION_X (min a.x b.x),
         input_event.abs abs_code.ABS_MT_POSITION_Y (5856 - min a.y b.y),
         input_event.mt_slot 1, input_event.mt_slot_state true,
         input_event.abs abs_code.ABS_MT_POSITION_X (max a.x b.x),
         input_event.abs abs_code.ABS_MT_POSITION_Y (5856 - max a.y b.y)]) ∧
    min a.x b.x ≤ max a.x b.x ∧ min a.y b.y ≤ max a.y b.y ∧
    5856 - max a.y b.y ≤ 5856 - min a.y b.y := by
  have hinv : ∀ y : Int, synaptics_invert_y y = 5856 - y := by
    intro y
    unfold synaptics_invert_y YMAX_NOMINAL YMIN_NOMINAL
    omega
  refine ⟨?_, ?_, ?_, ?_, ?_, ?_⟩
  · intro hn
    have h2 : ¬ n ≥ 2 := by omega
    have h1 : ¬ n = 1 := by omega
    simp [synaptics_report_semi_mt_data, synaptics_report_semi_mt_slot, h2, h1]
  · intro hn
    have h2 : ¬ n ≥ 2 := by omega
    simp [synaptics_report_semi_mt_data, synaptics_report_semi_mt_slot, h2, hn, hinv]
  · intro hn
    have h2 : n ≥ 2 := hn
    simp [synaptics_report_semi_mt_data, synaptics_report_semi_mt_slot, h2, hinv]
  · exact le_trans (min_le_left _ _) (le_max_left _ _)
  · exact le_trans (min_le_left _ _) (le_max_left _ _)
  · have h : min a.y b.y ≤ max a.y b.y := le_trans (min_le_left _ _) (le_max_left _ _)
    omega

/-- Witness for the amended C29: three contacts, primary report at (100, 400),
secondary report at (300, 200). -/
theorem semi_mt_bounding_box_witness :
    synaptics_report_semi_mt_data (hw_at 100 400) (hw_at 300 200) 3 =
      [input_event.mt_slot 0, input_event.mt_slot_state true,
       input_event.abs abs_code.ABS_MT_POSITION_X 100,
       input_event.abs abs_code.ABS_MT_POSITION_Y 5656,
       input_event.mt_slot 1, input_event.mt_slot_state true,
       input_event.abs abs_code.ABS_MT_POSITION_X 300,
       input_event.abs abs_code.ABS_MT_POSITION_Y 5456] := by
  have h := (semi_mt_bounding_box (hw_at 100 400) (hw_at 300 200) 3).2.2.1 (by decide)
  rw [h]
  decide

/-! ## Theorems: the states reached without contact-count samples -/

/-- The ten slot assignments of the claim. -/
def reachable_states : List synaptics_mt_state :=
  [{ count := 0, sgm := 0, agm := 0 }, { count := 0, sgm := -1, agm := -1 },
   { count := 1, sgm := -1, agm := -1 }, { count := 1, sgm := 0, agm := -1 },
   { count := 1, sgm := 1, agm := -1 }, { count := 2, sgm := -1, agm := -1 },
   { count := 2, sgm := 0, agm := 1 }, { count := 3, sgm := -1, agm := -1 },
   { count := 3, sgm := 0, agm := -1 }, { count := 3, sgm := 0, agm := 2 }]

theorem image_sensor_1f_reachable (priv : synaptics_data)
    (h : priv.mt_state ∈ reachable_states) :
    (synaptics_image_sensor_1f priv priv.mt_state).2 ∈ reachable_states := by
  unfold synaptics_image_sensor_1f synaptics_mt_state_set
  dsimp only
  generalize priv.mt_state = m at h ⊢
  simp only [reachable_states, List.mem_cons, List.mem_singleton, List.not_mem_nil,
    or_false] at h
  rcases h with rfl | rfl | rfl | rfl | rfl | rfl | rfl | rfl | rfl | rfl <;>
    simp [reachable_states] <;> split_ifs <;> simp

theorem image_sensor_2f_reachable (priv : synaptics_data)
    (h : priv.mt_state ∈ reachable_states) :
    (synaptics_image_sensor_2f priv priv.mt_state).2 ∈ reachable_states := by
  unfold synaptics_image_sensor_2f synaptics_mt_state_set
  dsimp only
  generalize priv.mt_state = m at h ⊢
  simp only [reachable_states, List.mem_cons, List.mem_singleton, List.not_mem_nil,
    or_false] at h
  rcases h with rfl | rfl | rfl | rfl | rfl | rfl | rfl | rfl | rfl | rfl <;>
    simp [reachable_states]
  all_goals (split_ifs <;> simp)

theorem image_sensor_3f_reachable (priv : synaptics_data)
    (h : priv.mt_state ∈ reachable_states) :
    (synaptics_image_sensor_3f priv priv.mt_state).2 ∈ reachable_states := by
  unfold synaptics_image_sensor_3f synaptics_mt_state_set
  dsimp only
  generalize priv.mt_state = m at h ⊢
  simp only [reachable_states, List.mem_cons, List.mem_singleton, List.not_mem_nil,
    or_false] at h
  rcases h with rfl | rfl | rfl | rfl | rfl | rfl | rfl | rfl | rfl | rfl <;>
    simp [reachable_states] <;> split_ifs <;> simp

theorem image_sensor_dispatch_reachable (priv : synaptics_data) (sgm : synaptics_hw_state)
    (h : priv.mt_state ∈ reachable_states) (hsame : priv.agm.mt_state = priv.mt_state) :
    (image_sensor_dispatch priv sgm).2 ∈ reachable_states := by
  unfold image_sensor_dispatch
  rw [hsame]
  split_ifs
  · unfold synaptics_image_sensor_0f synaptics_mt_state_set
    simp [reachable_states]
  · exact image_sensor_1f_reachable priv h
  · exact image_sensor_2f_reachable priv h
  · exact image_sensor_3f_reachable priv h
  · exact h

/-- The invariant kept along a packet sequence without contact-count samples. -/
def reachable_inv (priv : synaptics_data) : Prop :=
  priv.mt_state ∈ reachable_states ∧ priv.agm.mt_state = priv.mt_state

theorem process_packet_reachable (packet : List Byte) (priv : synaptics_data)
    (hno : ¬ is_contact_count_sample priv.info packet) (hinv : reachable_inv priv) :
    reachable_inv (synaptics_process_packet packet priv).1 := by
  obtain ⟨h1, h2⟩ := hinv
  rcases (process_packet_mt_cases packet priv).2 with ⟨e1, e2⟩ | ⟨sgm, e1, e2⟩ | ⟨hr, ht, _, _⟩
  · unfold reachable_inv
    rw [e1, e2]
    exact ⟨h1, h2⟩
  · unfold reachable_inv
    rw [e1, e2]
    exact ⟨image_sensor_dispatch_reachable priv sgm h1 h2, rfl⟩
  · exfalso
    apply hno
    refine ⟨?_, ht⟩
    rw [← hr]
    exact parse_hw_state_ret_info packet _ priv rfl

theorem process_packets_reachable (packets : List (List Byte)) :
    ∀ priv : synaptics_data,
      (∀ pkt ∈ packets, ¬ is_contact_count_sample priv.info pkt) → reachable_inv priv →
      reachable_inv (process_packets priv packets).1 := by
  induction packets with
  | nil =>
    intro priv _ hinv
    exact hinv
  | cons p ps ih =>
    intro priv hno hinv
    have hinfo := (process_packet_mt_cases p priv).1
    have hstep := process_packet_reachable p priv (hno p (List.mem_cons_self _ _)) hinv
    simp only [process_packets]
    apply ih _ _ hstep
    intro pkt hpkt
    rw [hinfo]
    exact hno pkt (List.mem_cons_of_mem _ hpkt)

/-- C30: starting from the zero-initialised device state and processing any
sequence of packets none of which is a contact-count (sub-type 2) secondary
sample, the tracked state stored after every packet is one of {0,0,0},
{0,-1,-1}, {1,-1,-1}, {1,0,-1}, {1,1,-1}, {2,-1,-1}, {2,0,1}, {3,-1,-1},
{3,0,-1}, {3,0,2}; its count is at most 3, its sgm is -1, 0 or 1, and the
buffered secondary state equals the tracked state. -/
theorem reachable_without_contact_count (info : synaptics_device_info)
    (packets : List (List Byte))
    (hno : ∀ pkt ∈ packets, ¬ is_contact_count_sample info pkt) :
    (process_packets (synaptics_data_init info) packets).1.mt_state ∈ reachable_states ∧
    (process_packets (synaptics_data_init info) packets).1.mt_state.count ≤ 3 ∧
    ((process_packets (synaptics_data_init info) packets).1.mt_state.sgm = -1 ∨
      (process_packets (synaptics_data_init info) packets).1.mt_state.sgm = 0 ∨
      (process_packets (synaptics_data_init info) packets).1.mt_state.sgm = 1) ∧
    (process_packets (synaptics_data_init info) packets).1.agm.mt_state =
      (process_packets (synaptics_data_init info) packets).1.mt_state := by
  have hinit : reachable_inv (synaptics_data_init info) := by
    unfold reachable_inv synaptics_data_init hw_state_zero reachable_states
    simp
  obtain ⟨hmem, hsame⟩ := process_packets_reachable packets (synaptics_data_init info) hno hinit
  refine ⟨hmem, ?_, ?_, hsame⟩
  · generalize (process_packets (synaptics_data_init info) packets).1.mt_state = m at hmem
    simp only [reachable_states, List.mem_cons, List.mem_singleton, List.not_mem_nil,
      or_false] at hmem
    rcases hmem with rfl | rfl | rfl | rfl | rfl | rfl | rfl | rfl | rfl | rfl <;> decide
  · generalize (process_packets (synaptics_data_init info) packets).1.mt_state = m at hmem
    simp only [reachable_states, List.mem_cons, List.mem_singleton, List.not_mem_nil,
      or_false] at hmem
    rcases hmem with rfl | rfl | rfl | rfl | rfl | rfl | rfl | rfl | rfl | rfl <;> simp

/-- Witness for C30: two contacts, a gesture sample, then one contact: the
stored state is {1, 1, -1}. -/
theorem reachable_without_contact_count_witness :
    (∀ pkt ∈ [packet_two_fingers, packet_gesture, packet_one_finger],
      ¬ is_contact_count_sample info_image_sensor pkt) ∧
    (process_packets (synaptics_data_init info_image_sensor)
      [packet_two_fingers, packet_gesture, packet_one_finger]).1.mt_state =
        { count := 1, sgm := 1, agm := -1 } ∧
    (process_packets (synaptics_data_init info_image_sensor)
      [packet_two_fingers, packet_gesture, packet_one_finger]).1.mt_state ∈ reachable_states := by
  have hno : ∀ pkt ∈ [packet_two_fingers, packet_gesture, packet_one_finger],
      ¬ is_contact_count_sample info_image_sensor pkt := by
    intro pkt hpkt hsample
    simp only [List.mem_cons, List.mem_singleton, List.not_mem_nil, or_false] at hpkt
    rcases hpkt with rfl | rfl | rfl
    · exact absurd hsample.1 (by decide)
    · exact absurd hsample.2 (by decide)
    · exact absurd hsample.1 (by decide)
  exact ⟨hno, by decide, (reachable_without_contact_count info_image_sensor
    [packet_two_fingers, packet_gesture, packet_one_finger] hno).1⟩

end Synaptics
